import Mathlib

/-!
# k8gb: the DNS providers, the DNS assistant and the reconciler helpers

A shallow embedding of `controllers/providers/dns/infoblox.go`,
`controllers/providers/dns/infoblox-ibclient.go`,
`controllers/providers/dns/factory.go`,
`controllers/providers/assistant/gslb.go`, `controllers/ingress.go`,
`controllers/finalize.go` and
`controllers/internal/utils/reconciler_result.go`, followed by the properties
proved about it.

Conventions of the embedding:

* Go slices are Lean lists (value semantics); where a function goes on reading
  a slice it has re-sliced in place, as `remove` does, the backing array is
  modelled as well.
* Go maps of strings are the lists of their entries, read by key.
* A run-time panic (index or slice bound out of range) is the `none` result of
  the function that would raise it.
* A method that works on a pointer returns the object pointed to together with
  its result.
* The Infoblox object manager (`ibclient.ObjectManager`), the orchestrator
  client, the `IAssistant` interface, the DNS exchange and the clock are the
  outside world: they are explicit arguments, and the object manager and the
  orchestrator are small state machines that also record every request they
  receive.
-/

namespace K8gb

/-! ## Data model -/

/-- The `ibclient.NameServer` record: one entry of a `delegateTo` list. -/
structure NameServer where
  Address : String
  Name : String
deriving DecidableEq, Repr

/-- The `ibclient.ZoneDelegated` record (the fields the provider reads). -/
structure ZoneDelegated where
  Ref : String
  Fqdn : String
  DelegateTo : List NameServer
deriving DecidableEq, Repr

/-- The `ibclient.RecordTXT` record (the fields the provider reads or writes). -/
structure RecordTXT where
  Ref : String
  Name : String
  Text : String
  TTL : Int
  View : String
deriving DecidableEq, Repr

/-- The `depresolver.Override` record. -/
structure Override where
  FakeDNSEnabled : Bool
  FakeInfobloxEnabled : Bool
deriving DecidableEq, Repr

/-- The `depresolver.Config` record (the fields the provider and the provider
factory read). `EdgeDNSType` is the Go type `EdgeDNSType`, an `int`; the last
two fields default to their Go zero values. -/
structure Config where
  ClusterGeoTag : String
  ExtClustersGeoTags : List String
  EdgeDNSServer : String
  EdgeDNSZone : String
  DNSZone : String
  Override : Override
  EdgeDNSType : Int := 0
  K8gbNamespace : String := ""
deriving DecidableEq, Repr

/-- The `Strategy` sub-record of a Gslb; `Type_` is the field `Type` of the
source (a reserved word here), and the last two fields default to their Go
zero values. -/
structure Strategy where
  SplitBrainThresholdSeconds : Int
  DNSTtlSeconds : Int
  Type_ : String := ""
  PrimaryGeoTag : String := ""
deriving DecidableEq, Repr

/-- The specification of an Ingress: the hosts of its rules. -/
structure IngressSpec where
  Hosts : List String
deriving DecidableEq, Repr

/-- The `k8gbv1beta1.Gslb` object (the fields the provider and the reconciler
read): `Strategy` is `Spec.Strategy`, `Ingress` is `Spec.Ingress`, and the
annotations are a map given as the list of its entries. The last three
fields default to their Go zero values. -/
structure Gslb where
  Name : String
  Namespace : String
  Strategy : Strategy
  Annotations : List (String × String) := []
  Finalizers : List String := []
  Ingress : IngressSpec := { Hosts := [] }
deriving DecidableEq, Repr

/-! ## filterOutDelegateTo -/

/-- The loop of `filterOutDelegateTo`, entered at its condition with index `i`:
`for ...; i < len(delegateTo); i++ { if delegateTo[i].Name == fqdn {
delegateTo = append(delegateTo[:i], delegateTo[i+1:]...); i-- } }`.
The first argument bounds the number of condition checks; `none` is an index
out of range or an exhausted bound. -/
def filterOutLoop (fqdn : String) : Nat → List NameServer → Int → Option (List NameServer)
  | 0, _, _ => none
  | fuel + 1, delegateTo, i =>
    if i < (delegateTo.length : Int) then
      if i < 0 then none
      else
        match delegateTo.get? i.toNat with
        | none => none
        | some entry =>
          if entry.Name = fqdn then
            filterOutLoop fqdn fuel
              (delegateTo.take i.toNat ++ delegateTo.drop (i.toNat + 1)) ((i - 1) + 1)
          else
            filterOutLoop fqdn fuel delegateTo (i + 1)
    else some delegateTo

/-- The method `InfobloxProvider.filterOutDelegateTo` (infoblox-ibclient.go, lines 73-81);
the receiver is not used. Every iteration either removes an entry or advances
the index, so `len + 1` condition checks are enough. -/
def filterOutDelegateTo (delegateTo : List NameServer) (fqdn : String) :
    Option (List NameServer) :=
  filterOutLoop fqdn (delegateTo.length + 1) delegateTo 0

/-! ## Names of the DNS records -/

/-- Go `strings.ReplaceAll(s, ".", "-")`. -/
def dashed (s : String) : String :=
  String.mk (s.data.map (fun c => if c = '.' then '-' else c))

/-- The name `gslb-ns-<dashedDNSZone>-<geoTag>.<EdgeDNSZone>` of the authoritative
name server of the cluster tagged `geoTag`. -/
def nsNameFor (config : Config) (geoTag : String) : String :=
  "gslb-ns-" ++ dashed config.DNSZone ++ "-" ++ geoTag ++ "." ++ config.EdgeDNSZone

/-- The name `<gslbName>-heartbeat-<geoTag>.<EdgeDNSZone>` of the heartbeat TXT
record of the cluster tagged `geoTag`; for the local tag this is the
`fmt.Sprintf("%s-heartbeat-%s.%s", ...)` of infoblox.go, lines 105 and 150. -/
def heartbeatFQDN (gslb : Gslb) (config : Config) (geoTag : String) : String :=
  gslb.Name ++ "-heartbeat-" ++ geoTag ++ "." ++ config.EdgeDNSZone

/-- Modelled from the spec: `nsServerName`, called by infoblox.go but declared in a
file that is not among the sources. The spec gives the authoritative NS name
as `gslb-ns-<dashedDNSZone>-<geoTag>.<EdgeDNSZone>`, where `dashedDNSZone`
replaces `.` with `-`, and `nsName_self` as that name for `ClusterGeoTag`. -/
def nsServerName (config : Config) : String :=
  nsNameFor config config.ClusterGeoTag

/-- Modelled from the spec: `nsServerNameExt`, declared in a file that is not among
the sources: the authoritative NS name of every peer tag, in configured
order (infoblox_test.go expects `gslb-ns-cloud-example-com-za.example.com`
for the tag `za`). -/
def nsServerNameExt (config : Config) : List String :=
  config.ExtClustersGeoTags.map (nsNameFor config)

/-- Modelled from the spec: `getExternalClusterHeartbeatFQDNs`, declared in a file
that is not among the sources: for each peer tag `t`, in configured order,
the heartbeat name `<gslb>-heartbeat-<t>.<EdgeDNSZone>`. -/
def getExternalClusterHeartbeatFQDNs (gslb : Gslb) (config : Config) : List String :=
  config.ExtClustersGeoTags.map (heartbeatFQDN gslb config)

/-! ## The outside world -/

/-- A request received by the Infoblox object manager (`ibclient.ObjectManager`). -/
inductive Call where
  | GetZoneDelegated (fqdn : String)
  | CreateZoneDelegated (fqdn : String) (delegateTo : List NameServer)
  | UpdateZoneDelegated (ref : String) (delegateTo : List NameServer)
  | DeleteZoneDelegated (ref : String)
  | GetTXTRecord (name : String)
  | CreateTXTRecord (name : String) (text : String) (ttl : Int) (view : String)
  | UpdateTXTRecord (name : String) (text : String)
  | DeleteTXTRecord (ref : String)
deriving DecidableEq, Repr

/-- A request that creates, updates or deletes the delegated zone. -/
def Call.isZoneWrite : Call → Bool
  | .CreateZoneDelegated _ _ => true
  | .UpdateZoneDelegated _ _ => true
  | .DeleteZoneDelegated _ => true
  | _ => false

/-- A request that creates, updates or deletes a TXT record. -/
def Call.isTXTWrite : Call → Bool
  | .CreateTXTRecord _ _ _ _ => true
  | .UpdateTXTRecord _ _ => true
  | .DeleteTXTRecord _ => true
  | _ => false

/-- A request that hands a delegation set to Infoblox. -/
def Call.writesDelegation : Call → Bool
  | .CreateZoneDelegated _ _ => true
  | .UpdateZoneDelegated _ _ => true
  | _ => false

/-- The errors the embedded functions return. `indexOutOfRange` stands for the Go
run-time panic of that name (the call does not return); `notFound`,
`alreadyExists` and `conflict` are the orchestrator API errors of these
reasons and `api` is any other API error. -/
inductive Err where
  | connect
  | request (c : Call)
  | zoneMismatch (got : String) (want : String)
  | assistant (msg : String)
  | exchange (ns : String)
  | parse (value : String)
  | expired
  | indexOutOfRange
  | notFound
  | alreadyExists
  | conflict
  | api (msg : String)
deriving DecidableEq, Repr

/-- The Infoblox grid behind the object manager.
`zone` is the object the grid answers the delegated-zone lookup with (its
`Fqdn` need not be the one asked for), `txts` are its TXT records, `refuses`
tells which requests it answers with an error, `unreachable` whether
`ibclient.NewConnector` fails, and `log` lists the requests received so far. -/
structure Grid where
  zone : Option ZoneDelegated
  txts : List RecordTXT
  refuses : Call → Bool
  unreachable : Bool
  log : List Call

/-- The grid after it has received request `c`. -/
def Grid.received (g : Grid) (c : Call) : Grid :=
  { g with log := g.log ++ [c] }

/-- The requests `g2` has received since it was `g1`. -/
def issued (g1 g2 : Grid) : List Call :=
  g2.log.drop g1.log.length

/-- The object manager call `GetZoneDelegated(fqdn)`. -/
def GetZoneDelegated (g : Grid) (fqdn : String) : Except Err (Option ZoneDelegated) × Grid :=
  if g.refuses (.GetZoneDelegated fqdn) then
    (.error (.request (.GetZoneDelegated fqdn)), g.received (.GetZoneDelegated fqdn))
  else (.ok g.zone, g.received (.GetZoneDelegated fqdn))

/-- The object manager call `CreateZoneDelegated(fqdn, delegateTo)`: on success the
grid holds a zone with a reference of its own making. -/
def CreateZoneDelegated (g : Grid) (fqdn : String) (delegateTo : List NameServer) :
    Option Err × Grid :=
  if g.refuses (.CreateZoneDelegated fqdn delegateTo) then
    (some (.request (.CreateZoneDelegated fqdn delegateTo)),
      g.received (.CreateZoneDelegated fqdn delegateTo))
  else
    (none, { g.received (.CreateZoneDelegated fqdn delegateTo) with
      zone := some { Ref := "zone_delegated/" ++ fqdn, Fqdn := fqdn, DelegateTo := delegateTo } })

/-- The object manager call `UpdateZoneDelegated(ref, delegateTo)`: on success the
zone with that reference holds the new list. -/
def UpdateZoneDelegated (g : Grid) (ref : String) (delegateTo : List NameServer) :
    Option Err × Grid :=
  if g.refuses (.UpdateZoneDelegated ref delegateTo) then
    (some (.request (.UpdateZoneDelegated ref delegateTo)),
      g.received (.UpdateZoneDelegated ref delegateTo))
  else
    (none, { g.received (.UpdateZoneDelegated ref delegateTo) with
      zone := g.zone.map (fun z => if z.Ref = ref then { z with DelegateTo := delegateTo } else z) })

/-- The object manager call `DeleteZoneDelegated(ref)`. -/
def DeleteZoneDelegated (g : Grid) (ref : String) : Option Err × Grid :=
  if g.refuses (.DeleteZoneDelegated ref) then
    (some (.request (.DeleteZoneDelegated ref)), g.received (.DeleteZoneDelegated ref))
  else
    (none, { g.received (.DeleteZoneDelegated ref) with
      zone := g.zone.bind (fun z => if z.Ref = ref then none else some z) })

/-- The object manager call `GetTXTRecord(name)`: the first record of that name. -/
def GetTXTRecord (g : Grid) (name : String) : Except Err (Option RecordTXT) × Grid :=
  if g.refuses (.GetTXTRecord name) then
    (.error (.request (.GetTXTRecord name)), g.received (.GetTXTRecord name))
  else (.ok (g.txts.find? (fun r => decide (r.Name = name))), g.received (.GetTXTRecord name))

/-- The object manager call `CreateTXTRecord(name, text, ttl, view)`. -/
def CreateTXTRecord (g : Grid) (name : String) (text : String) (ttl : Int) (view : String) :
    Option Err × Grid :=
  if g.refuses (.CreateTXTRecord name text ttl view) then
    (some (.request (.CreateTXTRecord name text ttl view)),
      g.received (.CreateTXTRecord name text ttl view))
  else
    (none, { g.received (.CreateTXTRecord name text ttl view) with
      txts := g.txts ++
        [{ Ref := "record:txt/" ++ name, Name := name, Text := text, TTL := ttl, View := view }] })

/-- The effect of a text update: the first record called `name` gets the new
text and keeps its other fields. -/
def setText (name : String) (text : String) : List RecordTXT → List RecordTXT
  | [] => []
  | r :: rs => if r.Name = name then { r with Text := text } :: rs else r :: setText name text rs

/-- The object manager call `UpdateTXTRecord(name, text)`; the call takes no TTL. -/
def UpdateTXTRecord (g : Grid) (name : String) (text : String) : Option Err × Grid :=
  if g.refuses (.UpdateTXTRecord name text) then
    (some (.request (.UpdateTXTRecord name text)), g.received (.UpdateTXTRecord name text))
  else
    (none, { g.received (.UpdateTXTRecord name text) with txts := setText name text g.txts })

/-- The object manager call `DeleteTXTRecord(ref)`. -/
def DeleteTXTRecord (g : Grid) (ref : String) : Option Err × Grid :=
  if g.refuses (.DeleteTXTRecord ref) then
    (some (.request (.DeleteTXTRecord ref)), g.received (.DeleteTXTRecord ref))
  else
    (none, { g.received (.DeleteTXTRecord ref) with
      txts := g.txts.filter (fun r => decide (r.Ref ≠ ref)) })

/-- The methods of the `assistant.IAssistant` interface the provider calls, as
the results they return. -/
structure IAssistant where
  GslbIngressExposedIPs : Gslb → Except Err (List String)
  InspectTXTThreshold : String → Bool → Int → Option Err

/-- The clock and the `time` package: `Now` is `time.Now().UTC()` in nanoseconds
since the Unix epoch, `Format layout t` is `t.Format(layout)` and
`Parse layout value` is `time.Parse(layout, value)` (`none` when it fails). -/
structure Clock where
  Now : Int
  Format : String → Int → String
  Parse : String → String → Option Int

/-- The largest `time.Duration`, in nanoseconds. -/
def maxDuration : Int := 2 ^ 63 - 1

/-- The smallest `time.Duration`, in nanoseconds. -/
def minDuration : Int := -(2 ^ 63)

/-- Conversion to a 64-bit signed integer, wrapping around. -/
def wrapInt64 (x : Int) : Int := (x + 2 ^ 63) % 2 ^ 64 - 2 ^ 63

/-- The constant `time.Second`, in nanoseconds. -/
def Second : Int := 1000000000

/-- Go `Time.Sub`: the difference `t - u` as a Duration, replaced by the largest
or smallest Duration when it does not fit. -/
def timeSub (t u : Int) : Int :=
  if t - u > maxDuration then maxDuration
  else if t - u < minDuration then minDuration
  else t - u

/-- The layout both the provider and the assistant use for heartbeat timestamps. -/
def timestampLayout : String := "2006-01-02T15:04:05"

/-! ## The Infoblox provider -/

/-- The `InfobloxProvider` record. -/
structure InfobloxProvider where
  assistant : IAssistant
  config : Config

/-- The method `InfobloxProvider.infobloxConnection` (infoblox-ibclient.go, lines 26-63), as the error
it returns: with `FakeInfobloxEnabled` no connector is opened, otherwise
`ibclient.NewConnector` may fail. -/
def infobloxConnection (p : InfobloxProvider) (g : Grid) : Option Err :=
  if p.config.Override.FakeInfobloxEnabled then none
  else if g.unreachable then some .connect else none

/-- The method `InfobloxProvider.checkZoneDelegated` (infoblox-ibclient.go, lines 65-71). -/
def checkZoneDelegated (p : InfobloxProvider) (findZone : ZoneDelegated) : Option Err :=
  if findZone.Fqdn ≠ p.config.DNSZone then
    some (.zoneMismatch findZone.Fqdn p.config.DNSZone)
  else none

/-- Lines 53-58 of infoblox.go: one name server per local address, appended in order. -/
def ownDelegateTo (p : InfobloxProvider) (addresses : List String) : List NameServer :=
  addresses.foldl
    (fun delegateTo address =>
      delegateTo ++ [{ Address := address, Name := nsServerName p.config }]) []

/-- The expression `time.Second*time.Duration(gslb.Spec.Strategy.SplitBrainThresholdSeconds)`
of infoblox.go, line 82, in 64-bit arithmetic. -/
def splitBrainDuration (gslb : Gslb) : Int :=
  wrapInt64 (Second * wrapInt64 gslb.Strategy.SplitBrainThresholdSeconds)

/-- Lines 78-88 of infoblox.go: for each heartbeat name in turn, when the assistant
returns an error the entries named `extCluster` are filtered out. -/
def dropStale (p : InfobloxProvider) (gslb : Gslb) :
    List String → List NameServer → Option (List NameServer)
  | [], existingDelegateTo => some existingDelegateTo
  | extCluster :: rest, existingDelegateTo =>
    match p.assistant.InspectTXTThreshold extCluster p.config.Override.FakeDNSEnabled
        (splitBrainDuration gslb) with
    | some _ =>
      match filterOutDelegateTo existingDelegateTo extCluster with
      | none => none
      | some filtered => dropStale p gslb rest filtered
    | none => dropStale p gslb rest existingDelegateTo

/-- Lines 72-88 of infoblox.go: the list handed to `UpdateZoneDelegated`. -/
def mergedDelegateTo (p : InfobloxProvider) (gslb : Gslb) (findZone : ZoneDelegated)
    (delegateTo : List NameServer) : Option (List NameServer) :=
  match filterOutDelegateTo findZone.DelegateTo (nsServerName p.config) with
  | none => none
  | some existingDelegateTo =>
    dropStale p gslb (getExternalClusterHeartbeatFQDNs gslb p.config)
      (existingDelegateTo ++ delegateTo)

/-- Lines 65-102 of infoblox.go: the zone found is checked and updated, or a zone
is created. -/
def writeDelegation (p : InfobloxProvider) (gslb : Gslb) (findZone : Option ZoneDelegated)
    (delegateTo : List NameServer) (g : Grid) : Option Err × Grid :=
  match findZone with
  | some findZone =>
    match checkZoneDelegated p findZone with
    | some err => (some err, g)
    | none =>
      if 0 < findZone.Ref.length then
        match mergedDelegateTo p gslb findZone delegateTo with
        | none => (some .indexOutOfRange, g)
        | some existingDelegateTo => UpdateZoneDelegated g findZone.Ref existingDelegateTo
      else (none, g)
  | none => CreateZoneDelegated g p.config.DNSZone delegateTo

/-- Lines 104-123 of infoblox.go: the heartbeat TXT record is created or updated. -/
def writeHeartbeat (p : InfobloxProvider) (clock : Clock) (gslb : Gslb) (g : Grid) :
    Option Err × Grid :=
  let edgeTimestamp := clock.Format timestampLayout clock.Now
  let heartbeatTXTName := heartbeatFQDN gslb p.config p.config.ClusterGeoTag
  match GetTXTRecord g heartbeatTXTName with
  | (.error err, g1) => (some err, g1)
  | (.ok none, g1) =>
    CreateTXTRecord g1 heartbeatTXTName edgeTimestamp gslb.Strategy.DNSTtlSeconds "default"
  | (.ok (some _), g1) => UpdateTXTRecord g1 heartbeatTXTName edgeTimestamp

/-- The method `InfobloxProvider.CreateZoneDelegationForExternalDNS` (infoblox.go, lines 44-124): the
error returned (`none` is `nil`) and the grid afterwards. -/
def CreateZoneDelegationForExternalDNS (p : InfobloxProvider) (clock : Clock) (gslb : Gslb)
    (g : Grid) : Option Err × Grid :=
  match infobloxConnection p g with
  | some err => (some err, g)
  | none =>
    match p.assistant.GslbIngressExposedIPs gslb with
    | .error err => (some err, g)
    | .ok addresses =>
      match GetZoneDelegated g p.config.DNSZone with
      | (.error err, g1) => (some err, g1)
      | (.ok findZone, g1) =>
        match writeDelegation p gslb findZone (ownDelegateTo p addresses) g1 with
        | (some err, g2) => (some err, g2)
        | (none, g2) => writeHeartbeat p clock gslb g2

/-- Lines 136-148 of infoblox.go: the zone found is checked and deleted. -/
def deleteDelegation (p : InfobloxProvider) (findZone : Option ZoneDelegated) (g : Grid) :
    Option Err × Grid :=
  match findZone with
  | some findZone =>
    match checkZoneDelegated p findZone with
    | some err => (some err, g)
    | none =>
      if 0 < findZone.Ref.length then DeleteZoneDelegated g findZone.Ref
      else (none, g)
  | none => (none, g)

/-- Lines 150-165 of infoblox.go: the local heartbeat TXT record is deleted. -/
def deleteHeartbeat (p : InfobloxProvider) (gslb : Gslb) (g : Grid) : Option Err × Grid :=
  match GetTXTRecord g (heartbeatFQDN gslb p.config p.config.ClusterGeoTag) with
  | (.error err, g1) => (some err, g1)
  | (.ok none, g1) => (none, g1)
  | (.ok (some findTXT), g1) =>
    if 0 < findTXT.Ref.length then DeleteTXTRecord g1 findTXT.Ref
    else (none, g1)

/-- The method `InfobloxProvider.Finalize` (infoblox.go, lines 126-166). -/
def Finalize (p : InfobloxProvider) (gslb : Gslb) (g : Grid) : Option Err × Grid :=
  match infobloxConnection p g with
  | some err => (some err, g)
  | none =>
    match GetZoneDelegated g p.config.DNSZone with
    | (.error err, g1) => (some err, g1)
    | (.ok findZone, g1) =>
      match deleteDelegation p findZone g1 with
      | (some err, g2) => (some err, g2)
      | (none, g2) => deleteHeartbeat p gslb g2

/-! ## The DNS assistant -/

/-- The `GslbLoggerAssistant` record (without its orchestrator client). -/
structure GslbLoggerAssistant where
  k8gbNamespace : String
  edgeDNSServer : String
deriving DecidableEq, Repr

/-- A resource record of a DNS reply (`dns.RR`): a `*dns.TXT` record or a record
of another type, each as the text its `String()` method renders (the header
fields name, TTL, class and type, then the data, separated by tabs). -/
inductive RR where
  | TXT (rendered : String)
  | other (rendered : String)
deriving DecidableEq, Repr

/-- A DNS reply (`dns.Msg`): its answer section. -/
structure Msg where
  Answer : List RR
deriving DecidableEq, Repr

/-- The network: `Exchange name qtype ns` is `dns.Exchange` of the question
(name, qtype) with the server `ns`, `none` when it returns an error. -/
structure Resolver where
  Exchange : String → Nat → String → Option Msg

/-- The constant `dns.TypeA`. -/
def TypeA : Nat := 1

/-- The constant `dns.TypeTXT`. -/
def TypeTXT : Nat := 16

/-- The tab character. -/
def tab : Char := Char.ofNat 9

/-- The double quote character. -/
def quote : Char := Char.ofNat 34

/-- The function `dns.Fqdn`: the name with a dot at its end. -/
def dnsFqdn (s : String) : String :=
  if s.data.getLast? = some '.' then s else s ++ "."

/-- The function `overrideWithFakeDNS` (gslb.go, lines 249-256). -/
def overrideWithFakeDNS (fakeDNSEnabled : Bool) (server : String) : String :=
  if fakeDNSEnabled then "127.0.0.1:7753" else server ++ ":53"

/-- Go `strings.Split(s, sep)` for a separator of one character. -/
def splitOnChar (sep : Char) : List Char → List (List Char)
  | [] => [[]]
  | c :: cs =>
    if c = sep then [] :: splitOnChar sep cs
    else
      match splitOnChar sep cs with
      | [] => [[c]]
      | field :: fields => (c :: field) :: fields

/-- Go `strings.Trim(s, cutset)` for a cutset of one character. -/
def trimChar (cut : Char) (s : List Char) : List Char :=
  ((s.dropWhile (fun c => decide (c = cut))).reverse.dropWhile
    (fun c => decide (c = cut))).reverse

/-- Lines 190-197 of gslb.go: the timestamp read from the first answer,
`strings.Trim(strings.Split(t.String(), "\t")[4], "\"")` when it is a TXT
record and the empty string otherwise; `none` is the index out of range. -/
def txtTimestamp (txt : Msg) : Option String :=
  match txt.Answer with
  | RR.TXT rendered :: _ =>
    match (splitOnChar tab rendered.data).get? 4 with
    | none => none
    | some field => some (String.mk (trimChar quote field))
  | _ => some ""

/-- The method `GslbLoggerAssistant.InspectTXTThreshold` (gslb.go, lines 181-218): the error
returned, `none` for `nil`. -/
def InspectTXTThreshold (r : GslbLoggerAssistant) (dns : Resolver) (clock : Clock)
    (fqdn : String) (fakeDNSEnabled : Bool) (splitBrainThreshold : Int) : Option Err :=
  match dns.Exchange (dnsFqdn fqdn) TypeTXT (overrideWithFakeDNS fakeDNSEnabled r.edgeDNSServer)
  with
  | none => some (.exchange (overrideWithFakeDNS fakeDNSEnabled r.edgeDNSServer))
  | some txt =>
    match txtTimestamp txt with
    | none => some .indexOutOfRange
    | some timestamp =>
      if 0 < timestamp.length then
        match clock.Parse "2006-01-02T15:04:05" timestamp with
        | none => some (.parse timestamp)
        | some timeFromTXT =>
          if timeSub clock.Now timeFromTXT > splitBrainThreshold then some .expired
          else none
      else some .expired

/-- The text the `String()` method of a record renders. -/
def RR.String : RR → String
  | .TXT rendered => rendered
  | .other rendered => rendered

/-- A question sent with `dns.Exchange`: name, type and server. -/
structure Question where
  name : String
  qtype : Nat
  server : String
deriving DecidableEq, Repr

/-- Lines 235-240 of gslb.go: `strings.Split(A.String(), "\t")[4]` of every answer
record, in order; `none` is the index out of range. -/
def clusterTargetsOf : List RR → Option (List String)
  | [] => some []
  | A :: rest =>
    match (splitOnChar tab A.String.data).get? 4 with
    | none => none
    | some IP =>
      match clusterTargetsOf rest with
      | none => none
      | some clusterTargets => some (String.mk IP :: clusterTargets)

/-- The loop of `GetExternalTargets` (gslb.go, lines 222-245) over the clusters still to
visit, with the current values of the variables `host` and `targets` and
the questions sent so far. The result is the value returned (`none` for a
panic) and the questions sent. -/
def externalTargetsLoop (dns : Resolver) (fakeDNSEnabled : Bool) :
    List String → String → List String → List Question → Option (List String) × List Question
  | [], _, targets, sent => (some targets, sent)
  | cluster :: rest, host, targets, sent =>
    match dns.Exchange ("localtargets-" ++ host ++ ".") TypeA
        (overrideWithFakeDNS fakeDNSEnabled cluster) with
    | none =>
      (some targets,
        sent ++ [⟨"localtargets-" ++ host ++ ".", TypeA,
          overrideWithFakeDNS fakeDNSEnabled cluster⟩])
    | some a =>
      match clusterTargetsOf a.Answer with
      | none =>
        (none,
          sent ++ [⟨"localtargets-" ++ host ++ ".", TypeA,
            overrideWithFakeDNS fakeDNSEnabled cluster⟩])
      | some clusterTargets =>
        externalTargetsLoop dns fakeDNSEnabled rest ("localtargets-" ++ host ++ ".")
          (if 0 < clusterTargets.length then targets ++ clusterTargets else targets)
          (sent ++ [⟨"localtargets-" ++ host ++ ".", TypeA,
            overrideWithFakeDNS fakeDNSEnabled cluster⟩])

/-- The method `GslbLoggerAssistant.GetExternalTargets` (gslb.go, lines 220-247): the targets
returned, `none` for a panic. The receiver is not used. -/
def GetExternalTargets (dns : Resolver) (host : String) (fakeDNSEnabled : Bool)
    (extGslbClusters : List String) : Option (List String) :=
  (externalTargetsLoop dns fakeDNSEnabled extGslbClusters host [] []).1

/-- The questions a call of `GetExternalTargets` sends, in order. -/
def externalTargetsQuestions (dns : Resolver) (host : String) (fakeDNSEnabled : Bool)
    (extGslbClusters : List String) : List Question :=
  (externalTargetsLoop dns fakeDNSEnabled extGslbClusters host [] []).2

/-! ## The finalizer list -/

/-- The function `contains` (finalize.go, lines 51-58). -/
def contains : List String → String → Bool
  | [], _ => false
  | v :: rest, s => if v = s then true else contains rest s

/-- One iteration of the loop of `remove` at index `i`: `array` is the backing
array of the slice ranged over, which `append` shifts in place, and `len` is
the current length of the variable `list`. The element read is `array[i]`;
when it equals `s`, `list[i+1:]` is out of range if `i + 1 > len`, and
otherwise the elements after `i` move one place down and `list` gets one
shorter. -/
def removeStep (s : String) (array : List String) (len : Nat) (i : Nat) :
    Option (List String × Nat) :=
  match array.get? i with
  | none => none
  | some v =>
    if v = s then
      if i + 1 ≤ len then
        some (array.take i ++ (array.take len).drop (i + 1) ++ array.drop (len - 1), len - 1)
      else none
    else some (array, len)

/-- The loop `for i, v := range list` of `remove` over the indices still to visit. -/
def removeLoop (s : String) : List Nat → List String → Nat → Option (List String)
  | [], array, len => some (array.take len)
  | i :: rest, array, len =>
    match removeStep s array len i with
    | none => none
    | some (array1, len1) => removeLoop s rest array1 len1

/-- The function `remove` (finalize.go, lines 60-67): the range expression is evaluated
once, so the loop visits every index of the list it was given; `none` is
the panic `slice bounds out of range`. -/
def remove (list : List String) (s : String) : Option (List String) :=
  removeLoop s (List.range list.length) list list.length

/-! ## Requeue decisions -/

/-- The `ctrl.Result` record. -/
structure Result where
  Requeue : Bool
  RequeueAfter : Int
deriving DecidableEq, Repr

/-- The `ReconcileResultHandler` record (without its logger). -/
structure ReconcileResultHandler where
  delayedResult : Result
deriving DecidableEq, Repr

/-- The function `NewReconcileResultHandler` (reconciler_result.go, lines 31-36);
`time.Second * time.Duration(reconcileAfter)` is 64-bit arithmetic. -/
def NewReconcileResultHandler (reconcileAfter : Int) : ReconcileResultHandler :=
  { delayedResult :=
      { Requeue := false, RequeueAfter := wrapInt64 (Second * wrapInt64 reconcileAfter) } }

/-- The method `Stop` (reconciler_result.go, lines 39-42). -/
def ReconcileResultHandler.Stop (_r : ReconcileResultHandler) : Result × Option Err :=
  ({ Requeue := false, RequeueAfter := 0 }, none)

/-- The method `RequeueError` (reconciler_result.go, lines 46-49). -/
def ReconcileResultHandler.RequeueError (_r : ReconcileResultHandler) (err : Option Err) :
    Result × Option Err :=
  ({ Requeue := false, RequeueAfter := 0 }, err)

/-- The method `Requeue` (reconciler_result.go, lines 55-57). -/
def ReconcileResultHandler.Requeue (r : ReconcileResultHandler) : Result × Option Err :=
  (r.delayedResult, none)

/-- The method `RequeueNow` (reconciler_result.go, lines 59-61). -/
def ReconcileResultHandler.RequeueNow (_r : ReconcileResultHandler) : Result × Option Err :=
  ({ Requeue := true, RequeueAfter := 0 }, none)

/-! ## The orchestrator -/

/-- One entry of `Status.LoadBalancer.Ingress`. -/
structure LoadBalancerIngress where
  IP : String
  Hostname : String
deriving DecidableEq, Repr

/-- The `v1beta1.Ingress` object; `Status` is `Status.LoadBalancer.Ingress` and the
annotations are a map given as the list of its entries. -/
structure Ingress where
  Name : String
  Namespace : String
  Annotations : List (String × String)
  Spec : IngressSpec
  Status : List LoadBalancerIngress
deriving DecidableEq, Repr

/-- The `externaldns.Endpoint` record. -/
structure Endpoint where
  DNSName : String
  RecordType : String
  RecordTTL : Int
  Targets : List String
deriving DecidableEq, Repr

/-- The `externaldns.DNSEndpointSpec` record. -/
structure DNSEndpointSpec where
  Endpoints : List Endpoint
deriving DecidableEq, Repr

/-- The `externaldns.DNSEndpoint` object. -/
structure DNSEndpoint where
  Name : String
  Namespace : String
  Annotations : List (String × String)
  Spec : DNSEndpointSpec
deriving DecidableEq, Repr

/-- A request received by the orchestrator API through `client.Client`. -/
inductive KubeCall where
  | GetIngress (nspace : String) (name : String)
  | CreateIngress (i : Ingress)
  | UpdateIngress (i : Ingress)
  | GetDNSEndpoint (nspace : String) (name : String)
  | CreateDNSEndpoint (e : DNSEndpoint)
  | UpdateDNSEndpoint (e : DNSEndpoint)
deriving DecidableEq, Repr

/-- A request that creates or updates an object. -/
def KubeCall.isWrite : KubeCall → Bool
  | .GetIngress _ _ => false
  | .GetDNSEndpoint _ _ => false
  | _ => true

/-- The orchestrator as a store keyed by (namespace, name): the objects it holds,
the error `fails` it answers a request with for a reason of its own (an
outage, a race with another writer), and the requests received so far. -/
structure Kube where
  ingresses : List Ingress
  endpoints : List DNSEndpoint
  fails : KubeCall → Option Err
  log : List KubeCall

/-- The store after it has received request `c`. -/
def Kube.received (k : Kube) (c : KubeCall) : Kube :=
  { k with log := k.log ++ [c] }

/-- The requests `k2` has received since it was `k1`. -/
def issuedKube (k1 k2 : Kube) : List KubeCall :=
  k2.log.drop k1.log.length

/-- The Ingress stored under (namespace, name). -/
def Kube.ingress (k : Kube) (nspace : String) (name : String) : Option Ingress :=
  k.ingresses.find? (fun i => decide (i.Namespace = nspace ∧ i.Name = name))

/-- The DNSEndpoint stored under (namespace, name). -/
def Kube.endpoint (k : Kube) (nspace : String) (name : String) : Option DNSEndpoint :=
  k.endpoints.find? (fun e => decide (e.Namespace = nspace ∧ e.Name = name))

/-- The first Ingress with the key of `i` replaced by `i`. -/
def replaceIngress (i : Ingress) : List Ingress → List Ingress
  | [] => []
  | x :: xs =>
    if x.Namespace = i.Namespace ∧ x.Name = i.Name then i :: xs
    else x :: replaceIngress i xs

/-- The first DNSEndpoint with the key of `e` replaced by `e`. -/
def replaceEndpoint (e : DNSEndpoint) : List DNSEndpoint → List DNSEndpoint
  | [] => []
  | x :: xs =>
    if x.Namespace = e.Namespace ∧ x.Name = e.Name then e :: xs
    else x :: replaceEndpoint e xs

/-- The client call `Get` for an Ingress: NotFound when none is stored under the key. -/
def GetIngress (k : Kube) (nspace : String) (name : String) : Except Err Ingress × Kube :=
  match k.fails (.GetIngress nspace name) with
  | some err => (.error err, k.received (.GetIngress nspace name))
  | none =>
    match k.ingress nspace name with
    | some i => (.ok i, k.received (.GetIngress nspace name))
    | none => (.error .notFound, k.received (.GetIngress nspace name))

/-- The client call `Create` for an Ingress: AlreadyExists when the key is taken. -/
def CreateIngress (k : Kube) (i : Ingress) : Option Err × Kube :=
  match k.fails (.CreateIngress i) with
  | some err => (some err, k.received (.CreateIngress i))
  | none =>
    match k.ingress i.Namespace i.Name with
    | some _ => (some .alreadyExists, k.received (.CreateIngress i))
    | none => (none, { k.received (.CreateIngress i) with ingresses := k.ingresses ++ [i] })

/-- The client call `Update` for an Ingress: NotFound when none is stored under the key. -/
def UpdateIngress (k : Kube) (i : Ingress) : Option Err × Kube :=
  match k.fails (.UpdateIngress i) with
  | some err => (some err, k.received (.UpdateIngress i))
  | none =>
    match k.ingress i.Namespace i.Name with
    | none => (some .notFound, k.received (.UpdateIngress i))
    | some _ =>
      (none, { k.received (.UpdateIngress i) with ingresses := replaceIngress i k.ingresses })

/-- The client call `Get` for a DNSEndpoint. -/
def GetDNSEndpoint (k : Kube) (nspace : String) (name : String) :
    Except Err DNSEndpoint × Kube :=
  match k.fails (.GetDNSEndpoint nspace name) with
  | some err => (.error err, k.received (.GetDNSEndpoint nspace name))
  | none =>
    match k.endpoint nspace name with
    | some e => (.ok e, k.received (.GetDNSEndpoint nspace name))
    | none => (.error .notFound, k.received (.GetDNSEndpoint nspace name))

/-- The client call `Create` for a DNSEndpoint. -/
def CreateDNSEndpoint (k : Kube) (e : DNSEndpoint) : Option Err × Kube :=
  match k.fails (.CreateDNSEndpoint e) with
  | some err => (some err, k.received (.CreateDNSEndpoint e))
  | none =>
    match k.endpoint e.Namespace e.Name with
    | some _ => (some .alreadyExists, k.received (.CreateDNSEndpoint e))
    | none => (none, { k.received (.CreateDNSEndpoint e) with endpoints := k.endpoints ++ [e] })

/-- The client call `Update` for a DNSEndpoint. -/
def UpdateDNSEndpoint (k : Kube) (e : DNSEndpoint) : Option Err × Kube :=
  match k.fails (.UpdateDNSEndpoint e) with
  | some err => (some err, k.received (.UpdateDNSEndpoint e))
  | none =>
    match k.endpoint e.Namespace e.Name with
    | none => (some .notFound, k.received (.UpdateDNSEndpoint e))
    | some _ =>
      (none, { k.received (.UpdateDNSEndpoint e) with
        endpoints := replaceEndpoint e k.endpoints })

/-- The function `errors.IsNotFound`, on an error that is not nil. -/
def IsNotFound : Err → Bool
  | .notFound => true
  | _ => false

/-- The function `errors.IsConflict`; `none` is the nil error. -/
def IsConflict : Option Err → Bool
  | some .conflict => true
  | _ => false

/-! ## The assistant and the orchestrator -/

/-- The loop of `GslbIngressExposedIPs` (gslb.go, lines 106-118) over the entries still to
visit, with the addresses collected so far. `dig` is `utils.Dig`, which is
declared in a file that is not among the sources. -/
def ingressIPsLoop (dig : String → String → Except Err (List String)) (edgeDNSServer : String) :
    List LoadBalancerIngress → List String → Except Err (List String)
  | [], gslbIngressIPs => .ok gslbIngressIPs
  | ip :: rest, gslbIngressIPs =>
    if 0 < ip.Hostname.length then
      match dig edgeDNSServer ip.Hostname with
      | .error err => .error err
      | .ok IPs =>
        ingressIPsLoop dig edgeDNSServer rest
          ((if 0 < ip.IP.length then gslbIngressIPs ++ [ip.IP] else gslbIngressIPs) ++ IPs)
    else
      ingressIPsLoop dig edgeDNSServer rest
        (if 0 < ip.IP.length then gslbIngressIPs ++ [ip.IP] else gslbIngressIPs)

/-- The method `GslbLoggerAssistant.GslbIngressExposedIPs` (gslb.go, lines 88-121). -/
def GslbIngressExposedIPs (r : GslbLoggerAssistant)
    (dig : String → String → Except Err (List String)) (gslb : Gslb) (k : Kube) :
    Except Err (List String) :=
  match (GetIngress k gslb.Namespace gslb.Name).1 with
  | .error err => .error err
  | .ok gslbIngress => ingressIPsLoop dig r.edgeDNSServer gslbIngress.Status []

/-- The method `GslbLoggerAssistant.SaveDNSEndpoint` (gslb.go, lines 124-161): the error returned
and the store afterwards. The receiver is used for its client only. -/
def SaveDNSEndpoint (nspace : String) (i : DNSEndpoint) (k : Kube) : Option Err × Kube :=
  match GetDNSEndpoint k nspace i.Name with
  | (.error err, k1) =>
    if IsNotFound err then CreateDNSEndpoint k1 i
    else (some err, k1)
  | (.ok found, k1) => UpdateDNSEndpoint k1 { found with Spec := i.Spec }

/-! ## The managed Ingress -/

/-- The value `m[key]` of a Go map given by its entries: the empty string when the
key is absent. -/
def annotationValue (m : List (String × String)) (key : String) : String :=
  match m.find? (fun kv => decide (kv.1 = key)) with
  | some kv => kv.2
  | none => ""

/-- The function `ingressEqual` (ingress.go, lines 101-108). -/
def ingressEqual (ing1 : Ingress) (ing2 : Ingress) : Bool :=
  if ing2.Annotations.all (fun kv => decide (annotationValue ing1.Annotations kv.1 = kv.2)) then
    decide (ing1.Spec = ing2.Spec)
  else false

/-- Modelled from the spec: `utils.MergeAnnotations`, called by `saveIngress` but
declared in a file that is not among the sources. The spec says of the
merge that the annotations of the desired Ingress are authoritative and the
others are preserved. -/
def MergeAnnotations (target : List (String × String)) (source : List (String × String)) :
    List (String × String) :=
  target.filter (fun kv => !source.any (fun sv => decide (sv.1 = kv.1))) ++ source

/-- The method `GslbReconciler.saveIngress` (ingress.go, lines 54-99): the error returned and the
store afterwards. -/
def saveIngress (gslb : Gslb) (i : Ingress) (k : Kube) : Option Err × Kube :=
  match GetIngress k gslb.Namespace gslb.Name with
  | (.error err, k1) =>
    if IsNotFound err then CreateIngress k1 i
    else (some err, k1)
  | (.ok found, k1) =>
    if !ingressEqual found i then
      match UpdateIngress k1
          { found with
            Spec := i.Spec,
            Annotations := MergeAnnotations found.Annotations i.Annotations } with
      | (err, k2) => if IsConflict err then (none, k2) else (err, k2)
    else (none, k1)

/-- The function `metav1.SetMetaDataAnnotation` of the orchestrator library, on a map
given by its entries: the entry of the key `ann` gets the value `value`, and
the key is added when the map has no entry for it. -/
def SetMetaDataAnnotation : List (String × String) → String → String → List (String × String)
  | [], ann, value => [(ann, value)]
  | kv :: rest, ann, value =>
    if kv.1 = ann then (ann, value) :: rest
    else kv :: SetMetaDataAnnotation rest ann value

/-- The method `GslbReconciler.gslbIngress` (ingress.go, lines 33-52): the Gslb object after
the call (the method works on a pointer to it) and the result. The keys
`strategyAnnotation` and `primaryGeoTagAnnotation` are constants declared in
a file that is not among the sources. `SetControllerReference` is the
library function of that name, as the error it returns; the owner reference
it records on the Ingress is not among the fields modelled. -/
def gslbIngress ( strategyAnnotation primaryGeoTagAnnotation : String)
    (SetControllerReference : Gslb → Ingress → Option Err) (gslb : Gslb) :
    Gslb × Except Err Ingress :=
  let gslb1 : Gslb :=
    { gslb with
      Annotations := SetMetaDataAnnotation gslb.Annotations strategyAnnotation
        gslb.Strategy.Type_ }
  let gslb2 : Gslb :=
    if gslb1.Strategy.PrimaryGeoTag ≠ "" then
      { gslb1 with
        Annotations := SetMetaDataAnnotation gslb1.Annotations primaryGeoTagAnnotation
          gslb1.Strategy.PrimaryGeoTag }
    else gslb1
  let ingress : Ingress :=
    { Name := gslb2.Name, Namespace := gslb2.Namespace, Annotations := gslb2.Annotations,
      Spec := gslb2.Ingress, Status := [] }
  match SetControllerReference gslb2 ingress with
  | some err => (gslb2, .error err)
  | none => (gslb2, .ok ingress)

/-! ## The provider factory -/

/-- The constant `DNSTypeNoEdgeDNS` (depresolver.go, line 64): `1 << iota` with `iota = 0`. -/
def DNSTypeNoEdgeDNS : Int := 1

/-- The constant `DNSTypeInfoblox` (depresolver.go, line 66): `1 << iota` with `iota = 1`. -/
def DNSTypeInfoblox : Int := 2

/-- The constant `DNSTypeRoute53` (depresolver.go, line 68): `1 << iota` with `iota = 2`. -/
def DNSTypeRoute53 : Int := 4

/-- The constant `DNSTypeNS1` (depresolver.go, line 70): `1 << iota` with `iota = 3`. -/
def DNSTypeNS1 : Int := 8

/-- Modelled from the spec: the constants `externalDNSTypeNS1` and
`externalDNSTypeRoute53`, declared in a file that is not among the sources.
The spec names the two variants ExternalDNS-for-NS1 and
ExternalDNS-for-Route53, told apart by a provider discriminator. -/
inductive ExternalDNSType where
  | externalDNSTypeNS1
  | externalDNSTypeRoute53
deriving DecidableEq, Repr

/-- Modelled from the spec: a value of the interface `IDnsProvider`, by its dynamic
type. The ExternalDNS and the NoEdge (empty) provider are declared in files
that are not among the sources; the spec lists the variants NoEdge,
ExternalDNS-for-NS1, ExternalDNS-for-Route53 and Infoblox. Each variant
holds what its constructor is given. -/
inductive IDnsProvider where
  | ExternalDNS (dnsType : ExternalDNSType) (config : Config) (assistant : IAssistant)
  | Infoblox (p : InfobloxProvider)
  | Empty (config : Config) (assistant : IAssistant)

/-- The function `NewGslbAssistant` (gslb.go, lines 51-57), without the client. -/
def NewGslbAssistant (k8gbNamespace edgeDNSServer : String) : GslbLoggerAssistant :=
  { k8gbNamespace := k8gbNamespace, edgeDNSServer := edgeDNSServer }

/-- The function `NewInfobloxDNS` (infoblox.go, lines 37-42). -/
def NewInfobloxDNS (config : Config) (assistant : IAssistant) : InfobloxProvider :=
  { assistant := assistant, config := config }

/-- Modelled from the spec: the constructor `NewExternalDNS`, declared in a file that
is not among the sources; it builds the ExternalDNS variant of its
discriminator. -/
def NewExternalDNS (dnsType : ExternalDNSType) (config : Config) (assistant : IAssistant) :
    IDnsProvider :=
  .ExternalDNS dnsType config assistant

/-- Modelled from the spec: the constructor `NewEmptyDNS`, declared in a file that is
not among the sources; it builds the NoEdge variant. -/
def NewEmptyDNS (config : Config) (assistant : IAssistant) : IDnsProvider :=
  .Empty config assistant

/-- The `ProviderFactory` record, without its client: the orchestrator is an explicit
argument of the calls that reach it. -/
structure ProviderFactory where
  config : Config

/-- The method `ProviderFactory.Provider` (factory.go, lines 44-57); `none` is the nil
interface value the named result holds when no case of the switch is taken.
`asInterface` is the assistant seen through the interface `IAssistant`, the
form in which the providers hold it. -/
def Provider (asInterface : GslbLoggerAssistant → IAssistant) (f : ProviderFactory) :
    Option IDnsProvider :=
  let a := asInterface (NewGslbAssistant f.config.K8gbNamespace f.config.EdgeDNSServer)
  if f.config.EdgeDNSType = DNSTypeNS1 then
    some (NewExternalDNS .externalDNSTypeNS1 f.config a)
  else if f.config.EdgeDNSType = DNSTypeRoute53 then
    some (NewExternalDNS .externalDNSTypeRoute53 f.config a)
  else if f.config.EdgeDNSType = DNSTypeInfoblox then
    some (.Infoblox (NewInfobloxDNS f.config a))
  else if f.config.EdgeDNSType = DNSTypeNoEdgeDNS then
    some (NewEmptyDNS f.config a)
  else none

/-! ## A reference clock for the scenarios -/

/-- The decimal digit of the units of `n`. -/
def digit (n : Nat) : Char := Char.ofNat (48 + n % 10)

/-- Two decimal digits, zero padded. -/
def digits2 (n : Nat) : List Char := [digit (n / 10), digit n]

/-- Four decimal digits, zero padded. -/
def digits4 (n : Nat) : List Char := [digit (n / 1000), digit (n / 100), digit (n / 10), digit n]

/-- Days from 1970-01-01 to the given date of the proleptic Gregorian calendar
(years from 1 on). -/
def daysFromCivil (y m d : Nat) : Int :=
  let y1 := if m ≤ 2 then y - 1 else y
  let mp := (m + 9) % 12
  let doy := (153 * mp + 2) / 5 + d - 1
  let yoe := y1 % 400
  (((y1 / 400) * 146097 + (yoe * 365 + yoe / 4 - yoe / 100 + doy) : Nat) : Int) - 719468

/-- The date (year, month, day) that lies `days` days after 1970-01-01, for dates
from 0000-03-01 on. -/
def civilFromDays (days : Int) : Nat × Nat × Nat :=
  let z := (days + 719468).toNat
  let era := z / 146097
  let doe := z % 146097
  let yoe := (doe - doe / 1460 + doe / 36524 - doe / 146096) / 365
  let doy := doe - (365 * yoe + yoe / 4 - yoe / 100)
  let mp := (5 * doy + 2) / 153
  let d := doy - (153 * mp + 2) / 5 + 1
  let m := if mp < 10 then mp + 3 else mp - 9
  let y := yoe + era * 400
  (if m ≤ 2 then y + 1 else y, m, d)

/-- Formatting in the layout `2006-01-02T15:04:05` of an instant given in
nanoseconds since the Unix epoch, for the years 1970 to 9999. -/
def refFormat (t : Int) : String :=
  let secs := t / 1000000000
  let days := secs / 86400
  let rem := (secs % 86400).toNat
  let (y, m, d) := civilFromDays days
  String.mk (digits4 y ++ ['-'] ++ digits2 m ++ ['-'] ++ digits2 d ++ ['T'] ++
    digits2 (rem / 3600) ++ [':'] ++ digits2 (rem / 60 % 60) ++ [':'] ++ digits2 (rem % 60))

/-- The value of a decimal digit. -/
def digitValue (c : Char) : Option Nat :=
  if 48 ≤ c.toNat ∧ c.toNat ≤ 57 then some (c.toNat - 48) else none

/-- The value of a string of decimal digits. -/
def number : List Char → Option Nat
  | [] => some 0
  | cs => cs.foldl (fun acc c => match acc, digitValue c with
      | some n, some k => some (10 * n + k)
      | _, _ => none) (some 0)

/-- The number of days of a month. -/
def daysIn (y m : Nat) : Nat :=
  if m = 2 then (if y % 4 = 0 ∧ (y % 100 ≠ 0 ∨ y % 400 = 0) then 29 else 28)
  else if m = 4 ∨ m = 6 ∨ m = 9 ∨ m = 11 then 30 else 31

/-- Parsing in the layout `2006-01-02T15:04:05`, to nanoseconds since the Unix
epoch: nineteen characters, fields in range. -/
def refParse (value : String) : Option Int :=
  let cs := value.data
  if cs.length = 19 ∧ cs.get? 4 = some '-' ∧ cs.get? 7 = some '-' ∧ cs.get? 10 = some 'T' ∧
      cs.get? 13 = some ':' ∧ cs.get? 16 = some ':' then
    match number (cs.take 4), number ((cs.drop 5).take 2), number ((cs.drop 8).take 2),
        number ((cs.drop 11).take 2), number ((cs.drop 14).take 2), number ((cs.drop 17).take 2) with
    | some y, some m, some d, some hh, some mm, some ss =>
      if 1 ≤ m ∧ m ≤ 12 ∧ 1 ≤ d ∧ d ≤ daysIn y m ∧ hh < 24 ∧ mm < 60 ∧ ss < 60 then
        some ((daysFromCivil y m d * 86400 + (hh * 3600 + mm * 60 + ss : Nat)) * 1000000000)
      else none
    | _, _, _, _, _, _ => none
  else none

/-- A clock that shows the instant `now` and formats and parses with the
reference functions. -/
def refClock (now : Int) : Clock :=
  { Now := now, Format := fun _ t => refFormat t, Parse := fun _ value => refParse value }

/-! ## Concrete inputs -/

/-- The configuration of the scenarios: local tag `eu`, one peer `za`. -/
def exampleConfig : Config :=
  { ClusterGeoTag := "eu", ExtClustersGeoTags := ["za"], EdgeDNSServer := "8.8.8.8",
    EdgeDNSZone := "example.com", DNSZone := "cloud.example.com",
    Override := { FakeDNSEnabled := false, FakeInfobloxEnabled := false } }

/-- A Gslb with the default strategy values. -/
def exampleGslb : Gslb :=
  { Name := "test-gslb", Namespace := "test-gslb",
    Strategy := { SplitBrainThresholdSeconds := 300, DNSTtlSeconds := 30 } }

/-- An assistant that reports the local addresses `ips` and answers the
heartbeat check with `Expired` for exactly the names in `stale`. -/
def assistantWith (ips : List String) (stale : List String) : IAssistant :=
  { GslbIngressExposedIPs := fun _ => .ok ips,
    InspectTXTThreshold := fun fqdn _ _ => if fqdn ∈ stale then some .expired else none }

/-- A reachable grid that refuses no request and has received none. -/
def quietGrid (zone : Option ZoneDelegated) (txts : List RecordTXT) : Grid :=
  { zone := zone, txts := txts, refuses := fun _ => false, unreachable := false, log := [] }

/-- A delegated zone for `cloud.example.com` with the given reference and
entries. -/
def zoneWith (ref : String) (delegateTo : List NameServer) : ZoneDelegated :=
  { Ref := ref, Fqdn := "cloud.example.com", DelegateTo := delegateTo }

/-- The provider of the scenarios, on `exampleConfig`. -/
def providerWith (ips : List String) (stale : List String) : InfobloxProvider :=
  { assistant := assistantWith ips stale, config := exampleConfig }

/-- A configuration with the peers `za` and `heartbeat-za`. -/
def collidingConfig : Config :=
  { ClusterGeoTag := "eu", ExtClustersGeoTags := ["za", "heartbeat-za"],
    EdgeDNSServer := "8.8.8.8", EdgeDNSZone := "example.com", DNSZone := "cloud.example.com",
    Override := { FakeDNSEnabled := false, FakeInfobloxEnabled := false } }

/-- A Gslb called `gslb-ns-cloud-example-com`. -/
def collidingGslb : Gslb :=
  { Name := "gslb-ns-cloud-example-com", Namespace := "test-gslb",
    Strategy := { SplitBrainThresholdSeconds := 300, DNSTtlSeconds := 30 } }

/-- The text `String()` renders for a TXT record that holds one character-string
free of special characters: name, TTL, class, type and the quoted string,
separated by tabs. -/
def renderTXT (name : String) (ttl : String) (txt : String) : String :=
  String.mk (name.data ++ [tab] ++ ttl.data ++ [tab] ++ "IN".data ++ [tab] ++ "TXT".data ++
    [tab] ++ [quote] ++ txt.data ++ [quote])

/-- A resolver that answers every question with the one TXT record of the peer
`za` that holds `txt`. -/
def resolverWith (txt : String) : Resolver :=
  { Exchange := fun _ _ _ =>
      some { Answer := [RR.TXT (renderTXT "test-gslb-heartbeat-za.example.com." "30" txt)] } }

/-- The assistant of the scenarios. -/
def exampleAssistant : GslbLoggerAssistant :=
  { k8gbNamespace := "k8gb", edgeDNSServer := "8.8.8.8" }

/-- The text `String()` renders for an A record: name, TTL, class, type and the
address, separated by tabs. -/
def renderA (name : String) (ttl : String) (ip : String) : String :=
  String.mk (name.data ++ [tab] ++ ttl.data ++ [tab] ++ "IN".data ++ [tab] ++ "A".data ++
    [tab] ++ ip.data)

/-- A resolver over A records given as (server, name, address): a question gets
the records of its server and name, and the servers in `down` answer with
an error. -/
def resolverOf (records : List (String × String × String)) (down : List String) : Resolver :=
  ⟨fun name _ server =>
    if server ∈ down then none
    else
      some ⟨(records.filter (fun rec => decide (rec.1 = server ∧ rec.2.1 = name))).map
        (fun rec => RR.other (renderA rec.2.1 "30" rec.2.2))⟩⟩

/-- The A records of the scenarios: the peers `za` and `us` each hold one local
target of the host `app.cloud.example.com`. -/
def peerRecords : List (String × String × String) :=
  [("gslb-ns-cloud-example-com-za.example.com:53", "localtargets-app.cloud.example.com.",
      "10.1.0.1"),
   ("gslb-ns-cloud-example-com-us.example.com:53", "localtargets-app.cloud.example.com.",
      "10.2.0.1")]

/-- An orchestrator that holds the given objects, fails no request for a reason
of its own and has received none. -/
def quietKube (ingresses : List Ingress) (endpoints : List DNSEndpoint) : Kube :=
  { ingresses := ingresses, endpoints := endpoints, fails := fun _ => none, log := [] }

/-- A resolution in which `lb.example.com` has two addresses and no other name
resolves. -/
def exampleDig (_edgeDNSServer : String) (fqdn : String) : Except Err (List String) :=
  if fqdn = "lb.example.com" then .ok ["10.0.0.2", "10.0.0.3"] else .error (.exchange fqdn)

/-- The Ingress of `exampleGslb`, exposed at one IP and one hostname. -/
def exampleIngress : Ingress :=
  { Name := "test-gslb", Namespace := "test-gslb", Annotations := [],
    Spec := { Hosts := ["app.cloud.example.com"] },
    Status := [⟨"10.0.0.1", ""⟩, ⟨"", "lb.example.com"⟩] }

/-- The DNSEndpoint `test-gslb` in the namespace `nspace`, with one A record of
the given targets. -/
def endpointIn (nspace : String) (targets : List String) : DNSEndpoint :=
  ⟨"test-gslb", nspace, [], ⟨[⟨"app.cloud.example.com", "A", 30, targets⟩]⟩⟩

/-- An orchestrator that holds the given DNSEndpoints and answers the request
`call` with the error `err`. -/
def failingKube (endpoints : List DNSEndpoint) (call : KubeCall) (err : Err) : Kube :=
  { ingresses := [], endpoints := endpoints,
    fails := fun c => if c = call then some err else none, log := [] }

/-- An orchestrator that holds the given Ingresses and answers the request
`call` with the error `err`. -/
def failingIngressKube (ingresses : List Ingress) (call : KubeCall) (err : Err) : Kube :=
  { ingresses := ingresses, endpoints := [],
    fails := fun c => if c = call then some err else none, log := [] }

/-- The Ingress desired for `exampleGslb`: the one stored, with a host more. -/
def desiredIngress : Ingress :=
  { Name := "test-gslb", Namespace := "test-gslb", Annotations := [],
    Spec := { Hosts := ["app.cloud.example.com", "app2.cloud.example.com"] },
    Status := [] }

/-- The instant 2024-05-01T12:04:00Z. -/
def exampleNow : Int := 1714565040000000000

/-- The orchestrator after a first `SaveDNSEndpoint` on an empty store. -/
def afterFirstSave : Kube :=
  (SaveDNSEndpoint "test-gslb" (endpointIn "test-gslb" ["10.0.0.1"]) (quietKube [] [])).2

/-- The grid after a first `CreateZoneDelegationForExternalDNS` on an empty grid. -/
def afterFirstCreate : Grid :=
  (CreateZoneDelegationForExternalDNS (providerWith ["10.0.0.1"] []) (refClock exampleNow)
    exampleGslb (quietGrid none [])).2

/-- A roundRobin Gslb that carries no annotation. -/
def plainGslb : Gslb :=
  { Name := "test-gslb", Namespace := "test-gslb",
    Strategy := { SplitBrainThresholdSeconds := 300, DNSTtlSeconds := 30, Type_ := "roundRobin" },
    Ingress := { Hosts := ["app.cloud.example.com"] } }

/-- A failover Gslb with the primary tag `eu` and one annotation of its user. -/
def failoverGslb : Gslb :=
  { Name := "test-gslb", Namespace := "test-gslb",
    Strategy := { SplitBrainThresholdSeconds := 300, DNSTtlSeconds := 30, Type_ := "failover",
                  PrimaryGeoTag := "eu" },
    Annotations := [("example.com/owner", "team-a")],
    Ingress := { Hosts := ["app.cloud.example.com"] } }

/-- An owner reference that is always set without error. -/
def ownerSet (_owner : Gslb) (_object : Ingress) : Option Err := none

/-- The interface view of the scenarios: whatever the assistant, it reports the
local address `10.0.0.1` and no stale heartbeat. -/
def exampleView (_a : GslbLoggerAssistant) : IAssistant :=
  assistantWith ["10.0.0.1"] []

/-- A factory on `exampleConfig` with the given `EdgeDNSType`. -/
def factoryOfType (t : Int) : ProviderFactory :=
  { config := { exampleConfig with EdgeDNSType := t, K8gbNamespace := "k8gb" } }

/-- The Ingress the orchestrator holds after `plainGslb` has been reconciled: it
carries the strategy annotation and is exposed at one address. -/
def managedIngress : Ingress :=
  { Name := "test-gslb", Namespace := "test-gslb",
    Annotations := [("k8gb.io/strategy", "roundRobin")],
    Spec := { Hosts := ["app.cloud.example.com"] }, Status := [⟨"10.0.0.1", ""⟩] }

/-- The Gslb `plainGslb` after its user has given it one annotation whose value is
the empty string. -/
def flaggedGslb : Gslb :=
  { Name := "test-gslb", Namespace := "test-gslb",
    Strategy := { SplitBrainThresholdSeconds := 300, DNSTtlSeconds := 30, Type_ := "roundRobin" },
    Annotations := [("example.com/flag", "")],
    Ingress := { Hosts := ["app.cloud.example.com"] } }

/-- The Ingress derived from `flaggedGslb`. -/
def flaggedIngress : Ingress :=
  { Name := "test-gslb", Namespace := "test-gslb",
    Annotations := [("example.com/flag", ""), ("k8gb.io/strategy", "roundRobin")],
    Spec := { Hosts := ["app.cloud.example.com"] }, Status := [] }

/-! ## Vocabulary of the statements -/

/-- The names among `names` whose heartbeat check the assistant answers with an
error. -/
def failedChecks (p : InfobloxProvider) (gslb : Gslb) (names : List String) : List String :=
  names.filter (fun h =>
    (p.assistant.InspectTXTThreshold h p.config.Override.FakeDNSEnabled
      (splitBrainDuration gslb)).isSome)

/-- The merge in closed form: the entries of the zone found that are not named
like the local name server, then the local entries `delegateTo`, and of all
these the ones whose Name is not a heartbeat name whose check failed. -/
def mergedList (p : InfobloxProvider) (gslb : Gslb) (findZone : ZoneDelegated)
    (delegateTo : List NameServer) : List NameServer :=
  List.filter
    (fun e : NameServer => decide (e.Name ∉
      failedChecks p gslb (getExternalClusterHeartbeatFQDNs gslb p.config)))
    (findZone.DelegateTo.filter (fun e => decide (e.Name ≠ nsServerName p.config)) ++ delegateTo)

/-- The request by which lines 65-102 of infoblox.go hand the delegation set
`delegateTo` to Infoblox, given the zone found: a create when there is no
zone, an update with the merged list when the zone found has the right
Fqdn and a reference, and nothing otherwise. -/
def delegationRequest (p : InfobloxProvider) (gslb : Gslb) (findZone : Option ZoneDelegated)
    (delegateTo : List NameServer) : List Call :=
  match findZone with
  | none => [.CreateZoneDelegated p.config.DNSZone delegateTo]
  | some z =>
    if z.Fqdn = p.config.DNSZone ∧ 0 < z.Ref.length then
      [.UpdateZoneDelegated z.Ref (mergedList p gslb z delegateTo)]
    else []

/-- The addresses one entry of `Status.LoadBalancer.Ingress` stands for: its IP
when not empty, then the addresses `dig` resolves its Hostname to when not
empty. -/
def entryAddresses (dig : String → String → Except Err (List String)) (edgeDNSServer : String)
    (e : LoadBalancerIngress) : List String :=
  (if 0 < e.IP.length then [e.IP] else []) ++
    (if 0 < e.Hostname.length then
      match dig edgeDNSServer e.Hostname with
      | .ok IPs => IPs
      | .error _ => []
    else [])

/-- The object `saveIngress` hands to the update: the Ingress found with the
desired Spec and the merged annotations (ingress.go, lines 82-83). -/
def mergedIngress (found : Ingress) (i : Ingress) : Ingress :=
  { found with
    Spec := i.Spec,
    Annotations := MergeAnnotations found.Annotations i.Annotations }

/-- The keys of a map given by its entries. -/
def annotationKeys (m : List (String × String)) : List String :=
  m.map Prod.fst

/-- The variants of the DNS provider the spec names. -/
inductive Variant where
  | ExternalDNS (dnsType : ExternalDNSType)
  | Infoblox
  | NoEdge
deriving DecidableEq, Repr

/-- The variant a provider value is of. -/
def IDnsProvider.variant : IDnsProvider → Variant
  | .ExternalDNS dnsType _ _ => .ExternalDNS dnsType
  | .Infoblox _ => .Infoblox
  | .Empty _ _ => .NoEdge

/-- The variant the spec assigns to each declared `EdgeDNSType`. -/
def variantOfType (t : Int) : Option Variant :=
  if t = DNSTypeNS1 then some (.ExternalDNS .externalDNSTypeNS1)
  else if t = DNSTypeRoute53 then some (.ExternalDNS .externalDNSTypeRoute53)
  else if t = DNSTypeInfoblox then some .Infoblox
  else if t = DNSTypeNoEdgeDNS then some .NoEdge
  else none

/-! ## Properties of filterOutDelegateTo -/

/-- Entered at index `i` with enough fuel, the loop keeps the first `i` entries
and filters the rest. -/
theorem filterOutLoop_eq (fqdn : String) :
    ∀ (fuel : Nat) (l : List NameServer) (i : Nat),
      i ≤ l.length → l.length - i < fuel →
      filterOutLoop fqdn fuel l (i : Int) =
        some (l.take i ++ (l.drop i).filter (fun e => decide (e.Name ≠ fqdn))) := by
  intro fuel
  induction fuel with
  | zero => intro l i _ h; omega
  | succ fuel ih =>
    intro l i hi hfuel
    unfold filterOutLoop
    by_cases hlt : i < l.length
    · have h1 : ((i : Int) < (l.length : Int)) := by exact_mod_cast hlt
      have h2 : ¬ ((i : Int) < 0) := by omega
      have hget : l.get? i = some (l.get ⟨i, hlt⟩) := List.get?_eq_get hlt
      have hdrop : l.drop i = l.get ⟨i, hlt⟩ :: l.drop (i + 1) := by
        simp
      simp only [h1, h2, if_true, if_false, Int.toNat_ofNat, hget]
      by_cases hname : (l.get ⟨i, hlt⟩).Name = fqdn
      · simp only [hname, if_true]
        have hcast : ((i : Int) - 1) + 1 = (i : Int) := by omega
        rw [hcast]
        have hlen : (l.take i ++ l.drop (i + 1)).length = l.length - 1 := by
          simp [List.length_take, List.length_drop]; omega
        rw [ih (l.take i ++ l.drop (i + 1)) i (by rw [hlen]; omega) (by rw [hlen]; omega)]
        have htake : (l.take i ++ l.drop (i + 1)).take i = l.take i := by
          rw [List.take_append_of_le_length (by simp [List.length_take]; omega)]
          simp [List.take_take]
        have hdrop2 : (l.take i ++ l.drop (i + 1)).drop i = l.drop (i + 1) := by
          have hl : (l.take i).length = i := by simp [List.length_take]; omega
          rw [List.drop_append_eq_append_drop, hl]
          simp [List.drop_take]
        rw [htake, hdrop2, hdrop, List.filter_cons]
        simp only [hname, ne_eq, not_true_eq_false, decide_False, Bool.false_eq_true, if_false]
      · simp only [hname, if_false]
        have hcast : (i : Int) + 1 = ((i + 1 : Nat) : Int) := by push_cast; rfl
        rw [hcast, ih l (i + 1) (by omega) (by omega)]
        have htake : l.take (i + 1) = l.take i ++ [l.get ⟨i, hlt⟩] := by
          simp
        rw [htake, hdrop, List.filter_cons]
        simp only [hname, ne_eq, not_false_eq_true, decide_True, if_true, List.append_assoc,
          List.singleton_append]
    · have hil : i = l.length := by omega
      have h1 : ¬ ((i : Int) < (l.length : Int)) := by omega
      simp only [h1, if_false]
      subst hil
      simp

/-- `filterOutDelegateTo` never panics and computes a filter. -/
theorem filterOutDelegateTo_eq (l : List NameServer) (fqdn : String) :
    filterOutDelegateTo l fqdn = some (l.filter (fun e => decide (e.Name ≠ fqdn))) := by
  have h := filterOutLoop_eq fqdn (l.length + 1) l 0 (by omega) (by omega)
  simpa [filterOutDelegateTo] using h

/-! ## The merge in closed form -/

theorem foldl_append_singleton {α β : Type} (f : α → β) (l : List α) (acc : List β) :
    l.foldl (fun d a => d ++ [f a]) acc = acc ++ l.map f := by
  induction l generalizing acc with
  | nil => simp
  | cons a l ih => simp [ih]

theorem ownDelegateTo_eq (p : InfobloxProvider) (addresses : List String) :
    ownDelegateTo p addresses =
      addresses.map (fun a => { Address := a, Name := nsServerName p.config }) := by
  unfold ownDelegateTo
  rw [foldl_append_singleton (fun a => ({ Address := a, Name := nsServerName p.config } : NameServer))]
  simp

theorem dropStale_eq (p : InfobloxProvider) (gslb : Gslb) (names : List String) :
    ∀ l : List NameServer,
      dropStale p gslb names l =
        some (l.filter (fun e => decide (e.Name ∉ failedChecks p gslb names))) := by
  induction names with
  | nil => intro l; simp [dropStale, failedChecks]
  | cons h rest ih =>
    intro l
    unfold dropStale
    cases hc : p.assistant.InspectTXTThreshold h p.config.Override.FakeDNSEnabled
        (splitBrainDuration gslb) with
    | none =>
      simp only [ih]
      have : failedChecks p gslb (h :: rest) = failedChecks p gslb rest := by
        simp [failedChecks, List.filter_cons, hc]
      rw [this]
    | some err =>
      simp only [filterOutDelegateTo_eq, ih, List.filter_filter]
      have : failedChecks p gslb (h :: rest) = h :: failedChecks p gslb rest := by
        simp [failedChecks, List.filter_cons, hc]
      rw [this]
      congr 1
      apply List.filter_congr
      intro e _
      by_cases h1 : e.Name = h <;> by_cases h2 : e.Name ∈ failedChecks p gslb rest <;>
        simp [h1, h2]

theorem mergedDelegateTo_eq (p : InfobloxProvider) (gslb : Gslb) (findZone : ZoneDelegated)
    (delegateTo : List NameServer) :
    mergedDelegateTo p gslb findZone delegateTo =
      some (mergedList p gslb findZone delegateTo) := by
  unfold mergedDelegateTo mergedList
  simp only [filterOutDelegateTo_eq, dropStale_eq]

/-! ## The requests of the object manager -/

@[simp] theorem issued_self (g : Grid) : issued g g = [] := by
  simp [issued]

theorem issued_of_log (g1 g2 : Grid) (cs : List Call) (h : g2.log = g1.log ++ cs) :
    issued g1 g2 = cs := by
  simp [issued, h]

theorem checkZoneDelegated_eq_none (p : InfobloxProvider) (z : ZoneDelegated) :
    checkZoneDelegated p z = none ↔ z.Fqdn = p.config.DNSZone := by
  unfold checkZoneDelegated
  by_cases h : z.Fqdn = p.config.DNSZone <;> simp [h]

theorem ref_length_pos (s : String) : 0 < s.length ↔ s ≠ "" := by
  rw [Nat.pos_iff_ne_zero]
  apply not_congr
  constructor
  · intro h
    apply String.ext
    exact List.length_eq_zero.mp h
  · intro h
    rw [h]
    rfl

theorem writeDelegation_update (p : InfobloxProvider) (gslb : Gslb) (z : ZoneDelegated)
    (d : List NameServer) (g : Grid) (hq : z.Fqdn = p.config.DNSZone)
    (hr : 0 < z.Ref.length) :
    writeDelegation p gslb (some z) d g =
      UpdateZoneDelegated g z.Ref (mergedList p gslb z d) := by
  simp [writeDelegation, (checkZoneDelegated_eq_none p z).mpr hq, hr, mergedDelegateTo_eq]

theorem writeDelegation_skip (p : InfobloxProvider) (gslb : Gslb) (z : ZoneDelegated)
    (d : List NameServer) (g : Grid) (hq : z.Fqdn = p.config.DNSZone)
    (hr : ¬ 0 < z.Ref.length) :
    writeDelegation p gslb (some z) d g = (none, g) := by
  simp only [writeDelegation, (checkZoneDelegated_eq_none p z).mpr hq, hr, if_false]

theorem writeDelegation_mismatch (p : InfobloxProvider) (gslb : Gslb) (z : ZoneDelegated)
    (d : List NameServer) (g : Grid) (hq : z.Fqdn ≠ p.config.DNSZone) :
    writeDelegation p gslb (some z) d g =
      (some (.zoneMismatch z.Fqdn p.config.DNSZone), g) := by
  simp [writeDelegation, checkZoneDelegated, hq]

theorem writeDelegation_create (p : InfobloxProvider) (gslb : Gslb) (d : List NameServer)
    (g : Grid) :
    writeDelegation p gslb none d g = CreateZoneDelegated g p.config.DNSZone d := rfl

@[simp] theorem GetZoneDelegated_log (g : Grid) (fqdn : String) :
    (GetZoneDelegated g fqdn).2.log = g.log ++ [.GetZoneDelegated fqdn] := by
  unfold GetZoneDelegated; split <;> rfl

@[simp] theorem CreateZoneDelegated_log (g : Grid) (fqdn : String) (d : List NameServer) :
    (CreateZoneDelegated g fqdn d).2.log = g.log ++ [.CreateZoneDelegated fqdn d] := by
  unfold CreateZoneDelegated; split <;> rfl

@[simp] theorem UpdateZoneDelegated_log (g : Grid) (ref : String) (d : List NameServer) :
    (UpdateZoneDelegated g ref d).2.log = g.log ++ [.UpdateZoneDelegated ref d] := by
  unfold UpdateZoneDelegated; split <;> rfl

@[simp] theorem DeleteZoneDelegated_log (g : Grid) (ref : String) :
    (DeleteZoneDelegated g ref).2.log = g.log ++ [.DeleteZoneDelegated ref] := by
  unfold DeleteZoneDelegated; split <;> rfl

@[simp] theorem CreateTXTRecord_log (g : Grid) (name text : String) (ttl : Int) (view : String) :
    (CreateTXTRecord g name text ttl view).2.log =
      g.log ++ [.CreateTXTRecord name text ttl view] := by
  unfold CreateTXTRecord; split <;> rfl

@[simp] theorem UpdateTXTRecord_log (g : Grid) (name text : String) :
    (UpdateTXTRecord g name text).2.log = g.log ++ [.UpdateTXTRecord name text] := by
  unfold UpdateTXTRecord; split <;> rfl

@[simp] theorem DeleteTXTRecord_log (g : Grid) (ref : String) :
    (DeleteTXTRecord g ref).2.log = g.log ++ [.DeleteTXTRecord ref] := by
  unfold DeleteTXTRecord; split <;> rfl

@[simp] theorem CreateZoneDelegated_txts (g : Grid) (fqdn : String) (d : List NameServer) :
    (CreateZoneDelegated g fqdn d).2.txts = g.txts := by
  unfold CreateZoneDelegated; split <;> rfl

@[simp] theorem UpdateZoneDelegated_txts (g : Grid) (ref : String) (d : List NameServer) :
    (UpdateZoneDelegated g ref d).2.txts = g.txts := by
  unfold UpdateZoneDelegated; split <;> rfl

@[simp] theorem DeleteZoneDelegated_txts (g : Grid) (ref : String) :
    (DeleteZoneDelegated g ref).2.txts = g.txts := by
  unfold DeleteZoneDelegated; split <;> rfl

@[simp] theorem CreateTXTRecord_zone (g : Grid) (name text : String) (ttl : Int) (view : String) :
    (CreateTXTRecord g name text ttl view).2.zone = g.zone := by
  unfold CreateTXTRecord; split <;> rfl

@[simp] theorem UpdateTXTRecord_zone (g : Grid) (name text : String) :
    (UpdateTXTRecord g name text).2.zone = g.zone := by
  unfold UpdateTXTRecord; split <;> rfl

@[simp] theorem DeleteTXTRecord_zone (g : Grid) (ref : String) :
    (DeleteTXTRecord g ref).2.zone = g.zone := by
  unfold DeleteTXTRecord; split <;> rfl

/-- What `writeHeartbeat` does, by the answer to the lookup of the heartbeat
record. -/
theorem writeHeartbeat_cases (p : InfobloxProvider) (clock : Clock) (gslb : Gslb) (g : Grid) :
    (g.refuses (.GetTXTRecord (heartbeatFQDN gslb p.config p.config.ClusterGeoTag)) = true ∧
      writeHeartbeat p clock gslb g =
        (some (.request (.GetTXTRecord (heartbeatFQDN gslb p.config p.config.ClusterGeoTag))),
          g.received (.GetTXTRecord (heartbeatFQDN gslb p.config p.config.ClusterGeoTag)))) ∨
    (g.txts.find? (fun r => decide (r.Name = heartbeatFQDN gslb p.config p.config.ClusterGeoTag))
        = none ∧
      writeHeartbeat p clock gslb g =
        CreateTXTRecord
          (g.received (.GetTXTRecord (heartbeatFQDN gslb p.config p.config.ClusterGeoTag)))
          (heartbeatFQDN gslb p.config p.config.ClusterGeoTag)
          (clock.Format timestampLayout clock.Now) gslb.Strategy.DNSTtlSeconds "default") ∨
    ((∃ r, g.txts.find?
        (fun r => decide (r.Name = heartbeatFQDN gslb p.config p.config.ClusterGeoTag)) = some r) ∧
      writeHeartbeat p clock gslb g =
        UpdateTXTRecord
          (g.received (.GetTXTRecord (heartbeatFQDN gslb p.config p.config.ClusterGeoTag)))
          (heartbeatFQDN gslb p.config p.config.ClusterGeoTag)
          (clock.Format timestampLayout clock.Now)) := by
  unfold writeHeartbeat GetTXTRecord
  by_cases hr : g.refuses (.GetTXTRecord (heartbeatFQDN gslb p.config p.config.ClusterGeoTag)) = true
  · left
    simp [hr]
  · right
    cases hf : g.txts.find?
        (fun r => decide (r.Name = heartbeatFQDN gslb p.config p.config.ClusterGeoTag)) with
    | none => left; simp [hr, hf]
    | some r => right; simp [hr, hf]

theorem writeHeartbeat_zone (p : InfobloxProvider) (clock : Clock) (gslb : Gslb) (g : Grid) :
    (writeHeartbeat p clock gslb g).2.zone = g.zone := by
  rcases writeHeartbeat_cases p clock gslb g with h | h | h <;> rw [h.2] <;> simp [Grid.received]

theorem writeHeartbeat_log (p : InfobloxProvider) (clock : Clock) (gslb : Gslb) (g : Grid) :
    ∃ cs, (writeHeartbeat p clock gslb g).2.log = g.log ++ cs ∧
      ∀ c ∈ cs, c.isZoneWrite = false := by
  rcases writeHeartbeat_cases p clock gslb g with h | h | h <;> rw [h.2]
  · exact ⟨[.GetTXTRecord (heartbeatFQDN gslb p.config p.config.ClusterGeoTag)], rfl,
      by simp [Call.isZoneWrite]⟩
  · exact ⟨[.GetTXTRecord (heartbeatFQDN gslb p.config p.config.ClusterGeoTag),
      .CreateTXTRecord (heartbeatFQDN gslb p.config p.config.ClusterGeoTag)
        (clock.Format timestampLayout clock.Now) gslb.Strategy.DNSTtlSeconds "default"],
      by simp [Grid.received], by simp [Call.isZoneWrite]⟩
  · exact ⟨[.GetTXTRecord (heartbeatFQDN gslb p.config p.config.ClusterGeoTag),
      .UpdateTXTRecord (heartbeatFQDN gslb p.config p.config.ClusterGeoTag)
        (clock.Format timestampLayout clock.Now)],
      by simp [Grid.received], by simp [Call.isZoneWrite]⟩

theorem writeDelegation_txts (p : InfobloxProvider) (gslb : Gslb) (fz : Option ZoneDelegated)
    (d : List NameServer) (g : Grid) :
    (writeDelegation p gslb fz d g).2.txts = g.txts := by
  cases fz with
  | none => simp [writeDelegation_create]
  | some z =>
    by_cases hq : z.Fqdn = p.config.DNSZone
    · by_cases hr : 0 < z.Ref.length
      · simp [writeDelegation_update p gslb z d g hq hr]
      · simp [writeDelegation_skip p gslb z d g hq hr]
    · simp [writeDelegation_mismatch p gslb z d g hq]

/-- A call whose connection and address lookup succeed is the zone lookup
followed by `writeDelegation` and, when that returns no error, by
`writeHeartbeat`. -/
theorem create_unfold (p : InfobloxProvider) (clock : Clock) (gslb : Gslb) (g : Grid)
    (addresses : List String) (hc : infobloxConnection p g = none)
    (hi : p.assistant.GslbIngressExposedIPs gslb = .ok addresses)
    (hr : g.refuses (.GetZoneDelegated p.config.DNSZone) = false) :
    CreateZoneDelegationForExternalDNS p clock gslb g =
      match writeDelegation p gslb g.zone (ownDelegateTo p addresses)
          (g.received (.GetZoneDelegated p.config.DNSZone)) with
      | (some err, g2) => (some err, g2)
      | (none, g2) => writeHeartbeat p clock gslb g2 := by
  unfold CreateZoneDelegationForExternalDNS GetZoneDelegated
  simp only [hc, hi, hr]
  rfl

/-- A call that returns no error got its connection, the local addresses and
the zone lookup, and ran `writeDelegation` and `writeHeartbeat` without
error. -/
theorem create_ok (p : InfobloxProvider) (clock : Clock) (gslb : Gslb) (g : Grid)
    (h : (CreateZoneDelegationForExternalDNS p clock gslb g).1 = none) :
    ∃ addresses, p.assistant.GslbIngressExposedIPs gslb = .ok addresses ∧
      (writeDelegation p gslb g.zone (ownDelegateTo p addresses)
        (g.received (.GetZoneDelegated p.config.DNSZone))).1 = none ∧
      CreateZoneDelegationForExternalDNS p clock gslb g =
        writeHeartbeat p clock gslb
          (writeDelegation p gslb g.zone (ownDelegateTo p addresses)
            (g.received (.GetZoneDelegated p.config.DNSZone))).2 := by
  cases hc : infobloxConnection p g with
  | some e => simp [CreateZoneDelegationForExternalDNS, hc] at h
  | none =>
    cases hi : p.assistant.GslbIngressExposedIPs gslb with
    | error e => simp [CreateZoneDelegationForExternalDNS, hc, hi] at h
    | ok addresses =>
      by_cases hr : g.refuses (.GetZoneDelegated p.config.DNSZone) = true
      · simp [CreateZoneDelegationForExternalDNS, GetZoneDelegated, hc, hi, hr] at h
      · have hr2 : g.refuses (.GetZoneDelegated p.config.DNSZone) = false := by simpa using hr
        have hu := create_unfold p clock gslb g addresses hc hi hr2
        rw [hu] at h ⊢
        refine ⟨addresses, rfl, ?_⟩
        cases hw : writeDelegation p gslb g.zone (ownDelegateTo p addresses)
            (g.received (.GetZoneDelegated p.config.DNSZone)) with
        | mk e g2 =>
          cases e with
          | some err => simp [hw] at h
          | none => simp

theorem writeDelegation_log (p : InfobloxProvider) (gslb : Gslb) (fz : Option ZoneDelegated)
    (d : List NameServer) (g : Grid) :
    (writeDelegation p gslb fz d g).2.log = g.log ++ delegationRequest p gslb fz d := by
  cases fz with
  | none => simp [writeDelegation_create, delegationRequest]
  | some z =>
    by_cases hq : z.Fqdn = p.config.DNSZone
    · by_cases hr : 0 < z.Ref.length
      · simp [writeDelegation_update p gslb z d g hq hr, delegationRequest, hq, hr]
      · simp [writeDelegation_skip p gslb z d g hq hr, delegationRequest, hq, hr]
    · simp [writeDelegation_mismatch p gslb z d g hq, delegationRequest, hq]

theorem writeDelegation_ok_fqdn (p : InfobloxProvider) (gslb : Gslb) (z : ZoneDelegated)
    (d : List NameServer) (g : Grid)
    (h : (writeDelegation p gslb (some z) d g).1 = none) : z.Fqdn = p.config.DNSZone := by
  by_contra hq
  rw [writeDelegation_mismatch p gslb z d g hq] at h
  simp at h

/-- The requests of one call: at most the zone lookup, then at most the request
that hands over the delegation set, then requests about TXT records. -/
theorem create_log (p : InfobloxProvider) (clock : Clock) (gslb : Gslb) (g : Grid) :
    ∃ pre W post,
      (CreateZoneDelegationForExternalDNS p clock gslb g).2.log = g.log ++ (pre ++ W ++ post) ∧
      (∀ c ∈ pre, c.isZoneWrite = false) ∧ (∀ c ∈ post, c.isZoneWrite = false) ∧
      (W = [] ∨ ∃ addresses, p.assistant.GslbIngressExposedIPs gslb = .ok addresses ∧
        W = delegationRequest p gslb g.zone (ownDelegateTo p addresses)) ∧
      ((CreateZoneDelegationForExternalDNS p clock gslb g).1 = none →
        ∃ addresses, p.assistant.GslbIngressExposedIPs gslb = .ok addresses ∧
          W = delegationRequest p gslb g.zone (ownDelegateTo p addresses) ∧
          ∀ z, g.zone = some z → z.Fqdn = p.config.DNSZone) := by
  cases hc : infobloxConnection p g with
  | some e =>
    refine ⟨[], [], [], ?_, by simp, by simp, Or.inl rfl, ?_⟩
    · simp [CreateZoneDelegationForExternalDNS, hc]
    · simp [CreateZoneDelegationForExternalDNS, hc]
  | none =>
    cases hi : p.assistant.GslbIngressExposedIPs gslb with
    | error e =>
      refine ⟨[], [], [], ?_, by simp, by simp, Or.inl rfl, ?_⟩
      · simp [CreateZoneDelegationForExternalDNS, hc, hi]
      · simp [CreateZoneDelegationForExternalDNS, hc, hi]
    | ok addresses =>
      by_cases hr : g.refuses (.GetZoneDelegated p.config.DNSZone) = true
      · refine ⟨[.GetZoneDelegated p.config.DNSZone], [], [], ?_, by simp [Call.isZoneWrite],
          by simp, Or.inl rfl, ?_⟩
        · simp [CreateZoneDelegationForExternalDNS, GetZoneDelegated, hc, hi, hr, Grid.received]
        · simp [CreateZoneDelegationForExternalDNS, GetZoneDelegated, hc, hi, hr]
      · have hr2 : g.refuses (.GetZoneDelegated p.config.DNSZone) = false := by simpa using hr
        rw [create_unfold p clock gslb g addresses hc hi hr2]
        have hwl := writeDelegation_log p gslb g.zone (ownDelegateTo p addresses)
          (g.received (.GetZoneDelegated p.config.DNSZone))
        cases hw : writeDelegation p gslb g.zone (ownDelegateTo p addresses)
            (g.received (.GetZoneDelegated p.config.DNSZone)) with
        | mk e g2 =>
          rw [hw] at hwl
          cases e with
          | some err =>
            refine ⟨[.GetZoneDelegated p.config.DNSZone],
              delegationRequest p gslb g.zone (ownDelegateTo p addresses), [], ?_,
              by simp [Call.isZoneWrite], by simp, Or.inr ⟨addresses, rfl, rfl⟩, by simp⟩
            simpa [Grid.received] using hwl
          | none =>
            obtain ⟨cs, hcs, hnz⟩ := writeHeartbeat_log p clock gslb g2
            refine ⟨[.GetZoneDelegated p.config.DNSZone],
              delegationRequest p gslb g.zone (ownDelegateTo p addresses), cs, ?_,
              by simp [Call.isZoneWrite], hnz, Or.inr ⟨addresses, rfl, rfl⟩, ?_⟩
            · simp only [hcs]
              simp only [] at hwl
              rw [hwl]
              simp [Grid.received]
            · intro _
              refine ⟨addresses, rfl, rfl, ?_⟩
              intro z hz
              rw [hz] at hw
              exact writeDelegation_ok_fqdn p gslb z _ _ (by rw [hw])

/-- The zone writes among the requests of one call. -/
theorem create_zone_writes (p : InfobloxProvider) (clock : Clock) (gslb : Gslb) (g : Grid) :
    ∃ W, (issued g (CreateZoneDelegationForExternalDNS p clock gslb g).2).filter
          Call.isZoneWrite = W.filter Call.isZoneWrite ∧
      (issued g (CreateZoneDelegationForExternalDNS p clock gslb g).2).filter
          Call.writesDelegation = W.filter Call.writesDelegation ∧
      (W = [] ∨ ∃ addresses, p.assistant.GslbIngressExposedIPs gslb = .ok addresses ∧
        W = delegationRequest p gslb g.zone (ownDelegateTo p addresses)) ∧
      ((CreateZoneDelegationForExternalDNS p clock gslb g).1 = none →
        ∃ addresses, p.assistant.GslbIngressExposedIPs gslb = .ok addresses ∧
          W = delegationRequest p gslb g.zone (ownDelegateTo p addresses) ∧
          ∀ z, g.zone = some z → z.Fqdn = p.config.DNSZone) := by
  obtain ⟨pre, W, post, hlog, hpre, hpost, hW, hok⟩ := create_log p clock gslb g
  have hwd : ∀ c : Call, c.isZoneWrite = false → c.writesDelegation = false := by
    intro c; cases c <;> simp [Call.isZoneWrite, Call.writesDelegation]
  refine ⟨W, ?_, ?_, hW, hok⟩
  · rw [issued_of_log g _ _ hlog]
    simp only [List.filter_append]
    have h1 : pre.filter Call.isZoneWrite = [] :=
      List.filter_eq_nil_iff.mpr (fun c hc => by simp [hpre c hc])
    have h2 : post.filter Call.isZoneWrite = [] :=
      List.filter_eq_nil_iff.mpr (fun c hc => by simp [hpost c hc])
    rw [h1, h2]
    simp
  · rw [issued_of_log g _ _ hlog]
    simp only [List.filter_append]
    have h1 : pre.filter Call.writesDelegation = [] :=
      List.filter_eq_nil_iff.mpr (fun c hc => by simp [hwd c (hpre c hc)])
    have h2 : post.filter Call.writesDelegation = [] :=
      List.filter_eq_nil_iff.mpr (fun c hc => by simp [hwd c (hpost c hc)])
    rw [h1, h2]
    simp

/-- C5: `filterOutDelegateTo` returns, for every list and every fqdn, exactly the
sub-list of the entries whose Name differs from fqdn, in their original
order: the call does not fail, no entry named fqdn remains, and every other
entry is kept as often as it occurred. -/
theorem filterOutDelegateTo_order_preserving_filter (delegateTo : List NameServer)
    (fqdn : String) :
    ∃ result, filterOutDelegateTo delegateTo fqdn = some result ∧
      result = delegateTo.filter (fun e => decide (e.Name ≠ fqdn)) ∧
      result.Sublist delegateTo ∧
      (∀ e ∈ result, e.Name ≠ fqdn) ∧
      (∀ e, e.Name ≠ fqdn → result.count e = delegateTo.count e) := by
  refine ⟨_, filterOutDelegateTo_eq delegateTo fqdn, rfl, List.filter_sublist _, ?_, ?_⟩
  · intro e he
    simpa using (List.mem_filter.mp he).2
  · intro e he
    rw [List.count_filter]
    simpa using he

/-- Scenario S1 (the test `TestCanFilterOutDelegatedZoneEntryAccordingFQDNProvided`):
the name server of the peer `za` is `gslb-ns-cloud-example-com-za.example.com`,
and filtering that name out of three `eu` and three `za` entries leaves the
three `eu` entries in order. -/
theorem filterOutDelegateTo_scenario_S1 :
    nsServerNameExt exampleConfig = ["gslb-ns-cloud-example-com-za.example.com"] ∧
    filterOutDelegateTo
      [⟨"10.0.0.1", "gslb-ns-cloud-example-com-eu.example.com"⟩,
       ⟨"10.0.0.2", "gslb-ns-cloud-example-com-eu.example.com"⟩,
       ⟨"10.0.0.3", "gslb-ns-cloud-example-com-eu.example.com"⟩,
       ⟨"10.1.0.1", "gslb-ns-cloud-example-com-za.example.com"⟩,
       ⟨"10.1.0.2", "gslb-ns-cloud-example-com-za.example.com"⟩,
       ⟨"10.1.0.3", "gslb-ns-cloud-example-com-za.example.com"⟩]
      "gslb-ns-cloud-example-com-za.example.com" =
    some
      [⟨"10.0.0.1", "gslb-ns-cloud-example-com-eu.example.com"⟩,
       ⟨"10.0.0.2", "gslb-ns-cloud-example-com-eu.example.com"⟩,
       ⟨"10.0.0.3", "gslb-ns-cloud-example-com-eu.example.com"⟩] := by
  decide

/-! ## The state of the grid after a request -/

theorem CreateZoneDelegated_ok (g : Grid) (fqdn : String) (d : List NameServer)
    (h : (CreateZoneDelegated g fqdn d).1 = none) :
    (CreateZoneDelegated g fqdn d).2.zone =
      some { Ref := "zone_delegated/" ++ fqdn, Fqdn := fqdn, DelegateTo := d } := by
  unfold CreateZoneDelegated at h ⊢
  split at h
  · simp at h
  · rename_i hr; simp [hr]

theorem UpdateZoneDelegated_ok (g : Grid) (ref : String) (d : List NameServer)
    (h : (UpdateZoneDelegated g ref d).1 = none) :
    (UpdateZoneDelegated g ref d).2.zone =
      g.zone.map (fun z => if z.Ref = ref then { z with DelegateTo := d } else z) := by
  unfold UpdateZoneDelegated at h ⊢
  split at h
  · simp at h
  · rename_i hr; simp [hr]

theorem DeleteZoneDelegated_ok (g : Grid) (ref : String)
    (h : (DeleteZoneDelegated g ref).1 = none) :
    (DeleteZoneDelegated g ref).2.zone =
      g.zone.bind (fun z => if z.Ref = ref then none else some z) := by
  unfold DeleteZoneDelegated at h ⊢
  split at h
  · simp at h
  · rename_i hr; simp [hr]

theorem CreateTXTRecord_ok (g : Grid) (name text : String) (ttl : Int) (view : String)
    (h : (CreateTXTRecord g name text ttl view).1 = none) :
    (CreateTXTRecord g name text ttl view).2.txts =
      g.txts ++ [⟨"record:txt/" ++ name, name, text, ttl, view⟩] := by
  unfold CreateTXTRecord at h ⊢
  split at h
  · simp at h
  · rename_i hr; simp [hr]

theorem UpdateTXTRecord_ok (g : Grid) (name text : String)
    (h : (UpdateTXTRecord g name text).1 = none) :
    (UpdateTXTRecord g name text).2.txts = setText name text g.txts := by
  unfold UpdateTXTRecord at h ⊢
  split at h
  · simp at h
  · rename_i hr; simp [hr]

theorem DeleteTXTRecord_txts (g : Grid) (ref : String) :
    (DeleteTXTRecord g ref).2.txts = g.txts ∨
    ((DeleteTXTRecord g ref).1 = none ∧
      (DeleteTXTRecord g ref).2.txts = g.txts.filter (fun r => decide (r.Ref ≠ ref))) := by
  unfold DeleteTXTRecord
  split
  · left; rfl
  · right; exact ⟨rfl, rfl⟩

theorem DeleteTXTRecord_ok (g : Grid) (ref : String)
    (h : (DeleteTXTRecord g ref).1 = none) :
    (DeleteTXTRecord g ref).2.txts = g.txts.filter (fun r => decide (r.Ref ≠ ref)) := by
  unfold DeleteTXTRecord at h ⊢
  split at h
  · simp at h
  · rename_i hr; simp [hr]

theorem find_setText (name text : String) :
    ∀ (l : List RecordTXT) (old : RecordTXT),
      l.find? (fun r => decide (r.Name = name)) = some old →
      (setText name text l).find? (fun r => decide (r.Name = name)) =
        some { old with Text := text } := by
  intro l
  induction l with
  | nil => intro old h; simp at h
  | cons r rs ih =>
    intro old h
    by_cases hn : r.Name = name
    · simp [List.find?_cons, hn] at h
      subst h
      simp [setText, hn, List.find?_cons]
    · simp [List.find?_cons, hn] at h
      simp [setText, hn, List.find?_cons, ih old h]

theorem writeDelegation_zone_create (p : InfobloxProvider) (gslb : Gslb)
    (d : List NameServer) (g : Grid) (h : (writeDelegation p gslb none d g).1 = none) :
    (writeDelegation p gslb none d g).2.zone =
      some ⟨"zone_delegated/" ++ p.config.DNSZone, p.config.DNSZone, d⟩ := by
  rw [writeDelegation_create] at h ⊢
  exact CreateZoneDelegated_ok g _ d h

theorem writeDelegation_zone_update (p : InfobloxProvider) (gslb : Gslb) (z : ZoneDelegated)
    (d : List NameServer) (g : Grid) (hg : g.zone = some z) (hr : 0 < z.Ref.length)
    (h : (writeDelegation p gslb (some z) d g).1 = none) :
    (writeDelegation p gslb (some z) d g).2.zone =
      some { z with DelegateTo := mergedList p gslb z d } := by
  have hq := writeDelegation_ok_fqdn p gslb z d g h
  rw [writeDelegation_update p gslb z d g hq hr] at h ⊢
  rw [UpdateZoneDelegated_ok g _ _ h, hg]
  simp

theorem mem_mergedList (p : InfobloxProvider) (gslb : Gslb) (z : ZoneDelegated)
    (d : List NameServer) (e : NameServer) :
    e ∈ mergedList p gslb z d ↔
      ((e ∈ z.DelegateTo ∧ e.Name ≠ nsServerName p.config) ∨ e ∈ d) ∧
        e.Name ∉ failedChecks p gslb (getExternalClusterHeartbeatFQDNs gslb p.config) := by
  simp only [mergedList, List.mem_filter, List.mem_append, decide_eq_true_eq]

theorem mem_ownDelegateTo (p : InfobloxProvider) (addresses : List String) (e : NameServer) :
    e ∈ ownDelegateTo p addresses ↔
      ∃ ip ∈ addresses, e = { Address := ip, Name := nsServerName p.config } := by
  rw [ownDelegateTo_eq]
  simp [List.mem_map, eq_comm]

/-- An entry of the zone found is in the merged list as soon as its Name is
neither the local name-server name nor a heartbeat name whose check failed. -/
theorem peer_entry_kept (p : InfobloxProvider) (gslb : Gslb) (z : ZoneDelegated)
    (d : List NameServer) (e : NameServer) (he : e ∈ z.DelegateTo)
    (hself : e.Name ≠ nsServerName p.config)
    (hstale : e.Name ∉ failedChecks p gslb (getExternalClusterHeartbeatFQDNs gslb p.config)) :
    e ∈ mergedList p gslb z d :=
  (mem_mergedList p gslb z d e).mpr ⟨Or.inl ⟨he, hself⟩, hstale⟩

/-! ## The write path of the delegation set -/

/-- C6, counterexample: the zone found has the right Fqdn and an empty Ref, the
call returns without error, and its requests are the zone lookup and the
heartbeat upsert only: the delegation set is written neither by
`UpdateZoneDelegated` nor by `CreateZoneDelegated`. -/
theorem delegation_not_written_when_ref_empty :
    (CreateZoneDelegationForExternalDNS
        (providerWith ["10.0.0.1"] [])
        (refClock exampleNow) exampleGslb
        (quietGrid (some (zoneWith "" [])) [])).1
      = none ∧
    (CreateZoneDelegationForExternalDNS
        (providerWith ["10.0.0.1"] [])
        (refClock exampleNow) exampleGslb
        (quietGrid (some (zoneWith "" [])) [])).2.log
      = [.GetZoneDelegated "cloud.example.com",
         .GetTXTRecord "test-gslb-heartbeat-eu.example.com",
         .CreateTXTRecord "test-gslb-heartbeat-eu.example.com" "2024-05-01T12:04:00" 30
           "default"] := by
  decide

/-- C6, amended: a call that returns without error hands the delegation set to
Infoblox exactly once by `CreateZoneDelegated` (with one entry per local
address) when no zone is found, exactly once by `UpdateZoneDelegated` (with
the merged list) when the zone found has a non-empty Ref, and not at all
when the zone found has an empty Ref. -/
theorem delegation_written_once_or_skipped (p : InfobloxProvider) (clock : Clock)
    (gslb : Gslb) (g : Grid)
    (hok : (CreateZoneDelegationForExternalDNS p clock gslb g).1 = none) :
    ∃ addresses, p.assistant.GslbIngressExposedIPs gslb = .ok addresses ∧
      (g.zone = none →
        (issued g (CreateZoneDelegationForExternalDNS p clock gslb g).2).filter
            Call.writesDelegation =
          [.CreateZoneDelegated p.config.DNSZone (ownDelegateTo p addresses)]) ∧
      (∀ z, g.zone = some z → 0 < z.Ref.length →
        (issued g (CreateZoneDelegationForExternalDNS p clock gslb g).2).filter
            Call.writesDelegation =
          [.UpdateZoneDelegated z.Ref (mergedList p gslb z (ownDelegateTo p addresses))]) ∧
      (∀ z, g.zone = some z → ¬ 0 < z.Ref.length →
        (issued g (CreateZoneDelegationForExternalDNS p clock gslb g).2).filter
            Call.writesDelegation = []) := by
  obtain ⟨W, _, hwd, _, hW⟩ := create_zone_writes p clock gslb g
  obtain ⟨addresses, hi, hWeq, hfq⟩ := hW hok
  refine ⟨addresses, hi, ?_, ?_, ?_⟩
  · intro hz
    rw [hwd, hWeq, hz]
    simp [delegationRequest, Call.writesDelegation]
  · intro z hz hr
    rw [hwd, hWeq, hz]
    simp [delegationRequest, hfq z hz, hr, Call.writesDelegation]
  · intro z hz hr
    rw [hwd, hWeq, hz]
    simp [delegationRequest, hr]

/-- C6, witness: a call on a zone with a reference returns without error. -/
theorem delegation_written_once_or_skipped_witness :
    (CreateZoneDelegationForExternalDNS
        (providerWith ["10.0.0.1"] [])
        (refClock exampleNow) exampleGslb
        (quietGrid (some (zoneWith "zone_delegated/ref" [])) [])).1 = none ∧
    ∃ addresses,
      (providerWith ["10.0.0.1"] []).assistant.GslbIngressExposedIPs exampleGslb =
        .ok addresses :=
  ⟨by decide,
    (delegation_written_once_or_skipped
      (providerWith ["10.0.0.1"] [])
      (refClock exampleNow) exampleGslb
      (quietGrid (some (zoneWith "zone_delegated/ref" [])) []) (by decide)).imp (fun _ h => h.1)⟩

/-! ## Duplicates in the delegation set -/

theorem finalize_unfold (p : InfobloxProvider) (gslb : Gslb) (g : Grid)
    (hc : infobloxConnection p g = none)
    (hr : g.refuses (.GetZoneDelegated p.config.DNSZone) = false) :
    Finalize p gslb g =
      match deleteDelegation p g.zone (g.received (.GetZoneDelegated p.config.DNSZone)) with
      | (some err, g2) => (some err, g2)
      | (none, g2) => deleteHeartbeat p gslb g2 := by
  unfold Finalize GetZoneDelegated
  simp only [hc, hr]
  rfl

theorem deleteDelegation_mismatch (p : InfobloxProvider) (z : ZoneDelegated) (g : Grid)
    (hq : z.Fqdn ≠ p.config.DNSZone) :
    deleteDelegation p (some z) g = (some (.zoneMismatch z.Fqdn p.config.DNSZone), g) := by
  simp [deleteDelegation, checkZoneDelegated, hq]

/-- With a zone of another Fqdn in the grid, a call of
`CreateZoneDelegationForExternalDNS` returns an error and issues the zone
lookup at most. -/
theorem create_mismatch (p : InfobloxProvider) (clock : Clock) (gslb : Gslb) (g : Grid)
    (z : ZoneDelegated) (hz : g.zone = some z) (hq : z.Fqdn ≠ p.config.DNSZone) :
    (CreateZoneDelegationForExternalDNS p clock gslb g).1 ≠ none ∧
    ∀ c ∈ issued g (CreateZoneDelegationForExternalDNS p clock gslb g).2,
      c = .GetZoneDelegated p.config.DNSZone := by
  cases hc : infobloxConnection p g with
  | some e => simp [CreateZoneDelegationForExternalDNS, hc]
  | none =>
    cases hi : p.assistant.GslbIngressExposedIPs gslb with
    | error e => simp [CreateZoneDelegationForExternalDNS, hc, hi]
    | ok addresses =>
      by_cases hr : g.refuses (.GetZoneDelegated p.config.DNSZone) = true
      · simp [CreateZoneDelegationForExternalDNS, GetZoneDelegated, hc, hi, hr, issued,
          Grid.received]
      · have hr2 : g.refuses (.GetZoneDelegated p.config.DNSZone) = false := by simpa using hr
        rw [create_unfold p clock gslb g addresses hc hi hr2, hz,
          writeDelegation_mismatch p gslb z _ _ hq]
        simp [issued, Grid.received]

/-- With a zone of another Fqdn in the grid, a call of `Finalize` returns an
error and issues the zone lookup at most. -/
theorem finalize_mismatch (p : InfobloxProvider) (gslb : Gslb) (g : Grid)
    (z : ZoneDelegated) (hz : g.zone = some z) (hq : z.Fqdn ≠ p.config.DNSZone) :
    (Finalize p gslb g).1 ≠ none ∧
    ∀ c ∈ issued g (Finalize p gslb g).2, c = .GetZoneDelegated p.config.DNSZone := by
  cases hc : infobloxConnection p g with
  | some e => simp [Finalize, hc]
  | none =>
    by_cases hr : g.refuses (.GetZoneDelegated p.config.DNSZone) = true
    · simp [Finalize, GetZoneDelegated, hc, hr, issued, Grid.received]
    · have hr2 : g.refuses (.GetZoneDelegated p.config.DNSZone) = false := by simpa using hr
      rw [finalize_unfold p gslb g hc hr2, hz, deleteDelegation_mismatch p z _ hq]
      simp [issued, Grid.received]

/-- C9: `checkZoneDelegated` returns an error exactly when the zone's Fqdn differs
from `Config.DNSZone`; and when the zone the grid holds for the lookup has
another Fqdn, both `CreateZoneDelegationForExternalDNS` and `Finalize`
return an error, and no request they issue creates, updates or deletes the
delegated zone or a TXT record (they issue the zone lookup at most). -/
theorem fqdn_mismatch_is_error_without_write (p : InfobloxProvider) (clock : Clock)
    (gslb : Gslb) (g : Grid) (z : ZoneDelegated) :
    (checkZoneDelegated p z ≠ none ↔ z.Fqdn ≠ p.config.DNSZone) ∧
    (g.zone = some z → z.Fqdn ≠ p.config.DNSZone →
      ((CreateZoneDelegationForExternalDNS p clock gslb g).1 ≠ none ∧
        ∀ c ∈ issued g (CreateZoneDelegationForExternalDNS p clock gslb g).2,
          c.isZoneWrite = false ∧ c.isTXTWrite = false) ∧
      ((Finalize p gslb g).1 ≠ none ∧
        ∀ c ∈ issued g (Finalize p gslb g).2,
          c.isZoneWrite = false ∧ c.isTXTWrite = false)) := by
  refine ⟨not_congr (checkZoneDelegated_eq_none p z), ?_⟩
  intro hz hq
  obtain ⟨hc1, hc2⟩ := create_mismatch p clock gslb g z hz hq
  obtain ⟨hf1, hf2⟩ := finalize_mismatch p gslb g z hz hq
  refine ⟨⟨hc1, ?_⟩, ⟨hf1, ?_⟩⟩
  · intro c hc
    rw [hc2 c hc]
    exact ⟨rfl, rfl⟩
  · intro c hc
    rw [hf2 c hc]
    exact ⟨rfl, rfl⟩

/-- C9, witness: the grid answers the lookup of `cloud.example.com` with the zone
`fakezone.example.com`. -/
theorem fqdn_mismatch_is_error_without_write_witness :
    ("fakezone.example.com" ≠ exampleConfig.DNSZone) ∧
    (CreateZoneDelegationForExternalDNS (providerWith ["10.0.0.1"] []) (refClock exampleNow)
        exampleGslb
        (quietGrid (some ⟨"zone_delegated/fake", "fakezone.example.com", []⟩) [])).1 ≠ none ∧
    (Finalize (providerWith ["10.0.0.1"] []) exampleGslb
        (quietGrid (some ⟨"zone_delegated/fake", "fakezone.example.com", []⟩) [])).1 ≠ none :=
  ⟨by decide,
    (((fqdn_mismatch_is_error_without_write (providerWith ["10.0.0.1"] [])
      (refClock exampleNow) exampleGslb
      (quietGrid (some ⟨"zone_delegated/fake", "fakezone.example.com", []⟩) [])
      ⟨"zone_delegated/fake", "fakezone.example.com", []⟩).2 rfl (by decide)).1).1,
    (((fqdn_mismatch_is_error_without_write (providerWith ["10.0.0.1"] [])
      (refClock exampleNow) exampleGslb
      (quietGrid (some ⟨"zone_delegated/fake", "fakezone.example.com", []⟩) [])
      ⟨"zone_delegated/fake", "fakezone.example.com", []⟩).2 rfl (by decide)).2).1⟩

/-! ## Peers in the merge -/

/-- C3, failing input: the heartbeat check of the peer `za` reports expired, and
the list handed to `UpdateZoneDelegated` still holds the entry named
`gslb-ns-cloud-example-com-za.example.com`, the name server of `za`: the
filter of line 86 is given the heartbeat name
`test-gslb-heartbeat-za.example.com`, which no entry is called. -/
theorem stale_peer_entry_is_written :
    getExternalClusterHeartbeatFQDNs exampleGslb exampleConfig =
      ["test-gslb-heartbeat-za.example.com"] ∧
    (providerWith ["10.0.0.1"] ["test-gslb-heartbeat-za.example.com"]).assistant.InspectTXTThreshold
        "test-gslb-heartbeat-za.example.com" false (splitBrainDuration exampleGslb) =
      some .expired ∧
    nsNameFor exampleConfig "za" = "gslb-ns-cloud-example-com-za.example.com" ∧
    (CreateZoneDelegationForExternalDNS
        (providerWith ["10.0.0.1"] ["test-gslb-heartbeat-za.example.com"])
        (refClock exampleNow) exampleGslb
        (quietGrid (some (zoneWith "zone_delegated/ref"
          [⟨"10.1.0.1", "gslb-ns-cloud-example-com-za.example.com"⟩])) [])).2.log
      = [.GetZoneDelegated "cloud.example.com",
         .UpdateZoneDelegated "zone_delegated/ref"
           [⟨"10.1.0.1", "gslb-ns-cloud-example-com-za.example.com"⟩,
            ⟨"10.0.0.1", "gslb-ns-cloud-example-com-eu.example.com"⟩],
         .GetTXTRecord "test-gslb-heartbeat-eu.example.com",
         .CreateTXTRecord "test-gslb-heartbeat-eu.example.com" "2024-05-01T12:04:00" 30
           "default"] := by
  decide

/-- C1, failing input: with the peers `za` and `heartbeat-za` and a Gslb called
`gslb-ns-cloud-example-com`, the name server of the peer `heartbeat-za` has
the name that is also the heartbeat name of the peer `za`. The heartbeat
check of `za` fails, the one of `heartbeat-za` does not, and the entry of
`heartbeat-za` is missing from the list handed to `UpdateZoneDelegated`. -/
theorem live_peer_entry_is_dropped :
    nsNameFor collidingConfig "heartbeat-za" =
      "gslb-ns-cloud-example-com-heartbeat-za.example.com" ∧
    nsServerName collidingConfig = "gslb-ns-cloud-example-com-eu.example.com" ∧
    getExternalClusterHeartbeatFQDNs collidingGslb collidingConfig =
      ["gslb-ns-cloud-example-com-heartbeat-za.example.com",
       "gslb-ns-cloud-example-com-heartbeat-heartbeat-za.example.com"] ∧
    (assistantWith ["10.0.0.1"]
        ["gslb-ns-cloud-example-com-heartbeat-za.example.com"]).InspectTXTThreshold
      (heartbeatFQDN collidingGslb collidingConfig "heartbeat-za") false
      (splitBrainDuration collidingGslb) = none ∧
    (CreateZoneDelegationForExternalDNS
        { assistant := assistantWith ["10.0.0.1"]
            ["gslb-ns-cloud-example-com-heartbeat-za.example.com"],
          config := collidingConfig }
        (refClock exampleNow) collidingGslb
        (quietGrid (some (zoneWith "zone_delegated/ref"
          [⟨"10.2.0.1", "gslb-ns-cloud-example-com-heartbeat-za.example.com"⟩])) [])).2.log
      = [.GetZoneDelegated "cloud.example.com",
         .UpdateZoneDelegated "zone_delegated/ref"
           [⟨"10.0.0.1", "gslb-ns-cloud-example-com-eu.example.com"⟩],
         .GetTXTRecord "gslb-ns-cloud-example-com-heartbeat-eu.example.com",
         .CreateTXTRecord "gslb-ns-cloud-example-com-heartbeat-eu.example.com"
           "2024-05-01T12:04:00" 30 "default"] := by
  decide

/-! ## The local entries of the zone -/

/-- C2, counterexample: the zone found has an empty Ref and holds the local name
server at 10.9.9.9 while the local ingress address is 10.0.0.1; the call
returns without error and leaves the zone as it was. -/
theorem own_entries_not_replaced_when_ref_empty :
    (CreateZoneDelegationForExternalDNS (providerWith ["10.0.0.1"] []) (refClock exampleNow)
        exampleGslb
        (quietGrid (some (zoneWith ""
          [⟨"10.9.9.9", "gslb-ns-cloud-example-com-eu.example.com"⟩])) [])).1 = none ∧
    nsServerName exampleConfig = "gslb-ns-cloud-example-com-eu.example.com" ∧
    (CreateZoneDelegationForExternalDNS (providerWith ["10.0.0.1"] []) (refClock exampleNow)
        exampleGslb
        (quietGrid (some (zoneWith ""
          [⟨"10.9.9.9", "gslb-ns-cloud-example-com-eu.example.com"⟩])) [])).2.zone =
      some (zoneWith "" [⟨"10.9.9.9", "gslb-ns-cloud-example-com-eu.example.com"⟩]) := by
  decide

/-- C2, amended: after a call that returns without error, when no zone was found
or the zone found had a non-empty Ref, and the local name-server name is
not a heartbeat name whose check failed, the entries of the delegated zone
whose Name is the local name-server name are exactly the pairs
(ip, nsName_self) for the local ingress addresses ip; when the zone found
had an empty Ref the zone is left as it was. -/
theorem own_entries_after_create (p : InfobloxProvider) (clock : Clock) (gslb : Gslb)
    (g : Grid) (hok : (CreateZoneDelegationForExternalDNS p clock gslb g).1 = none) :
    ∃ addresses, p.assistant.GslbIngressExposedIPs gslb = .ok addresses ∧
      ((g.zone = none ∨ ∃ z, g.zone = some z ∧ 0 < z.Ref.length) →
        nsServerName p.config ∉
          failedChecks p gslb (getExternalClusterHeartbeatFQDNs gslb p.config) →
        ∃ z', (CreateZoneDelegationForExternalDNS p clock gslb g).2.zone = some z' ∧
          ∀ e, (e ∈ z'.DelegateTo ∧ e.Name = nsServerName p.config) ↔
            ∃ ip ∈ addresses, e = { Address := ip, Name := nsServerName p.config }) ∧
      (∀ z, g.zone = some z → ¬ 0 < z.Ref.length →
        (CreateZoneDelegationForExternalDNS p clock gslb g).2.zone = some z) := by
  obtain ⟨addresses, hi, hwd, heq⟩ := create_ok p clock gslb g hok
  refine ⟨addresses, hi, ?_, ?_⟩
  · intro hzone hself
    rw [heq, writeHeartbeat_zone]
    rcases hzone with hnone | ⟨z, hz, hr⟩
    · rw [hnone] at hwd ⊢
      rw [writeDelegation_zone_create p gslb _ _ hwd]
      refine ⟨_, rfl, ?_⟩
      intro e
      simp only [mem_ownDelegateTo]
      constructor
      · exact fun h => h.1
      · rintro ⟨ip, hip, rfl⟩
        exact ⟨⟨ip, hip, rfl⟩, rfl⟩
    · rw [hz] at hwd ⊢
      rw [writeDelegation_zone_update p gslb z _ _ (by simpa [Grid.received] using hz) hr hwd]
      refine ⟨_, rfl, ?_⟩
      intro e
      simp only [mem_mergedList, mem_ownDelegateTo]
      constructor
      · rintro ⟨⟨h1 | h1, _⟩, hn⟩
        · exact absurd hn h1.2
        · exact h1
      · rintro ⟨ip, hip, rfl⟩
        exact ⟨⟨Or.inr ⟨ip, hip, rfl⟩, hself⟩, rfl⟩
  · intro z hz hr
    rw [heq, writeHeartbeat_zone]
    rw [hz] at hwd ⊢
    have hq := writeDelegation_ok_fqdn p gslb z _ _ hwd
    rw [writeDelegation_skip p gslb z _ _ hq hr]
    simpa [Grid.received] using hz

/-- C2, witness: a call on a zone with a reference that holds an old local entry
and a peer entry. -/
theorem own_entries_after_create_witness :
    (CreateZoneDelegationForExternalDNS (providerWith ["10.0.0.1"] []) (refClock exampleNow)
        exampleGslb
        (quietGrid (some (zoneWith "zone_delegated/ref"
          [⟨"10.9.9.9", "gslb-ns-cloud-example-com-eu.example.com"⟩,
           ⟨"10.1.0.1", "gslb-ns-cloud-example-com-za.example.com"⟩])) [])).1 = none ∧
    (0 < ("zone_delegated/ref" : String).length) ∧
    nsServerName (providerWith ["10.0.0.1"] []).config ∉
      failedChecks (providerWith ["10.0.0.1"] []) exampleGslb
        (getExternalClusterHeartbeatFQDNs exampleGslb (providerWith ["10.0.0.1"] []).config) ∧
    ∃ addresses,
      (providerWith ["10.0.0.1"] []).assistant.GslbIngressExposedIPs exampleGslb =
        .ok addresses :=
  ⟨by decide, by decide, by decide,
    (own_entries_after_create (providerWith ["10.0.0.1"] []) (refClock exampleNow) exampleGslb
      (quietGrid (some (zoneWith "zone_delegated/ref"
          [⟨"10.9.9.9", "gslb-ns-cloud-example-com-eu.example.com"⟩,
           ⟨"10.1.0.1", "gslb-ns-cloud-example-com-za.example.com"⟩])) [])
      (by decide)).imp (fun _ h => h.1)⟩

/-! ## The heartbeat record -/

/-- C8, counterexample: the heartbeat record exists with TTL 10 while the strategy
asks for 30 seconds; the call returns without error, the record holds the
new timestamp and still carries TTL 10. -/
theorem heartbeat_update_keeps_ttl :
    (CreateZoneDelegationForExternalDNS (providerWith ["10.0.0.1"] []) (refClock exampleNow)
        exampleGslb
        (quietGrid none
          [⟨"record:txt/hb", "test-gslb-heartbeat-eu.example.com", "2024-05-01T11:00:00", 10,
            "default"⟩])).1 = none ∧
    exampleGslb.Strategy.DNSTtlSeconds = 30 ∧
    (CreateZoneDelegationForExternalDNS (providerWith ["10.0.0.1"] []) (refClock exampleNow)
        exampleGslb
        (quietGrid none
          [⟨"record:txt/hb", "test-gslb-heartbeat-eu.example.com", "2024-05-01T11:00:00", 10,
            "default"⟩])).2.txts =
      [⟨"record:txt/hb", "test-gslb-heartbeat-eu.example.com", "2024-05-01T12:04:00", 10,
        "default"⟩] ∧
    (CreateZoneDelegationForExternalDNS (providerWith ["10.0.0.1"] []) (refClock exampleNow)
        exampleGslb
        (quietGrid none
          [⟨"record:txt/hb", "test-gslb-heartbeat-eu.example.com", "2024-05-01T11:00:00", 10,
            "default"⟩])).2.log =
      [.GetZoneDelegated "cloud.example.com",
       .CreateZoneDelegated "cloud.example.com"
         [⟨"10.0.0.1", "gslb-ns-cloud-example-com-eu.example.com"⟩],
       .GetTXTRecord "test-gslb-heartbeat-eu.example.com",
       .UpdateTXTRecord "test-gslb-heartbeat-eu.example.com" "2024-05-01T12:04:00"] := by
  decide

theorem create_txts (p : InfobloxProvider) (clock : Clock) (gslb : Gslb) (g : Grid)
    (hok : (CreateZoneDelegationForExternalDNS p clock gslb g).1 = none) :
    ∃ g2, g2.txts = g.txts ∧
      CreateZoneDelegationForExternalDNS p clock gslb g = writeHeartbeat p clock gslb g2 := by
  obtain ⟨addresses, _, _, heq⟩ := create_ok p clock gslb g hok
  exact ⟨_, by rw [writeDelegation_txts]; rfl, heq⟩

/-- C8, amended: after a call that returns without error, the TXT record named
`<gslbName>-heartbeat-<ClusterGeoTag>.<EdgeDNSZone>` holds the current UTC
time in the layout 2006-01-02T15:04:05; it carries the TTL
`Strategy.DNSTtlSeconds` when the call created it, and keeps the TTL it had
when it already existed (the update carries no TTL). -/
theorem heartbeat_after_create (p : InfobloxProvider) (clock : Clock) (gslb : Gslb)
    (g : Grid) (hok : (CreateZoneDelegationForExternalDNS p clock gslb g).1 = none) :
    ∃ r, (CreateZoneDelegationForExternalDNS p clock gslb g).2.txts.find?
          (fun r => decide (r.Name = heartbeatFQDN gslb p.config p.config.ClusterGeoTag))
        = some r ∧
      r.Name = gslb.Name ++ "-heartbeat-" ++ p.config.ClusterGeoTag ++ "." ++
        p.config.EdgeDNSZone ∧
      r.Text = clock.Format "2006-01-02T15:04:05" clock.Now ∧
      (g.txts.find?
          (fun r => decide (r.Name = heartbeatFQDN gslb p.config p.config.ClusterGeoTag))
        = none → r.TTL = gslb.Strategy.DNSTtlSeconds) ∧
      (∀ old, g.txts.find?
          (fun r => decide (r.Name = heartbeatFQDN gslb p.config p.config.ClusterGeoTag))
        = some old → r.TTL = old.TTL) := by
  obtain ⟨g2, htx, heq⟩ := create_txts p clock gslb g hok
  rw [heq] at hok ⊢
  rcases writeHeartbeat_cases p clock gslb g2 with h | h | h
  · rw [h.2] at hok
    simp at hok
  · obtain ⟨hnone, hw⟩ := h
    rw [hw] at hok ⊢
    rw [CreateTXTRecord_ok _ _ _ _ _ hok]
    rw [htx] at hnone
    refine ⟨⟨"record:txt/" ++ heartbeatFQDN gslb p.config p.config.ClusterGeoTag,
      heartbeatFQDN gslb p.config p.config.ClusterGeoTag,
      clock.Format timestampLayout clock.Now, gslb.Strategy.DNSTtlSeconds, "default"⟩,
      ?_, rfl, rfl, fun _ => rfl, ?_⟩
    · simp [List.find?_append, Grid.received, htx, hnone]
    · intro old hold
      rw [hnone] at hold
      simp at hold
  · obtain ⟨⟨old, hold⟩, hw⟩ := h
    rw [hw] at hok ⊢
    rw [UpdateTXTRecord_ok _ _ _ hok]
    rw [htx] at hold
    have hname : old.Name = heartbeatFQDN gslb p.config p.config.ClusterGeoTag := by
      simpa using List.find?_some hold
    refine ⟨{ old with Text := clock.Format timestampLayout clock.Now }, ?_, hname, rfl, ?_, ?_⟩
    · simp only [Grid.received, htx]
      exact find_setText _ _ _ _ hold
    · intro hnone
      rw [hnone] at hold
      simp at hold
    · intro old2 hold2
      rw [hold] at hold2
      cases hold2
      rfl

/-- C8, witness: a call on an empty grid returns without error. -/
theorem heartbeat_after_create_witness :
    (CreateZoneDelegationForExternalDNS (providerWith ["10.0.0.1"] []) (refClock exampleNow)
        exampleGslb (quietGrid none [])).1 = none ∧
    ∃ r, (CreateZoneDelegationForExternalDNS (providerWith ["10.0.0.1"] [])
          (refClock exampleNow) exampleGslb (quietGrid none [])).2.txts.find?
          (fun r => decide (r.Name = heartbeatFQDN exampleGslb
            (providerWith ["10.0.0.1"] []).config
            (providerWith ["10.0.0.1"] []).config.ClusterGeoTag)) = some r :=
  ⟨by decide,
    (heartbeat_after_create (providerWith ["10.0.0.1"] []) (refClock exampleNow) exampleGslb
      (quietGrid none []) (by decide)).imp (fun _ h => h.1)⟩

/-! ## Finalize -/

/-- C4, counterexample: the zone holds a local entry and an entry of the peer
`za`; `Finalize` returns without error, its only zone request is
`DeleteZoneDelegated`, and afterwards there is no zone, so the peer's entry
is gone although an entry remained after the removal of the local one. -/
theorem finalize_deletes_peer_entries :
    (Finalize (providerWith ["10.0.0.1"] []) exampleGslb
        (quietGrid (some (zoneWith "zone_delegated/ref"
          [⟨"10.0.0.1", "gslb-ns-cloud-example-com-eu.example.com"⟩,
           ⟨"10.1.0.1", "gslb-ns-cloud-example-com-za.example.com"⟩])) [])).1 = none ∧
    nsServerName exampleConfig = "gslb-ns-cloud-example-com-eu.example.com" ∧
    (Finalize (providerWith ["10.0.0.1"] []) exampleGslb
        (quietGrid (some (zoneWith "zone_delegated/ref"
          [⟨"10.0.0.1", "gslb-ns-cloud-example-com-eu.example.com"⟩,
           ⟨"10.1.0.1", "gslb-ns-cloud-example-com-za.example.com"⟩])) [])).2.zone = none ∧
    (Finalize (providerWith ["10.0.0.1"] []) exampleGslb
        (quietGrid (some (zoneWith "zone_delegated/ref"
          [⟨"10.0.0.1", "gslb-ns-cloud-example-com-eu.example.com"⟩,
           ⟨"10.1.0.1", "gslb-ns-cloud-example-com-za.example.com"⟩])) [])).2.log =
      [.GetZoneDelegated "cloud.example.com",
       .DeleteZoneDelegated "zone_delegated/ref",
       .GetTXTRecord "test-gslb-heartbeat-eu.example.com"] := by
  decide

theorem deleteDelegation_txts (p : InfobloxProvider) (fz : Option ZoneDelegated) (g : Grid) :
    (deleteDelegation p fz g).2.txts = g.txts := by
  unfold deleteDelegation
  cases fz with
  | none => rfl
  | some z =>
    simp only []
    cases checkZoneDelegated p z with
    | some e => rfl
    | none =>
      simp only []
      split
      · simp
      · rfl

/-- What `deleteDelegation` does to a zone found with the right Fqdn: one
`DeleteZoneDelegated` when it has a reference, nothing otherwise. -/
theorem deleteDelegation_effect (p : InfobloxProvider) (fz : Option ZoneDelegated) (g : Grid)
    (hg : g.zone = fz) (h : (deleteDelegation p fz g).1 = none) :
    (∀ z, fz = some z → 0 < z.Ref.length →
      (deleteDelegation p fz g).2.zone = none ∧
      (deleteDelegation p fz g).2.log = g.log ++ [.DeleteZoneDelegated z.Ref]) ∧
    ((fz = none ∨ ∃ z, fz = some z ∧ ¬ 0 < z.Ref.length) →
      (deleteDelegation p fz g).2 = g) := by
  constructor
  · intro z hz hr
    subst hz
    have hq : checkZoneDelegated p z = none := by
      cases hcz : checkZoneDelegated p z with
      | none => rfl
      | some e => simp [deleteDelegation, hcz] at h
    have hd : deleteDelegation p (some z) g = DeleteZoneDelegated g z.Ref := by
      simp [deleteDelegation, hq, hr]
    rw [hd] at h ⊢
    refine ⟨?_, by simp⟩
    rw [DeleteZoneDelegated_ok g _ h, hg]
    simp
  · rintro (hnone | ⟨z, hz, hr⟩)
    · subst hnone; rfl
    · subst hz
      have hq : checkZoneDelegated p z = none := by
        cases hcz : checkZoneDelegated p z with
        | none => rfl
        | some e => simp [deleteDelegation, hcz] at h
      simp [deleteDelegation, hq, hr]

/-- The branches of `deleteHeartbeat`, by the answer to the lookup of the local
heartbeat record. -/
theorem deleteHeartbeat_cases (p : InfobloxProvider) (gslb : Gslb) (g : Grid) :
    (g.refuses (.GetTXTRecord (heartbeatFQDN gslb p.config p.config.ClusterGeoTag)) = true ∧
      deleteHeartbeat p gslb g =
        (some (.request (.GetTXTRecord (heartbeatFQDN gslb p.config p.config.ClusterGeoTag))),
          g.received (.GetTXTRecord (heartbeatFQDN gslb p.config p.config.ClusterGeoTag)))) ∨
    (g.txts.find? (fun r => decide (r.Name = heartbeatFQDN gslb p.config p.config.ClusterGeoTag))
        = none ∧
      deleteHeartbeat p gslb g =
        (none, g.received (.GetTXTRecord (heartbeatFQDN gslb p.config p.config.ClusterGeoTag)))) ∨
    (∃ t, g.txts.find?
          (fun r => decide (r.Name = heartbeatFQDN gslb p.config p.config.ClusterGeoTag))
        = some t ∧ 0 < t.Ref.length ∧
      deleteHeartbeat p gslb g =
        DeleteTXTRecord
          (g.received (.GetTXTRecord (heartbeatFQDN gslb p.config p.config.ClusterGeoTag)))
          t.Ref) ∨
    (∃ t, g.txts.find?
          (fun r => decide (r.Name = heartbeatFQDN gslb p.config p.config.ClusterGeoTag))
        = some t ∧ ¬ 0 < t.Ref.length ∧
      deleteHeartbeat p gslb g =
        (none, g.received (.GetTXTRecord (heartbeatFQDN gslb p.config p.config.ClusterGeoTag))))
    := by
  unfold deleteHeartbeat GetTXTRecord
  by_cases hr : g.refuses (.GetTXTRecord (heartbeatFQDN gslb p.config p.config.ClusterGeoTag))
      = true
  · left
    simp [hr]
  · right
    cases hf : g.txts.find?
        (fun r => decide (r.Name = heartbeatFQDN gslb p.config p.config.ClusterGeoTag)) with
    | none => left; simp [hr, hf]
    | some t =>
      right
      by_cases hl : 0 < t.Ref.length
      · left; exact ⟨t, rfl, hl, by simp [hr, hf, hl]⟩
      · right; exact ⟨t, rfl, hl, by simp [hr, hf, hl]⟩

/-- What `deleteHeartbeat` does: the lookup of the local heartbeat record and,
when the record found has a reference, one `DeleteTXTRecord`. -/
theorem deleteHeartbeat_effect (p : InfobloxProvider) (gslb : Gslb) (g : Grid)
    (h : (deleteHeartbeat p gslb g).1 = none) :
    (deleteHeartbeat p gslb g).2.zone = g.zone ∧
    (∃ cs, (deleteHeartbeat p gslb g).2.log = g.log ++ cs ∧ ∀ c ∈ cs, c.isZoneWrite = false) ∧
    (∀ t, g.txts.find?
          (fun r => decide (r.Name = heartbeatFQDN gslb p.config p.config.ClusterGeoTag))
        = some t → 0 < t.Ref.length →
      (deleteHeartbeat p gslb g).2.txts = g.txts.filter (fun r => decide (r.Ref ≠ t.Ref))) ∧
    ((g.txts.find?
          (fun r => decide (r.Name = heartbeatFQDN gslb p.config p.config.ClusterGeoTag))
        = none ∨
      ∃ t, g.txts.find?
          (fun r => decide (r.Name = heartbeatFQDN gslb p.config p.config.ClusterGeoTag))
        = some t ∧ ¬ 0 < t.Ref.length) →
      (deleteHeartbeat p gslb g).2.txts = g.txts) := by
  rcases deleteHeartbeat_cases p gslb g with hc | hc | ⟨t, hf, hl, hc⟩ | ⟨t, hf, hl, hc⟩
  · rw [hc.2] at h
    simp at h
  · rw [hc.2]
    refine ⟨rfl, ⟨[.GetTXTRecord (heartbeatFQDN gslb p.config p.config.ClusterGeoTag)], rfl,
      by simp [Call.isZoneWrite]⟩, ?_, fun _ => rfl⟩
    intro t ht
    rw [hc.1] at ht
    simp at ht
  · rw [hc] at h ⊢
    refine ⟨by simp [Grid.received],
      ⟨[.GetTXTRecord (heartbeatFQDN gslb p.config p.config.ClusterGeoTag),
        .DeleteTXTRecord t.Ref], by simp [Grid.received], by simp [Call.isZoneWrite]⟩,
      ?_, ?_⟩
    · intro t2 ht2 _
      rw [hf] at ht2
      cases ht2
      rw [DeleteTXTRecord_ok _ _ h]
      rfl
    · rintro (hn | ⟨t2, ht2, hl2⟩)
      · rw [hf] at hn
        simp at hn
      · rw [hf] at ht2
        cases ht2
        exact absurd hl hl2
  · rw [hc]
    refine ⟨rfl, ⟨[.GetTXTRecord (heartbeatFQDN gslb p.config p.config.ClusterGeoTag)], rfl,
      by simp [Call.isZoneWrite]⟩, ?_, fun _ => rfl⟩
    intro t2 ht2 hl2
    rw [hf] at ht2
    cases ht2
    exact absurd hl2 hl

theorem finalize_ok (p : InfobloxProvider) (gslb : Gslb) (g : Grid)
    (h : (Finalize p gslb g).1 = none) :
    (deleteDelegation p g.zone (g.received (.GetZoneDelegated p.config.DNSZone))).1 = none ∧
    Finalize p gslb g =
      deleteHeartbeat p gslb
        (deleteDelegation p g.zone (g.received (.GetZoneDelegated p.config.DNSZone))).2 := by
  cases hc : infobloxConnection p g with
  | some e => simp [Finalize, hc] at h
  | none =>
    by_cases hr : g.refuses (.GetZoneDelegated p.config.DNSZone) = true
    · simp [Finalize, GetZoneDelegated, hc, hr] at h
    · have hr2 : g.refuses (.GetZoneDelegated p.config.DNSZone) = false := by simpa using hr
      rw [finalize_unfold p gslb g hc hr2] at h ⊢
      cases hw : deleteDelegation p g.zone (g.received (.GetZoneDelegated p.config.DNSZone)) with
      | mk e g2 =>
        cases e with
        | some err => simp [hw] at h
        | none => simp

/-- C4, amended: a `Finalize` that returns without error deletes the whole
delegated zone, with every entry it holds (those of peers included),
whenever the zone found has a non-empty Ref, and leaves the zone as it is
otherwise; it never hands a delegateTo list to Infoblox. The only TXT
records it removes are those with the reference of the local heartbeat
record `<gslb>-heartbeat-<ClusterGeoTag>.<EdgeDNSZone>`, which is removed
when it has a non-empty Ref. -/
theorem finalize_effect (p : InfobloxProvider) (gslb : Gslb) (g : Grid)
    (hok : (Finalize p gslb g).1 = none) :
    (∀ z, g.zone = some z → 0 < z.Ref.length →
      (Finalize p gslb g).2.zone = none ∧
      (issued g (Finalize p gslb g).2).filter Call.isZoneWrite =
        [.DeleteZoneDelegated z.Ref]) ∧
    ((g.zone = none ∨ ∃ z, g.zone = some z ∧ ¬ 0 < z.Ref.length) →
      (Finalize p gslb g).2.zone = g.zone ∧
      (issued g (Finalize p gslb g).2).filter Call.isZoneWrite = []) ∧
    (∀ r ∈ g.txts, r ∉ (Finalize p gslb g).2.txts →
      ∃ t, g.txts.find?
            (fun r => decide (r.Name = heartbeatFQDN gslb p.config p.config.ClusterGeoTag))
          = some t ∧ 0 < t.Ref.length ∧ r.Ref = t.Ref) ∧
    (∀ t, g.txts.find?
          (fun r => decide (r.Name = heartbeatFQDN gslb p.config p.config.ClusterGeoTag))
        = some t → 0 < t.Ref.length → t ∉ (Finalize p gslb g).2.txts) := by
  obtain ⟨hd, heq⟩ := finalize_ok p gslb g hok
  rw [heq] at hok ⊢
  have hdd := deleteDelegation_effect p g.zone (g.received (.GetZoneDelegated p.config.DNSZone))
    rfl hd
  have htx := deleteDelegation_txts p g.zone (g.received (.GetZoneDelegated p.config.DNSZone))
  obtain ⟨hz, ⟨cs, hcs, hnz⟩, ht1, ht2⟩ := deleteHeartbeat_effect p gslb _ hok
  have hfil : cs.filter Call.isZoneWrite = [] :=
    List.filter_eq_nil_iff.mpr (fun c hc => by simp [hnz c hc])
  refine ⟨?_, ?_, ?_, ?_⟩
  · intro z hzone hr
    obtain ⟨h1, h2⟩ := hdd.1 z hzone hr
    refine ⟨by rw [hz, h1], ?_⟩
    rw [issued_of_log g _ ([.GetZoneDelegated p.config.DNSZone, .DeleteZoneDelegated z.Ref] ++ cs)
      (by rw [hcs, h2]; simp [Grid.received])]
    simp [List.filter_append, hfil, Call.isZoneWrite, List.filter_cons]
  · intro hzone
    have h1 := hdd.2 hzone
    refine ⟨by rw [hz, h1]; rfl, ?_⟩
    rw [issued_of_log g _ ([.GetZoneDelegated p.config.DNSZone] ++ cs)
      (by rw [hcs, h1]; simp [Grid.received])]
    simp [List.filter_append, hfil, Call.isZoneWrite, List.filter_cons]
  · intro r hr hnot
    rw [htx] at ht1 ht2
    cases hf : g.txts.find?
        (fun r => decide (r.Name = heartbeatFQDN gslb p.config p.config.ClusterGeoTag)) with
    | none =>
      have := ht2 (Or.inl (by simpa [Grid.received] using hf))
      rw [this] at hnot
      exact absurd (by simpa [Grid.received] using hr) hnot
    | some t =>
      by_cases hl : 0 < t.Ref.length
      · refine ⟨t, rfl, hl, ?_⟩
        have := ht1 t (by simpa [Grid.received] using hf) hl
        rw [this] at hnot
        by_contra hne
        exact hnot (List.mem_filter.mpr ⟨by simpa [Grid.received] using hr, by simpa using hne⟩)
      · have := ht2 (Or.inr ⟨t, by simpa [Grid.received] using hf, hl⟩)
        rw [this] at hnot
        exact absurd (by simpa [Grid.received] using hr) hnot
  · intro t hf hl
    rw [htx] at ht1
    rw [ht1 t (by simpa [Grid.received] using hf) hl]
    simp [List.mem_filter]

/-- C4, witness: `Finalize` on a grid with the zone and the local heartbeat record
returns without error. -/
theorem finalize_effect_witness :
    (Finalize (providerWith ["10.0.0.1"] []) exampleGslb
        (quietGrid (some (zoneWith "zone_delegated/ref"
          [⟨"10.1.0.1", "gslb-ns-cloud-example-com-za.example.com"⟩]))
          [⟨"record:txt/hb", "test-gslb-heartbeat-eu.example.com", "2024-05-01T11:00:00", 30,
            "default"⟩])).1 = none ∧
    (0 < ("zone_delegated/ref" : String).length) ∧
    (Finalize (providerWith ["10.0.0.1"] []) exampleGslb
        (quietGrid (some (zoneWith "zone_delegated/ref"
          [⟨"10.1.0.1", "gslb-ns-cloud-example-com-za.example.com"⟩]))
          [⟨"record:txt/hb", "test-gslb-heartbeat-eu.example.com", "2024-05-01T11:00:00", 30,
            "default"⟩])).2.zone = none :=
  ⟨by decide, by decide,
    ((finalize_effect (providerWith ["10.0.0.1"] []) exampleGslb
      (quietGrid (some (zoneWith "zone_delegated/ref"
          [⟨"10.1.0.1", "gslb-ns-cloud-example-com-za.example.com"⟩]))
          [⟨"record:txt/hb", "test-gslb-heartbeat-eu.example.com", "2024-05-01T11:00:00", 30,
            "default"⟩])
      (by decide)).1 _ rfl (by decide)).1⟩

/-! ## The freshness threshold of the heartbeat -/

/-- What `InspectTXTThreshold` returns for a reply whose timestamp parses. -/
theorem inspect_parsed (r : GslbLoggerAssistant) (dns : Resolver) (clock : Clock)
    (fqdn : String) (fake : Bool) (threshold : Int) (txt : Msg) (literal : String) (ts : Int)
    (hex : dns.Exchange (dnsFqdn fqdn) TypeTXT (overrideWithFakeDNS fake r.edgeDNSServer)
      = some txt)
    (hlit : txtTimestamp txt = some literal) (hne : 0 < literal.length)
    (hparse : clock.Parse "2006-01-02T15:04:05" literal = some ts) :
    InspectTXTThreshold r dns clock fqdn fake threshold =
      if timeSub clock.Now ts > threshold then some .expired else none := by
  simp [InspectTXTThreshold, hex, hlit, hne, hparse]

/-- `Time.Sub` against a threshold below the largest Duration. -/
theorem timeSub_gt (t u threshold : Int) (hlo : minDuration ≤ threshold)
    (hhi : threshold < maxDuration) : timeSub t u > threshold ↔ t - u > threshold := by
  unfold timeSub
  split
  · constructor <;> intro _ <;> omega
  · split
    · constructor <;> intro _ <;> omega
    · rfl

/-- C10, counterexample: the heartbeat is 1700-01-01T00:00:00, the time is
2024-05-01T12:04:00Z and the threshold is the largest Duration (about 292
years): `now - ts` is greater than the threshold, and `InspectTXTThreshold`
returns no error, because `Time.Sub` yields at most the largest Duration. -/
theorem inspect_saturated_difference_not_expired :
    txtTimestamp
        { Answer := [RR.TXT (renderTXT "test-gslb-heartbeat-za.example.com." "30"
          "1700-01-01T00:00:00")] } = some "1700-01-01T00:00:00" ∧
    (refClock exampleNow).Parse "2006-01-02T15:04:05" "1700-01-01T00:00:00" =
      some (-8520336000000000000) ∧
    (refClock exampleNow).Now - (-8520336000000000000) > maxDuration ∧
    InspectTXTThreshold exampleAssistant (resolverWith "1700-01-01T00:00:00")
      (refClock exampleNow) "test-gslb-heartbeat-za.example.com" false maxDuration = none := by
  decide

/-- C10, amended: for every TXT answer whose first record's literal parses as a
timestamp ts in the layout 2006-01-02T15:04:05, every current time now and
every threshold below the largest Duration, `InspectTXTThreshold` returns
no error exactly when now - ts <= threshold and returns an Expired error
exactly when now - ts > threshold. -/
theorem inspect_threshold (r : GslbLoggerAssistant) (dns : Resolver) (clock : Clock)
    (fqdn : String) (fake : Bool) (threshold : Int) (txt : Msg) (literal : String) (ts : Int)
    (hex : dns.Exchange (dnsFqdn fqdn) TypeTXT (overrideWithFakeDNS fake r.edgeDNSServer)
      = some txt)
    (hlit : txtTimestamp txt = some literal) (hne : 0 < literal.length)
    (hparse : clock.Parse "2006-01-02T15:04:05" literal = some ts)
    (hlo : minDuration ≤ threshold) (hhi : threshold < maxDuration) :
    (InspectTXTThreshold r dns clock fqdn fake threshold = none ↔
      clock.Now - ts ≤ threshold) ∧
    (InspectTXTThreshold r dns clock fqdn fake threshold = some .expired ↔
      clock.Now - ts > threshold) := by
  rw [inspect_parsed r dns clock fqdn fake threshold txt literal ts hex hlit hne hparse]
  have h := timeSub_gt clock.Now ts threshold hlo hhi
  by_cases hgt : timeSub clock.Now ts > threshold
  · have h2 := h.mp hgt
    simp only [hgt, if_true]
    constructor
    · constructor
      · intro hc; cases hc
      · intro hle; omega
    · exact ⟨fun _ => h2, fun _ => trivial⟩
  · have h2 : ¬ clock.Now - ts > threshold := fun hc => hgt (h.mpr hc)
    simp only [hgt, if_false]
    constructor
    · exact ⟨fun _ => by omega, fun _ => trivial⟩
    · constructor
      · intro hc; cases hc
      · intro hc; exact absurd hc h2

/-- C10, witness (scenario S2): the literal 2024-05-01T12:00:00 read at
2024-05-01T12:04:00Z against a threshold of 300 seconds. -/
theorem inspect_threshold_witness :
    (0 < ("2024-05-01T12:00:00" : String).length) ∧
    (minDuration ≤ 300 * Second ∧ 300 * Second < maxDuration) ∧
    (InspectTXTThreshold exampleAssistant (resolverWith "2024-05-01T12:00:00")
        (refClock exampleNow) "test-gslb-heartbeat-za.example.com" false (300 * Second) = none ↔
      (refClock exampleNow).Now - 1714564800000000000 ≤ 300 * Second) :=
  ⟨by decide, by decide,
    (inspect_threshold exampleAssistant (resolverWith "2024-05-01T12:00:00")
      (refClock exampleNow) "test-gslb-heartbeat-za.example.com" false (300 * Second)
      { Answer := [RR.TXT (renderTXT "test-gslb-heartbeat-za.example.com." "30"
          "2024-05-01T12:00:00")] }
      "2024-05-01T12:00:00" 1714564800000000000 rfl (by decide) (by decide) (by decide)
      (by decide) (by decide)).1⟩

/-- Scenario S2 and the boundary: the heartbeat 2024-05-01T12:00:00 with a threshold
of 300 seconds is accepted at 12:04:00 and at 12:05:00 (a difference equal
to the threshold), and is expired one second later and 301 seconds after
12:04:00. -/
theorem inspect_scenario_S2 :
    InspectTXTThreshold exampleAssistant (resolverWith "2024-05-01T12:00:00")
      (refClock exampleNow) "test-gslb-heartbeat-za.example.com" false (300 * Second) = none ∧
    InspectTXTThreshold exampleAssistant (resolverWith "2024-05-01T12:00:00")
      (refClock (exampleNow + 60 * Second)) "test-gslb-heartbeat-za.example.com" false
      (300 * Second) = none ∧
    InspectTXTThreshold exampleAssistant (resolverWith "2024-05-01T12:00:00")
      (refClock (exampleNow + 61 * Second)) "test-gslb-heartbeat-za.example.com" false
      (300 * Second) = some .expired ∧
    InspectTXTThreshold exampleAssistant (resolverWith "2024-05-01T12:00:00")
      (refClock (exampleNow + 301 * Second)) "test-gslb-heartbeat-za.example.com" false
      (300 * Second) = some .expired := by
  decide

/-! ## A missing or unreadable heartbeat -/

/-- C11, counterexample: the first answer is a TXT record whose literal
`yesterday` does not parse; `InspectTXTThreshold` returns the parse error,
which is not of the Expired kind. -/
theorem inspect_unparsed_is_not_expired :
    txtTimestamp
        { Answer := [RR.TXT (renderTXT "test-gslb-heartbeat-za.example.com." "30"
          "yesterday")] } = some "yesterday" ∧
    (refClock exampleNow).Parse "2006-01-02T15:04:05" "yesterday" = none ∧
    InspectTXTThreshold exampleAssistant (resolverWith "yesterday") (refClock exampleNow)
      "test-gslb-heartbeat-za.example.com" false (300 * Second) = some (.parse "yesterday") ∧
    InspectTXTThreshold exampleAssistant (resolverWith "yesterday") (refClock exampleNow)
      "test-gslb-heartbeat-za.example.com" false (300 * Second) ≠ some .expired := by
  decide

/-- C11, amended: for every DNS reply, `InspectTXTThreshold` returns an error of the
Expired kind if the reply has no answer record, or its first answer is not
a TXT record, or the literal of the first answer is empty; if the literal
is not empty and cannot be parsed in the layout 2006-01-02T15:04:05 it
returns the parse error (an error, not of the Expired kind). -/
theorem inspect_missing_or_unreadable (r : GslbLoggerAssistant) (dns : Resolver)
    (clock : Clock) (fqdn : String) (fake : Bool) (threshold : Int) (txt : Msg)
    (hex : dns.Exchange (dnsFqdn fqdn) TypeTXT (overrideWithFakeDNS fake r.edgeDNSServer)
      = some txt) :
    (txt.Answer = [] → InspectTXTThreshold r dns clock fqdn fake threshold = some .expired) ∧
    (∀ rendered rest, txt.Answer = RR.other rendered :: rest →
      InspectTXTThreshold r dns clock fqdn fake threshold = some .expired) ∧
    (txtTimestamp txt = some "" →
      InspectTXTThreshold r dns clock fqdn fake threshold = some .expired) ∧
    (∀ literal, txtTimestamp txt = some literal → 0 < literal.length →
      clock.Parse "2006-01-02T15:04:05" literal = none →
      InspectTXTThreshold r dns clock fqdn fake threshold = some (.parse literal)) := by
  refine ⟨?_, ?_, ?_, ?_⟩
  · intro h
    simp [InspectTXTThreshold, hex, txtTimestamp, h]
  · intro rendered rest h
    simp [InspectTXTThreshold, hex, txtTimestamp, h]
  · intro h
    simp [InspectTXTThreshold, hex, h]
  · intro literal hl hne hp
    simp [InspectTXTThreshold, hex, hl, hne, hp]

/-- C11, witness: a reply without answer records. -/
theorem inspect_missing_or_unreadable_witness :
    InspectTXTThreshold exampleAssistant { Exchange := fun _ _ _ => some { Answer := [] } }
      (refClock exampleNow) "test-gslb-heartbeat-za.example.com" false (300 * Second) =
      some .expired :=
  (inspect_missing_or_unreadable exampleAssistant
    { Exchange := fun _ _ _ => some { Answer := [] } } (refClock exampleNow)
    "test-gslb-heartbeat-za.example.com" false (300 * Second) { Answer := [] } rfl).1 rfl

/-! ## External targets -/

/-- C12, failing input: two peers that both answer the question
`localtargets-app.cloud.example.com.`. The second peer is asked
`localtargets-localtargets-app.cloud.example.com..` instead, and the
result holds the address of the first peer only. -/
theorem second_peer_gets_another_question :
    externalTargetsQuestions (resolverOf peerRecords []) "app.cloud.example.com" false
        ["gslb-ns-cloud-example-com-za.example.com",
         "gslb-ns-cloud-example-com-us.example.com"] =
      [⟨"localtargets-app.cloud.example.com.", 1,
          "gslb-ns-cloud-example-com-za.example.com:53"⟩,
       ⟨"localtargets-localtargets-app.cloud.example.com..", 1,
          "gslb-ns-cloud-example-com-us.example.com:53"⟩] ∧
    GetExternalTargets (resolverOf peerRecords []) "app.cloud.example.com" false
        ["gslb-ns-cloud-example-com-za.example.com",
         "gslb-ns-cloud-example-com-us.example.com"] = some ["10.1.0.1"] ∧
    GetExternalTargets (resolverOf peerRecords []) "app.cloud.example.com" false
        ["gslb-ns-cloud-example-com-za.example.com"] = some ["10.1.0.1"] ∧
    GetExternalTargets (resolverOf peerRecords []) "app.cloud.example.com" false
        ["gslb-ns-cloud-example-com-us.example.com"] = some ["10.2.0.1"] := by
  decide

/-- C13, failing input: the query to the first peer fails and the second peer
would answer 10.2.0.1; the call returns the empty list and never asks the
second peer. -/
theorem peers_after_a_failing_one_are_skipped :
    externalTargetsQuestions
        (resolverOf peerRecords ["gslb-ns-cloud-example-com-za.example.com:53"])
        "app.cloud.example.com" false
        ["gslb-ns-cloud-example-com-za.example.com",
         "gslb-ns-cloud-example-com-us.example.com"] =
      [⟨"localtargets-app.cloud.example.com.", 1,
          "gslb-ns-cloud-example-com-za.example.com:53"⟩] ∧
    GetExternalTargets
        (resolverOf peerRecords ["gslb-ns-cloud-example-com-za.example.com:53"])
        "app.cloud.example.com" false
        ["gslb-ns-cloud-example-com-za.example.com",
         "gslb-ns-cloud-example-com-us.example.com"] = some [] ∧
    GetExternalTargets
        (resolverOf peerRecords ["gslb-ns-cloud-example-com-za.example.com:53"])
        "app.cloud.example.com" false
        ["gslb-ns-cloud-example-com-us.example.com"] = some ["10.2.0.1"] := by
  decide

/-! ## Requeue decisions -/

/-- C20: for every handler built with `NewReconcileResultHandler(n, log)` with
n >= 0 and n seconds within the range of a Duration, `Requeue()` returns a
result whose RequeueAfter is exactly n seconds, with no requeue flag and no
error, and `RequeueError(err)` returns the empty result together with
exactly the error it was given. -/
theorem requeue_decisions (n : Int) (h0 : 0 ≤ n) (hmax : n * 1000000000 ≤ maxDuration) :
    (NewReconcileResultHandler n).Requeue =
      ({ Requeue := false, RequeueAfter := n * Second }, none) ∧
    ∀ err : Option Err,
      (NewReconcileResultHandler n).RequeueError err =
        ({ Requeue := false, RequeueAfter := 0 }, err) := by
  constructor
  · have h1 : wrapInt64 n = n := by
      unfold wrapInt64
      unfold maxDuration at hmax
      omega
    have h2 : wrapInt64 (Second * n) = Second * n := by
      unfold wrapInt64 Second
      unfold maxDuration at hmax
      omega
    simp only [ReconcileResultHandler.Requeue, NewReconcileResultHandler, h1, h2]
    rw [Int.mul_comm]
  · intro err
    rfl

/-- C20, witness: the default interval of 30 seconds. -/
theorem requeue_decisions_witness :
    (0 : Int) ≤ 30 ∧ (30 : Int) * 1000000000 ≤ maxDuration ∧
    (NewReconcileResultHandler 30).Requeue =
      ({ Requeue := false, RequeueAfter := 30 * Second }, none) :=
  ⟨by decide, by decide, (requeue_decisions 30 (by decide) (by decide)).1⟩

/-! ## Properties of remove -/

/-- An iteration that reads an element other than `s` changes nothing. -/
theorem removeStep_skip (s : String) (array : List String) (len i : Nat) (v : String)
    (hv : array.get? i = some v) (hne : v ≠ s) :
    removeStep s array len i = some (array, len) := by
  unfold removeStep
  rw [hv]
  simp [hne]

/-- Iterations that read elements other than `s` change nothing. -/
theorem removeLoop_skip (s : String) :
    ∀ (idxs rest : List Nat) (array : List String) (len : Nat),
      (∀ i ∈ idxs, ∃ v, array.get? i = some v ∧ v ≠ s) →
      removeLoop s (idxs ++ rest) array len = removeLoop s rest array len := by
  intro idxs
  induction idxs with
  | nil => intro rest array len _; rfl
  | cons i idxs ih =>
    intro rest array len h
    obtain ⟨v, hv, hne⟩ := h i (List.mem_cons_self _ _)
    simp only [List.cons_append, removeLoop, removeStep_skip s array len i v hv hne]
    exact ih rest array len (fun j hj => h j (List.mem_cons_of_mem _ hj))

theorem get?_of_all_ne (s : String) (l : List String) (i : Nat) (hi : i < l.length)
    (h : ∀ v ∈ l, v ≠ s) : ∃ v, l.get? i = some v ∧ v ≠ s :=
  ⟨l.get ⟨i, hi⟩, List.get?_eq_get hi, h _ (List.get_mem l i hi)⟩

/-- A list in which `s` occurs once: `remove` deletes that occurrence. -/
theorem remove_single (pre post : List String) (s : String) (hpre : s ∉ pre)
    (hpost : s ∉ post) : remove (pre ++ s :: post) s = some (pre ++ post) := by
  have hlen : (pre ++ s :: post).length = pre.length + (post.length + 1) := by simp
  have hrange : List.range (pre.length + (post.length + 1)) =
      List.range' 0 pre.length ++ (pre.length :: List.range' (pre.length + 1) post.length) := by
    rw [List.range_eq_range', Nat.add_comm,
      ← List.range'_append_1 0 pre.length (post.length + 1), Nat.zero_add, List.range'_succ]
  unfold remove
  rw [hlen, hrange]
  rw [removeLoop_skip s (List.range' 0 pre.length) _ _ _ (by
    intro i hi
    have hi2 : i < pre.length := by simpa using hi
    refine ⟨pre.get ⟨i, hi2⟩, ?_, ?_⟩
    · rw [List.get?_eq_getElem?, List.getElem?_append_left hi2]
      simp
    · intro hc
      exact hpre (hc ▸ List.get_mem pre i hi2))]
  have hstep : removeStep s (pre ++ s :: post) (pre.length + (post.length + 1)) pre.length =
      some (pre ++ post ++ (pre ++ s :: post).drop (pre.length + post.length),
        pre.length + post.length) := by
    have hget : (pre ++ s :: post).get? pre.length = some s := by
      rw [List.get?_eq_getElem?, List.getElem?_append_right (Nat.le_refl _)]
      simp
    have htake : (pre ++ s :: post).take (pre.length + (post.length + 1)) = pre ++ s :: post := by
      rw [← hlen]; exact List.take_length _
    have hdrop : (pre ++ s :: post).drop (pre.length + 1) = post := by
      have := @List.drop_append _ pre (s :: post) 1
      simp at this ⊢
    simp only [removeStep, hget, if_true, htake, hdrop, List.take_left]
    simp
  simp only [removeLoop, hstep]
  have hskip := removeLoop_skip s (List.range' (pre.length + 1) post.length) []
    (pre ++ post ++ (pre ++ s :: post).drop (pre.length + post.length))
    (pre.length + post.length) (by
      intro i hi
      have hi2 : pre.length + 1 ≤ i ∧ i < pre.length + 1 + post.length := by simpa using hi
      have hall : ∀ v ∈ post ++ (pre ++ s :: post).drop (pre.length + post.length), v ≠ s := by
        intro v hv hc
        rcases List.mem_append.mp hv with h1 | h1
        · exact hpost (hc ▸ h1)
        · rw [List.drop_append] at h1
          have hpos : 0 < post.length := by omega
          obtain ⟨m, hm⟩ : ∃ m, post.length = m + 1 := ⟨post.length - 1, by omega⟩
          rw [hm, List.drop_succ_cons] at h1
          exact hpost (hc ▸ List.mem_of_mem_drop h1)
      have hlen2 : ((pre ++ s :: post).drop (pre.length + post.length)).length = 1 := by
        simp
      rw [List.append_assoc, List.get?_eq_getElem?, List.getElem?_append_right (by omega),
        ← List.get?_eq_getElem?]
      exact get?_of_all_ne s _ _ (by simp; omega) hall)
  rw [List.append_nil] at hskip
  rw [hskip]
  simp only [removeLoop]
  rw [List.take_left' (by simp)]

/-- A list in which `s` does not occur: `remove` returns it unchanged. -/
theorem remove_absent (list : List String) (s : String) (h : s ∉ list) :
    remove list s = some list := by
  unfold remove
  have hskip := removeLoop_skip s (List.range list.length) [] list list.length (by
    intro i hi
    exact get?_of_all_ne s list i (by simpa using hi) (fun v hv hc => h (hc ▸ hv)))
  rw [List.append_nil] at hskip
  rw [hskip]
  simp [removeLoop]

/-- C19, evaluation at the failing inputs: `f` occurs twice in the list `f, a, f, b`
and the call deletes both occurrences, where deleting the first one only
gives `a, f, b`; on the list `f, a, f` the call panics. -/
theorem remove_deletes_later_occurrence :
    remove ["f", "a", "f", "b"] "f" = some ["a", "b"] ∧
    (["f", "a", "f", "b"] : List String).erase "f" = ["a", "f", "b"] ∧
    remove ["f", "a", "f"] "f" = none := by
  decide

/-- A list of strings in which s occurs at most once: `remove(list, s)` returns the
list with the occurrence of s deleted and every other element kept in its
original order, and returns the list unchanged when s does not occur in
it. -/
theorem remove_erases_single_occurrence (list : List String) (s : String)
    (h : list.count s ≤ 1) :
    remove list s = some (list.erase s) ∧ (s ∉ list → remove list s = some list) := by
  refine ⟨?_, remove_absent list s⟩
  by_cases hmem : s ∈ list
  · obtain ⟨pre, post, rfl⟩ := List.append_of_mem hmem
    have hc : List.count s pre + (List.count s post + 1) ≤ 1 := by
      simpa [List.count_append] using h
    have hpre : s ∉ pre := List.count_eq_zero.mp (by omega)
    have hpost : s ∉ post := List.count_eq_zero.mp (by omega)
    rw [remove_single pre post s hpre hpost, List.erase_append_right _ hpre,
      List.erase_cons_head]
  · rw [remove_absent list s hmem, List.erase_of_not_mem hmem]

/-! ## The local ingress addresses -/

/-- The loop of `GslbIngressExposedIPs` when every hostname resolves. -/
theorem ingressIPsLoop_eq (dig : String → String → Except Err (List String))
    (edgeDNSServer : String) :
    ∀ (entries : List LoadBalancerIngress) (acc : List String),
      (∀ e ∈ entries, 0 < e.Hostname.length → ∃ IPs, dig edgeDNSServer e.Hostname = .ok IPs) →
      ingressIPsLoop dig edgeDNSServer entries acc =
        .ok (acc ++ entries.flatMap (entryAddresses dig edgeDNSServer)) := by
  intro entries
  induction entries with
  | nil => intro acc _; simp [ingressIPsLoop]
  | cons e rest ih =>
    intro acc h
    have hrest : ∀ x ∈ rest, 0 < x.Hostname.length →
        ∃ IPs, dig edgeDNSServer x.Hostname = .ok IPs :=
      fun x hx => h x (List.mem_cons_of_mem _ hx)
    unfold ingressIPsLoop
    by_cases hh : 0 < e.Hostname.length
    · obtain ⟨IPs, hd⟩ := h e (List.mem_cons_self _ _) hh
      simp only [hh, if_true, hd, ih _ hrest, List.flatMap_cons, entryAddresses]
      by_cases hip : 0 < e.IP.length <;> simp [hip]
    · simp only [hh, if_false, ih _ hrest, List.flatMap_cons, entryAddresses]
      by_cases hip : 0 < e.IP.length <;> simp [hip]

/-- C14: when the Ingress of the Gslb exists and every hostname resolves,
`GslbIngressExposedIPs` returns exactly, in entry order, the non-empty IP of
each entry of `Status.LoadBalancer.Ingress` followed by the addresses its
non-empty Hostname resolves to with the edge resolver, and nothing else;
when the Ingress is absent it returns the NotFound error and no address. -/
theorem ingress_exposed_ips (r : GslbLoggerAssistant)
    (dig : String → String → Except Err (List String)) (gslb : Gslb) (k : Kube)
    (hfails : k.fails (.GetIngress gslb.Namespace gslb.Name) = none) :
    (∀ ing, k.ingress gslb.Namespace gslb.Name = some ing →
      (∀ e ∈ ing.Status, 0 < e.Hostname.length →
        ∃ IPs, dig r.edgeDNSServer e.Hostname = .ok IPs) →
      GslbIngressExposedIPs r dig gslb k =
        .ok (ing.Status.flatMap (entryAddresses dig r.edgeDNSServer))) ∧
    (k.ingress gslb.Namespace gslb.Name = none →
      GslbIngressExposedIPs r dig gslb k = .error .notFound) := by
  constructor
  · intro ing hing hres
    simp [GslbIngressExposedIPs, GetIngress, hfails, hing,
      ingressIPsLoop_eq dig r.edgeDNSServer ing.Status [] hres]
  · intro hnone
    simp [GslbIngressExposedIPs, GetIngress, hfails, hnone]

/-- C14, witness: an Ingress exposed at the IP 10.0.0.1 and at the hostname
`lb.example.com`, which resolves to two addresses. -/
theorem ingress_exposed_ips_witness :
    (quietKube [exampleIngress] []).fails
      (.GetIngress exampleGslb.Namespace exampleGslb.Name) = none ∧
    (quietKube [exampleIngress] []).ingress exampleGslb.Namespace exampleGslb.Name =
      some exampleIngress ∧
    GslbIngressExposedIPs exampleAssistant exampleDig exampleGslb
      (quietKube [exampleIngress] []) =
      .ok (exampleIngress.Status.flatMap (entryAddresses exampleDig exampleAssistant.edgeDNSServer))
      ∧
    exampleIngress.Status.flatMap (entryAddresses exampleDig exampleAssistant.edgeDNSServer) =
      ["10.0.0.1", "10.0.0.2", "10.0.0.3"] :=
  ⟨rfl, by decide,
    (ingress_exposed_ips exampleAssistant exampleDig exampleGslb (quietKube [exampleIngress] [])
      rfl).1 exampleIngress (by decide)
      (by
        intro e he hlen
        have hcases : e = ⟨"10.0.0.1", ""⟩ ∨ e = ⟨"", "lb.example.com"⟩ := by
          simpa [exampleIngress] using he
        rcases hcases with rfl | rfl
        · exact absurd hlen (by decide)
        · exact ⟨["10.0.0.2", "10.0.0.3"], rfl⟩),
    by decide⟩

/-! ## SaveDNSEndpoint -/

theorem isNotFound_iff (err : Err) : IsNotFound err = true ↔ err = .notFound := by
  cases err <;> simp [IsNotFound]

theorem find_replaceEndpoint (e : DNSEndpoint) :
    ∀ (l : List DNSEndpoint) (x : DNSEndpoint),
      l.find? (fun o => decide (o.Namespace = e.Namespace ∧ o.Name = e.Name)) = some x →
      (replaceEndpoint e l).find? (fun o => decide (o.Namespace = e.Namespace ∧ o.Name = e.Name))
        = some e := by
  intro l
  induction l with
  | nil => intro x h; simp at h
  | cons y ys ih =>
    intro x h
    by_cases hy : y.Namespace = e.Namespace ∧ y.Name = e.Name
    · simp [replaceEndpoint, hy, List.find?_cons]
    · simp only [List.find?_cons, hy, decide_False] at h
      simp only [replaceEndpoint, hy, if_false, List.find?_cons, decide_False]
      exact ih x h

theorem replaceEndpoint_self (e : DNSEndpoint) :
    ∀ (l : List DNSEndpoint),
      l.find? (fun o => decide (o.Namespace = e.Namespace ∧ o.Name = e.Name)) = some e →
      replaceEndpoint e l = l := by
  intro l
  induction l with
  | nil => intro h; simp at h
  | cons y ys ih =>
    intro h
    by_cases hy : y.Namespace = e.Namespace ∧ y.Name = e.Name
    · simp only [List.find?_cons, hy, and_self, decide_True] at h
      cases h
      simp [replaceEndpoint]
    · simp only [List.find?_cons, hy, decide_False] at h
      simp only [replaceEndpoint, hy, if_false]
      rw [ih h]

@[simp] theorem Kube.received_fails (k : Kube) (c : KubeCall) : (k.received c).fails = k.fails :=
  rfl

@[simp] theorem Kube.received_endpoints (k : Kube) (c : KubeCall) :
    (k.received c).endpoints = k.endpoints := rfl

@[simp] theorem Kube.received_ingresses (k : Kube) (c : KubeCall) :
    (k.received c).ingresses = k.ingresses := rfl

@[simp] theorem Kube.received_endpoint (k : Kube) (c : KubeCall) (nspace name : String) :
    (k.received c).endpoint nspace name = k.endpoint nspace name := rfl

@[simp] theorem Kube.received_ingress (k : Kube) (c : KubeCall) (nspace name : String) :
    (k.received c).ingress nspace name = k.ingress nspace name := rfl

@[simp] theorem Kube.received_log (k : Kube) (c : KubeCall) :
    (k.received c).log = k.log ++ [c] := rfl

@[simp] theorem GetDNSEndpoint_log (k : Kube) (nspace name : String) :
    (GetDNSEndpoint k nspace name).2.log = k.log ++ [.GetDNSEndpoint nspace name] := by
  unfold GetDNSEndpoint
  split
  · rfl
  · split <;> rfl

@[simp] theorem GetDNSEndpoint_state (k : Kube) (nspace name : String) :
    (GetDNSEndpoint k nspace name).2 = k.received (.GetDNSEndpoint nspace name) := by
  unfold GetDNSEndpoint
  split
  · rfl
  · split <;> rfl

@[simp] theorem CreateDNSEndpoint_log (k : Kube) (e : DNSEndpoint) :
    (CreateDNSEndpoint k e).2.log = k.log ++ [.CreateDNSEndpoint e] := by
  unfold CreateDNSEndpoint
  split
  · rfl
  · split <;> rfl

@[simp] theorem UpdateDNSEndpoint_log (k : Kube) (e : DNSEndpoint) :
    (UpdateDNSEndpoint k e).2.log = k.log ++ [.UpdateDNSEndpoint e] := by
  unfold UpdateDNSEndpoint
  split
  · rfl
  · split <;> rfl

@[simp] theorem GetIngress_state (k : Kube) (nspace name : String) :
    (GetIngress k nspace name).2 = k.received (.GetIngress nspace name) := by
  unfold GetIngress
  split
  · rfl
  · split <;> rfl

@[simp] theorem CreateIngress_log (k : Kube) (i : Ingress) :
    (CreateIngress k i).2.log = k.log ++ [.CreateIngress i] := by
  unfold CreateIngress
  split
  · rfl
  · split <;> rfl

@[simp] theorem UpdateIngress_log (k : Kube) (i : Ingress) :
    (UpdateIngress k i).2.log = k.log ++ [.UpdateIngress i] := by
  unfold UpdateIngress
  split
  · rfl
  · split <;> rfl

theorem GetDNSEndpoint_fail (k : Kube) (nspace name : String) (err : Err)
    (h : k.fails (.GetDNSEndpoint nspace name) = some err) :
    GetDNSEndpoint k nspace name = (.error err, k.received (.GetDNSEndpoint nspace name)) := by
  simp [GetDNSEndpoint, h]

theorem GetDNSEndpoint_found (k : Kube) (nspace name : String) (e : DNSEndpoint)
    (h : k.fails (.GetDNSEndpoint nspace name) = none) (he : k.endpoint nspace name = some e) :
    GetDNSEndpoint k nspace name = (.ok e, k.received (.GetDNSEndpoint nspace name)) := by
  simp [GetDNSEndpoint, h, he]

theorem GetDNSEndpoint_absent (k : Kube) (nspace name : String)
    (h : k.fails (.GetDNSEndpoint nspace name) = none) (he : k.endpoint nspace name = none) :
    GetDNSEndpoint k nspace name =
      (.error .notFound, k.received (.GetDNSEndpoint nspace name)) := by
  simp [GetDNSEndpoint, h, he]

theorem CreateDNSEndpoint_ok (k : Kube) (e : DNSEndpoint)
    (h : (CreateDNSEndpoint k e).1 = none) :
    k.fails (.CreateDNSEndpoint e) = none ∧ k.endpoint e.Namespace e.Name = none ∧
      (CreateDNSEndpoint k e).2.endpoints = k.endpoints ++ [e] ∧
      (CreateDNSEndpoint k e).2.log = k.log ++ [.CreateDNSEndpoint e] ∧
      (CreateDNSEndpoint k e).2.fails = k.fails := by
  unfold CreateDNSEndpoint at h ⊢
  cases hc : k.fails (.CreateDNSEndpoint e) with
  | some err => simp [hc] at h
  | none =>
    cases he : k.endpoint e.Namespace e.Name with
    | some o => simp [hc, he] at h
    | none => simp [Kube.received]

theorem UpdateDNSEndpoint_ok (k : Kube) (e : DNSEndpoint)
    (h : (UpdateDNSEndpoint k e).1 = none) :
    k.fails (.UpdateDNSEndpoint e) = none ∧
      (UpdateDNSEndpoint k e).2.endpoints = replaceEndpoint e k.endpoints ∧
      (UpdateDNSEndpoint k e).2.log = k.log ++ [.UpdateDNSEndpoint e] ∧
      (UpdateDNSEndpoint k e).2.fails = k.fails := by
  unfold UpdateDNSEndpoint at h ⊢
  cases hc : k.fails (.UpdateDNSEndpoint e) with
  | some err => simp [hc] at h
  | none =>
    cases he : k.endpoint e.Namespace e.Name with
    | none => simp [hc, he] at h
    | some o => simp [Kube.received]

/-- The two ways in which `SaveDNSEndpoint` returns without error: the object read
is updated, or nothing is found and the desired object is created. -/
theorem saveDNSEndpoint_ok (nspace : String) (i : DNSEndpoint) (k : Kube)
    (hok : (SaveDNSEndpoint nspace i k).1 = none) :
    (∃ found, k.fails (.GetDNSEndpoint nspace i.Name) = none ∧
      k.endpoint nspace i.Name = some found ∧
      (SaveDNSEndpoint nspace i k).2.endpoints =
        replaceEndpoint { found with Spec := i.Spec } k.endpoints ∧
      (SaveDNSEndpoint nspace i k).2.log =
        k.log ++ [.GetDNSEndpoint nspace i.Name,
          .UpdateDNSEndpoint { found with Spec := i.Spec }] ∧
      (SaveDNSEndpoint nspace i k).2.fails = k.fails) ∨
    ((k.fails (.GetDNSEndpoint nspace i.Name) = some .notFound ∨
        (k.fails (.GetDNSEndpoint nspace i.Name) = none ∧ k.endpoint nspace i.Name = none)) ∧
      k.fails (.CreateDNSEndpoint i) = none ∧
      k.endpoint i.Namespace i.Name = none ∧
      (SaveDNSEndpoint nspace i k).2.endpoints = k.endpoints ++ [i] ∧
      (SaveDNSEndpoint nspace i k).2.log =
        k.log ++ [.GetDNSEndpoint nspace i.Name, .CreateDNSEndpoint i] ∧
      (SaveDNSEndpoint nspace i k).2.fails = k.fails) := by
  cases hf : k.fails (.GetDNSEndpoint nspace i.Name) with
  | some err =>
    have hget := GetDNSEndpoint_fail k nspace i.Name err hf
    by_cases hnf : IsNotFound err = true
    · have herr := (isNotFound_iff err).mp hnf
      subst herr
      have hs : SaveDNSEndpoint nspace i k =
          CreateDNSEndpoint (k.received (.GetDNSEndpoint nspace i.Name)) i := by
        simp [SaveDNSEndpoint, hget, IsNotFound]
      rw [hs] at hok ⊢
      obtain ⟨h1, h2, h3, h4, h5⟩ := CreateDNSEndpoint_ok _ _ hok
      right
      exact ⟨Or.inl rfl, by simpa using h1, by simpa using h2, by simpa using h3,
        by simp, by simpa using h5⟩
    · simp [SaveDNSEndpoint, hget, hnf] at hok
  | none =>
    cases hfound : k.endpoint nspace i.Name with
    | some found =>
      have hget := GetDNSEndpoint_found k nspace i.Name found hf hfound
      have hs : SaveDNSEndpoint nspace i k =
          UpdateDNSEndpoint (k.received (.GetDNSEndpoint nspace i.Name))
            { found with Spec := i.Spec } := by
        simp [SaveDNSEndpoint, hget]
      rw [hs] at hok ⊢
      obtain ⟨h1, h2, h3, h4⟩ := UpdateDNSEndpoint_ok _ _ hok
      left
      exact ⟨found, rfl, rfl, by simpa using h2, by simp, by simpa using h4⟩
    | none =>
      have hget := GetDNSEndpoint_absent k nspace i.Name hf hfound
      have hs : SaveDNSEndpoint nspace i k =
          CreateDNSEndpoint (k.received (.GetDNSEndpoint nspace i.Name)) i := by
        simp [SaveDNSEndpoint, hget, IsNotFound]
      rw [hs] at hok ⊢
      obtain ⟨h1, h2, h3, h4, h5⟩ := CreateDNSEndpoint_ok _ _ hok
      right
      exact ⟨Or.inr ⟨rfl, rfl⟩, by simpa using h1, by simpa using h2, by simpa using h3,
        by simp, by simpa using h5⟩

/-- C15, counterexample: the desired DNSEndpoint carries the namespace `other` and
is saved with the namespace argument `test-gslb` in an empty store; the
call returns without error, nothing is stored under (test-gslb, test-gslb)
and the object is stored under (other, test-gslb). -/
theorem saved_endpoint_is_under_its_own_namespace :
    (SaveDNSEndpoint "test-gslb" (endpointIn "other" ["10.0.0.1"]) (quietKube [] [])).1 = none ∧
    (SaveDNSEndpoint "test-gslb" (endpointIn "other" ["10.0.0.1"])
      (quietKube [] [])).2.endpoint "test-gslb" "test-gslb" = none ∧
    (SaveDNSEndpoint "test-gslb" (endpointIn "other" ["10.0.0.1"])
      (quietKube [] [])).2.endpoint "other" "test-gslb" =
      some (endpointIn "other" ["10.0.0.1"]) ∧
    (SaveDNSEndpoint "test-gslb" (endpointIn "other" ["10.0.0.1"]) (quietKube [] [])).2.log =
      [.GetDNSEndpoint "test-gslb" "test-gslb",
       .CreateDNSEndpoint (endpointIn "other" ["10.0.0.1"])] := by
  decide

/-- C15, amended: after `SaveDNSEndpoint(namespace, desired)` returns without error,
if an object was read under (namespace, desired.Name) that object is stored
there with its Spec equal to desired.Spec; if none was found, desired is
stored under (desired.Namespace, desired.Name). So when desired.Namespace
is the namespace argument, the DNSEndpoint stored under
(namespace, desired.Name) exists and its Spec equals desired.Spec. -/
theorem saved_endpoint_spec (nspace : String) (i : DNSEndpoint) (k : Kube)
    (hok : (SaveDNSEndpoint nspace i k).1 = none) :
    (∀ found, (GetDNSEndpoint k nspace i.Name).1 = .ok found →
      (SaveDNSEndpoint nspace i k).2.endpoint nspace i.Name =
        some { found with Spec := i.Spec }) ∧
    (∀ err, (GetDNSEndpoint k nspace i.Name).1 = .error err →
      (SaveDNSEndpoint nspace i k).2.endpoint i.Namespace i.Name = some i) ∧
    (i.Namespace = nspace →
      ∃ o, (SaveDNSEndpoint nspace i k).2.endpoint nspace i.Name = some o ∧
        o.Spec = i.Spec) := by
  have hupd : ∀ found, k.endpoint nspace i.Name = some found →
      (SaveDNSEndpoint nspace i k).2.endpoints =
        replaceEndpoint { found with Spec := i.Spec } k.endpoints →
      (SaveDNSEndpoint nspace i k).2.endpoint nspace i.Name =
        some { found with Spec := i.Spec } := by
    intro found hfound hends
    have hkey := List.find?_some (by simpa [Kube.endpoint] using hfound)
    simp only [Bool.and_eq_true, decide_eq_true_eq] at hkey
    have := find_replaceEndpoint { found with Spec := i.Spec } k.endpoints found
      (by simpa [Kube.endpoint, hkey.1, hkey.2] using hfound)
    simp only [Kube.endpoint, hends]
    simpa [hkey.1, hkey.2] using this
  have hcre : k.endpoint i.Namespace i.Name = none →
      (SaveDNSEndpoint nspace i k).2.endpoints = k.endpoints ++ [i] →
      (SaveDNSEndpoint nspace i k).2.endpoint i.Namespace i.Name = some i := by
    intro hnone hends
    simp only [Kube.endpoint] at hnone ⊢
    rw [hends, List.find?_append, hnone]
    simp
  rcases saveDNSEndpoint_ok nspace i k hok with
    ⟨found, hf, hfound, hends, _, _⟩ | ⟨hget, _, hnone, hends, _, _⟩
  · have hg := GetDNSEndpoint_found k nspace i.Name found hf hfound
    refine ⟨?_, ?_, ?_⟩
    · intro f2 h2
      rw [hg] at h2
      cases h2
      exact hupd found hfound hends
    · intro err h2
      rw [hg] at h2
      cases h2
    · intro _
      exact ⟨_, hupd found hfound hends, rfl⟩
  · have hg : ∃ err, (GetDNSEndpoint k nspace i.Name).1 = .error err := by
      rcases hget with h | ⟨h1, h2⟩
      · exact ⟨_, by rw [GetDNSEndpoint_fail k nspace i.Name _ h]⟩
      · exact ⟨_, by rw [GetDNSEndpoint_absent k nspace i.Name h1 h2]⟩
    obtain ⟨e0, he0⟩ := hg
    refine ⟨?_, ?_, ?_⟩
    · intro f2 h2
      rw [he0] at h2
      cases h2
    · intro _ _
      exact hcre hnone hends
    · intro hns
      refine ⟨i, ?_, rfl⟩
      have := hcre hnone hends
      rwa [hns] at this

/-- C15, witness: the desired object is saved over an older one in its own
namespace. -/
theorem saved_endpoint_spec_witness :
    (SaveDNSEndpoint "test-gslb" (endpointIn "test-gslb" ["10.0.0.1"])
      (quietKube [] [endpointIn "test-gslb" ["10.9.9.9"]])).1 = none ∧
    (endpointIn "test-gslb" ["10.0.0.1"]).Namespace = "test-gslb" ∧
    ∃ o, (SaveDNSEndpoint "test-gslb" (endpointIn "test-gslb" ["10.0.0.1"])
        (quietKube [] [endpointIn "test-gslb" ["10.9.9.9"]])).2.endpoint "test-gslb"
          (endpointIn "test-gslb" ["10.0.0.1"]).Name = some o ∧
      o.Spec = (endpointIn "test-gslb" ["10.0.0.1"]).Spec :=
  ⟨by decide, rfl,
    (saved_endpoint_spec "test-gslb" (endpointIn "test-gslb" ["10.0.0.1"])
      (quietKube [] [endpointIn "test-gslb" ["10.9.9.9"]]) (by decide)).2.2 rfl⟩

/-- When the update of the object read fails, `SaveDNSEndpoint` returns the error of
the update, a conflict included. -/
theorem saveDNSEndpoint_update_error (nspace : String) (i : DNSEndpoint) (k : Kube)
    (found : DNSEndpoint) (err : Err)
    (hget : (GetDNSEndpoint k nspace i.Name).1 = .ok found)
    (hupdate : (UpdateDNSEndpoint (GetDNSEndpoint k nspace i.Name).2
      { found with Spec := i.Spec }).1 = some err) :
    (SaveDNSEndpoint nspace i k).1 = some err := by
  unfold SaveDNSEndpoint
  cases hg : GetDNSEndpoint k nspace i.Name with
  | mk res k1 =>
    rw [hg] at hget hupdate
    simp only [] at hget hupdate
    subst hget
    simpa using hupdate

/-- C16, counterexample: in the first store the create is answered with
AlreadyExists (another writer created the object after the read) and
`SaveDNSEndpoint` returns that error after the read and the create alone;
in the second store the update is answered with a conflict and
`SaveDNSEndpoint` returns the conflict. -/
theorem save_endpoint_does_not_recover :
    (SaveDNSEndpoint "test-gslb" (endpointIn "test-gslb" ["10.0.0.1"])
      (failingKube [] (.CreateDNSEndpoint (endpointIn "test-gslb" ["10.0.0.1"]))
        .alreadyExists)).1 = some .alreadyExists ∧
    (SaveDNSEndpoint "test-gslb" (endpointIn "test-gslb" ["10.0.0.1"])
      (failingKube [] (.CreateDNSEndpoint (endpointIn "test-gslb" ["10.0.0.1"]))
        .alreadyExists)).2.log =
      [.GetDNSEndpoint "test-gslb" "test-gslb",
       .CreateDNSEndpoint (endpointIn "test-gslb" ["10.0.0.1"])] ∧
    (SaveDNSEndpoint "test-gslb" (endpointIn "test-gslb" ["10.0.0.1"])
      (failingKube [endpointIn "test-gslb" ["10.9.9.9"]]
        (.UpdateDNSEndpoint (endpointIn "test-gslb" ["10.0.0.1"])) .conflict)).1 =
      some .conflict := by
  decide

/-- C16, amended: when nothing is found under (namespace, desired.Name) and the
create fails (also because the object already exists), `SaveDNSEndpoint`
returns the error of the create, and its requests are the read and the
create only: it neither reads the object again nor updates it. -/
theorem save_endpoint_create_error (nspace : String) (i : DNSEndpoint) (k : Kube) (err : Err)
    (hget : (GetDNSEndpoint k nspace i.Name).1 = .error .notFound)
    (hcreate : (CreateDNSEndpoint (GetDNSEndpoint k nspace i.Name).2 i).1 = some err) :
    (SaveDNSEndpoint nspace i k).1 = some err ∧
    issuedKube k (SaveDNSEndpoint nspace i k).2 =
      [.GetDNSEndpoint nspace i.Name, .CreateDNSEndpoint i] := by
  have hk1 : (GetDNSEndpoint k nspace i.Name).2 = k.received (.GetDNSEndpoint nspace i.Name) :=
    GetDNSEndpoint_state k nspace i.Name
  have hs : SaveDNSEndpoint nspace i k =
      CreateDNSEndpoint (k.received (.GetDNSEndpoint nspace i.Name)) i := by
    unfold SaveDNSEndpoint
    cases hg : GetDNSEndpoint k nspace i.Name with
    | mk res k1 =>
      rw [hg] at hget hk1
      simp only [] at hget hk1
      subst hget hk1
      simp [IsNotFound]
  rw [hk1] at hcreate
  rw [hs]
  refine ⟨hcreate, ?_⟩
  have hlog : (CreateDNSEndpoint (k.received (.GetDNSEndpoint nspace i.Name)) i).2.log =
      k.log ++ [.GetDNSEndpoint nspace i.Name, .CreateDNSEndpoint i] := by
    simp
  simp [issuedKube, hlog]

/-- C16, witness: the create is answered with AlreadyExists. -/
theorem save_endpoint_create_error_witness :
    (GetDNSEndpoint
      (failingKube [] (.CreateDNSEndpoint (endpointIn "test-gslb" ["10.0.0.1"])) .alreadyExists)
      "test-gslb" (endpointIn "test-gslb" ["10.0.0.1"]).Name).1 = .error .notFound ∧
    (SaveDNSEndpoint "test-gslb" (endpointIn "test-gslb" ["10.0.0.1"])
      (failingKube [] (.CreateDNSEndpoint (endpointIn "test-gslb" ["10.0.0.1"]))
        .alreadyExists)).1 = some .alreadyExists :=
  ⟨rfl,
    (save_endpoint_create_error "test-gslb" (endpointIn "test-gslb" ["10.0.0.1"])
      (failingKube [] (.CreateDNSEndpoint (endpointIn "test-gslb" ["10.0.0.1"])) .alreadyExists)
      .alreadyExists rfl (by decide)).1⟩

/-! ## saveIngress -/

/-- C17: when the managed Ingress exists and differs from the desired one (so that
`saveIngress` updates it), `saveIngress` returns no error if the update
fails with a conflict and returns the error of the update for every other
failure; it returns the error of every failed get other than NotFound, and
the error of every failed create. -/
theorem saveIngress_errors (gslb : Gslb) (i : Ingress) (k : Kube) :
    (∀ found err, (GetIngress k gslb.Namespace gslb.Name).1 = .ok found →
      ingressEqual found i = false →
      (UpdateIngress (GetIngress k gslb.Namespace gslb.Name).2 (mergedIngress found i)).1 =
        some err →
      (IsConflict (some err) = true → (saveIngress gslb i k).1 = none) ∧
      (IsConflict (some err) = false → (saveIngress gslb i k).1 = some err)) ∧
    (∀ err, (GetIngress k gslb.Namespace gslb.Name).1 = .error err →
      IsNotFound err = false → (saveIngress gslb i k).1 = some err) ∧
    (∀ err cerr, (GetIngress k gslb.Namespace gslb.Name).1 = .error err →
      IsNotFound err = true →
      (CreateIngress (GetIngress k gslb.Namespace gslb.Name).2 i).1 = some cerr →
      (saveIngress gslb i k).1 = some cerr) := by
  refine ⟨?_, ?_, ?_⟩
  · intro found err hget hne hupd
    unfold saveIngress
    cases hg : GetIngress k gslb.Namespace gslb.Name with
    | mk res k1 =>
      rw [hg] at hget hupd
      simp only [] at hget hupd
      subst hget
      simp only [hne, Bool.not_false, if_true]
      cases hu : UpdateIngress k1 (mergedIngress found i) with
      | mk e k2 =>
        rw [hu] at hupd
        simp only [] at hupd
        subst hupd
        have hu2 : UpdateIngress k1
            { found with
              Spec := i.Spec,
              Annotations := MergeAnnotations found.Annotations i.Annotations } =
            (some err, k2) := hu
        simp only [hu2]
        constructor
        · intro hc; simp [hc]
        · intro hc; simp [hc]
  · intro err hget hnf
    unfold saveIngress
    cases hg : GetIngress k gslb.Namespace gslb.Name with
    | mk res k1 =>
      rw [hg] at hget
      simp only [] at hget
      subst hget
      simp [hnf]
  · intro err cerr hget hnf hcreate
    unfold saveIngress
    cases hg : GetIngress k gslb.Namespace gslb.Name with
    | mk res k1 =>
      rw [hg] at hget hcreate
      simp only [] at hget hcreate
      subst hget
      simpa [hnf] using hcreate

/-- C17, witness: the stored Ingress differs from the desired one and the update is
answered with a conflict. -/
theorem saveIngress_errors_witness :
    (GetIngress
      (failingIngressKube [exampleIngress]
        (.UpdateIngress (mergedIngress exampleIngress desiredIngress)) .conflict)
      exampleGslb.Namespace exampleGslb.Name).1 = .ok exampleIngress ∧
    ingressEqual exampleIngress desiredIngress = false ∧
    IsConflict (some .conflict) = true ∧
    (saveIngress exampleGslb desiredIngress
      (failingIngressKube [exampleIngress]
        (.UpdateIngress (mergedIngress exampleIngress desiredIngress)) .conflict)).1 = none :=
  ⟨rfl, by decide, rfl,
    ((saveIngress_errors exampleGslb desiredIngress
      (failingIngressKube [exampleIngress]
        (.UpdateIngress (mergedIngress exampleIngress desiredIngress)) .conflict)).1
      exampleIngress .conflict rfl (by decide) (by decide)).1 rfl⟩

/-! ## Two runs in a row -/

theorem endpoint_key (k : Kube) (nspace name : String) (found : DNSEndpoint)
    (h : k.endpoint nspace name = some found) :
    found.Namespace = nspace ∧ found.Name = name := by
  have hkey := List.find?_some (by simpa [Kube.endpoint] using h)
  simpa only [Bool.and_eq_true, decide_eq_true_eq] using hkey

theorem endpoint_of_replaced (k k2 : Kube) (nspace name : String) (found upd : DNSEndpoint)
    (hfound : k.endpoint nspace name = some found) (hns : upd.Namespace = found.Namespace)
    (hn : upd.Name = found.Name) (hends : k2.endpoints = replaceEndpoint upd k.endpoints) :
    k2.endpoint nspace name = some upd := by
  obtain ⟨h1, h2⟩ := endpoint_key k nspace name found hfound
  have := find_replaceEndpoint upd k.endpoints found
    (by simpa [Kube.endpoint, hns, hn, h1, h2] using hfound)
  simp only [Kube.endpoint, hends]
  simpa [hns, hn, h1, h2] using this

theorem endpoint_of_appended (k k2 : Kube) (i : DNSEndpoint)
    (hnone : k.endpoint i.Namespace i.Name = none) (hends : k2.endpoints = k.endpoints ++ [i]) :
    k2.endpoint i.Namespace i.Name = some i := by
  simp only [Kube.endpoint] at hnone ⊢
  rw [hends, List.find?_append, hnone]
  simp

/-- A second `SaveDNSEndpoint` right after a first one, both without error, reads
the object and updates it with the Spec it already has. -/
theorem save_twice (nspace : String) (i : DNSEndpoint) (k0 : Kube)
    (hs1 : (SaveDNSEndpoint nspace i k0).1 = none)
    (hs2 : (SaveDNSEndpoint nspace i (SaveDNSEndpoint nspace i k0).2).1 = none) :
    (SaveDNSEndpoint nspace i (SaveDNSEndpoint nspace i k0).2).2.endpoints =
      (SaveDNSEndpoint nspace i k0).2.endpoints ∧
    ∃ stored, (SaveDNSEndpoint nspace i k0).2.endpoint nspace i.Name = some stored ∧
      stored.Spec = i.Spec ∧
      issuedKube (SaveDNSEndpoint nspace i k0).2
          (SaveDNSEndpoint nspace i (SaveDNSEndpoint nspace i k0).2).2 =
        [.GetDNSEndpoint nspace i.Name, .UpdateDNSEndpoint stored] := by
  have key : ∀ stored, (SaveDNSEndpoint nspace i k0).2.endpoint nspace i.Name = some stored →
      stored.Spec = i.Spec →
      (SaveDNSEndpoint nspace i k0).2.fails (.GetDNSEndpoint nspace i.Name) = none →
      (SaveDNSEndpoint nspace i (SaveDNSEndpoint nspace i k0).2).2.endpoints =
        (SaveDNSEndpoint nspace i k0).2.endpoints ∧
      ∃ stored, (SaveDNSEndpoint nspace i k0).2.endpoint nspace i.Name = some stored ∧
        stored.Spec = i.Spec ∧
        issuedKube (SaveDNSEndpoint nspace i k0).2
            (SaveDNSEndpoint nspace i (SaveDNSEndpoint nspace i k0).2).2 =
          [.GetDNSEndpoint nspace i.Name, .UpdateDNSEndpoint stored] := by
    intro stored hst hspec hfails
    have hsame : ({ stored with Spec := i.Spec } : DNSEndpoint) = stored := by
      cases stored
      simp only [] at hspec
      subst hspec
      rfl
    rcases saveDNSEndpoint_ok nspace i _ hs2 with
      ⟨found2, _, hfound2, hends2, hlog2, _⟩ | ⟨hget2, _, _, _, _, _⟩
    · rw [hst] at hfound2
      cases hfound2
      rw [hsame] at hends2 hlog2
      obtain ⟨h1, h2⟩ := endpoint_key _ nspace i.Name stored hst
      refine ⟨?_, stored, hst, hspec, ?_⟩
      · rw [hends2]
        apply replaceEndpoint_self
        simpa [Kube.endpoint, h1, h2] using hst
      · simp [issuedKube, hlog2]
    · rcases hget2 with h | ⟨_, h⟩
      · rw [hfails] at h; cases h
      · rw [hst] at h; cases h
  rcases saveDNSEndpoint_ok nspace i k0 hs1 with
    ⟨found, hf, hfound, hends, _, hfails⟩ | ⟨hget, _, hnone, hends, _, hfails⟩
  · exact key { found with Spec := i.Spec }
      (endpoint_of_replaced k0 _ nspace i.Name found _ hfound rfl rfl hends) rfl
      (by rw [hfails]; exact hf)
  · have hi := endpoint_of_appended k0 _ i hnone hends
    rcases saveDNSEndpoint_ok nspace i _ hs2 with
      ⟨found2, hf2, hfound2, _, _, _⟩ | ⟨_, _, hnone2, _, _, _⟩
    · obtain ⟨h1, _⟩ := endpoint_key _ nspace i.Name found2 hfound2
      have hfi : found2 = i := by
        rcases hget with h | ⟨_, h0⟩
        · rw [hfails, h] at hf2; cases hf2
        · simp only [Kube.endpoint] at h0 hfound2
          rw [hends, List.find?_append, h0] at hfound2
          simp only [Option.none_or, List.find?_cons] at hfound2
          split at hfound2
          · simpa using hfound2.symm
          · simp at hfound2
      subst hfi
      exact key found2 hfound2 rfl hf2
    · rw [hi] at hnone2; cases hnone2

theorem create_zone_after (p : InfobloxProvider) (clock : Clock) (gslb : Gslb) (g : Grid)
    (hok : (CreateZoneDelegationForExternalDNS p clock gslb g).1 = none)
    (hzone : g.zone = none ∨ ∃ z, g.zone = some z ∧ 0 < z.Ref.length) :
    ∃ z, (CreateZoneDelegationForExternalDNS p clock gslb g).2.zone = some z ∧
      0 < z.Ref.length := by
  obtain ⟨addresses, _, hwd, heq⟩ := create_ok p clock gslb g hok
  rw [heq, writeHeartbeat_zone]
  rcases hzone with hnone | ⟨z, hz, hr⟩
  · rw [hnone] at hwd ⊢
    rw [writeDelegation_zone_create p gslb _ _ hwd]
    exact ⟨_, rfl, by
      simp only [String.length_append]
      exact Nat.lt_of_lt_of_le (by decide) (Nat.le_add_right _ _)⟩
  · rw [hz] at hwd ⊢
    rw [writeDelegation_zone_update p gslb z _ _ (by simpa [Grid.received] using hz) hr hwd]
    exact ⟨_, rfl, hr⟩

/-- C18, counterexample: the second of two runs in a row, on the state the first
one left, returns without error and issues an update of the DNSEndpoint to
the orchestrator and an `UpdateZoneDelegated` (and an `UpdateTXTRecord`)
to Infoblox. -/
theorem second_run_writes_again :
    (SaveDNSEndpoint "test-gslb" (endpointIn "test-gslb" ["10.0.0.1"]) afterFirstSave).1 = none ∧
    issuedKube afterFirstSave
        (SaveDNSEndpoint "test-gslb" (endpointIn "test-gslb" ["10.0.0.1"]) afterFirstSave).2 =
      [.GetDNSEndpoint "test-gslb" "test-gslb",
       .UpdateDNSEndpoint (endpointIn "test-gslb" ["10.0.0.1"])] ∧
    (CreateZoneDelegationForExternalDNS (providerWith ["10.0.0.1"] []) (refClock exampleNow)
        exampleGslb afterFirstCreate).1 = none ∧
    issued afterFirstCreate
        (CreateZoneDelegationForExternalDNS (providerWith ["10.0.0.1"] []) (refClock exampleNow)
          exampleGslb afterFirstCreate).2 =
      [.GetZoneDelegated "cloud.example.com",
       .UpdateZoneDelegated "zone_delegated/cloud.example.com"
         [⟨"10.0.0.1", "gslb-ns-cloud-example-com-eu.example.com"⟩],
       .GetTXTRecord "test-gslb-heartbeat-eu.example.com",
       .UpdateTXTRecord "test-gslb-heartbeat-eu.example.com" "2024-05-01T12:04:00"] := by
  decide

/-- C18, amended: when `SaveDNSEndpoint` followed by
`CreateZoneDelegationForExternalDNS` is run twice in a row with the same
inputs, no outside change and no error, the DNSEndpoint stored after the
second run is identical to the one stored after the first, with the
desired Spec; the second run does not skip its writes: it issues one update
of the DNSEndpoint, with the object already stored, and one
`UpdateZoneDelegated` when the zone has a Ref, which it has after a first
run on no zone or on a zone with a Ref. -/
theorem second_run_repeats_writes (nspace : String) (i : DNSEndpoint) (k0 : Kube)
    (p : InfobloxProvider) (clock1 clock2 : Clock) (gslb : Gslb) (g0 : Grid)
    (hs1 : (SaveDNSEndpoint nspace i k0).1 = none)
    (hs2 : (SaveDNSEndpoint nspace i (SaveDNSEndpoint nspace i k0).2).1 = none)
    (hc1 : (CreateZoneDelegationForExternalDNS p clock1 gslb g0).1 = none)
    (hc2 : (CreateZoneDelegationForExternalDNS p clock2 gslb
      (CreateZoneDelegationForExternalDNS p clock1 gslb g0).2).1 = none) :
    (SaveDNSEndpoint nspace i (SaveDNSEndpoint nspace i k0).2).2.endpoints =
      (SaveDNSEndpoint nspace i k0).2.endpoints ∧
    (∃ stored, (SaveDNSEndpoint nspace i k0).2.endpoint nspace i.Name = some stored ∧
      (SaveDNSEndpoint nspace i (SaveDNSEndpoint nspace i k0).2).2.endpoint nspace i.Name =
        some stored ∧
      stored.Spec = i.Spec ∧
      issuedKube (SaveDNSEndpoint nspace i k0).2
          (SaveDNSEndpoint nspace i (SaveDNSEndpoint nspace i k0).2).2 =
        [.GetDNSEndpoint nspace i.Name, .UpdateDNSEndpoint stored]) ∧
    (∀ z, (CreateZoneDelegationForExternalDNS p clock1 gslb g0).2.zone = some z →
      0 < z.Ref.length →
      ∃ l, (issued (CreateZoneDelegationForExternalDNS p clock1 gslb g0).2
          (CreateZoneDelegationForExternalDNS p clock2 gslb
            (CreateZoneDelegationForExternalDNS p clock1 gslb g0).2).2).filter
          Call.writesDelegation = [.UpdateZoneDelegated z.Ref l]) ∧
    ((g0.zone = none ∨ ∃ z, g0.zone = some z ∧ 0 < z.Ref.length) →
      ∃ z, (CreateZoneDelegationForExternalDNS p clock1 gslb g0).2.zone = some z ∧
        0 < z.Ref.length) := by
  obtain ⟨hends, stored, hst, hspec, hiss⟩ := save_twice nspace i k0 hs1 hs2
  refine ⟨hends, ⟨stored, hst, ?_, hspec, hiss⟩, ?_, create_zone_after p clock1 gslb g0 hc1⟩
  · simp only [Kube.endpoint, hends] at hst ⊢
    exact hst
  · intro z hz hr
    obtain ⟨W, _, hwd, _, hW⟩ := create_zone_writes p clock2 gslb
      (CreateZoneDelegationForExternalDNS p clock1 gslb g0).2
    obtain ⟨addresses, _, hWeq, hfq⟩ := hW hc2
    refine ⟨mergedList p gslb z (ownDelegateTo p addresses), ?_⟩
    rw [hwd, hWeq, hz]
    simp [delegationRequest, hfq z hz, hr, Call.writesDelegation]

/-- C18, witness: two runs in a row on an empty store and an empty grid. -/
theorem second_run_repeats_writes_witness :
    (SaveDNSEndpoint "test-gslb" (endpointIn "test-gslb" ["10.0.0.1"]) (quietKube [] [])).1 =
      none ∧
    (CreateZoneDelegationForExternalDNS (providerWith ["10.0.0.1"] []) (refClock exampleNow)
      exampleGslb (quietGrid none [])).1 = none ∧
    (SaveDNSEndpoint "test-gslb" (endpointIn "test-gslb" ["10.0.0.1"])
        (SaveDNSEndpoint "test-gslb" (endpointIn "test-gslb" ["10.0.0.1"])
          (quietKube [] [])).2).2.endpoints =
      (SaveDNSEndpoint "test-gslb" (endpointIn "test-gslb" ["10.0.0.1"])
        (quietKube [] [])).2.endpoints :=
  ⟨by decide, by decide,
    (second_run_repeats_writes "test-gslb" (endpointIn "test-gslb" ["10.0.0.1"])
      (quietKube [] []) (providerWith ["10.0.0.1"] []) (refClock exampleNow)
      (refClock exampleNow) exampleGslb (quietGrid none [])
      (by decide) (by decide) (by decide) (by decide)).1⟩

/-! ## The provider factory -/

/-- The case `DNSTypeNS1` of the switch. -/
theorem Provider_NS1 (asInterface : GslbLoggerAssistant → IAssistant) (f : ProviderFactory)
    (h : f.config.EdgeDNSType = DNSTypeNS1) :
    Provider asInterface f = some (.ExternalDNS .externalDNSTypeNS1 f.config
      (asInterface (NewGslbAssistant f.config.K8gbNamespace f.config.EdgeDNSServer))) := by
  simp [Provider, h, NewExternalDNS]

/-- The case `DNSTypeRoute53` of the switch. -/
theorem Provider_Route53 (asInterface : GslbLoggerAssistant → IAssistant) (f : ProviderFactory)
    (h : f.config.EdgeDNSType = DNSTypeRoute53) :
    Provider asInterface f = some (.ExternalDNS .externalDNSTypeRoute53 f.config
      (asInterface (NewGslbAssistant f.config.K8gbNamespace f.config.EdgeDNSServer))) := by
  have hne : DNSTypeRoute53 ≠ DNSTypeNS1 := by decide
  simp [Provider, h, hne, NewExternalDNS]

/-- The case `DNSTypeInfoblox` of the switch. -/
theorem Provider_Infoblox (asInterface : GslbLoggerAssistant → IAssistant) (f : ProviderFactory)
    (h : f.config.EdgeDNSType = DNSTypeInfoblox) :
    Provider asInterface f = some (.Infoblox ⟨asInterface
      (NewGslbAssistant f.config.K8gbNamespace f.config.EdgeDNSServer), f.config⟩) := by
  have hne : DNSTypeInfoblox ≠ DNSTypeNS1 := by decide
  have hne2 : DNSTypeInfoblox ≠ DNSTypeRoute53 := by decide
  simp [Provider, h, hne, hne2, NewInfobloxDNS]

/-- The case `DNSTypeNoEdgeDNS` of the switch. -/
theorem Provider_NoEdgeDNS (asInterface : GslbLoggerAssistant → IAssistant) (f : ProviderFactory)
    (h : f.config.EdgeDNSType = DNSTypeNoEdgeDNS) :
    Provider asInterface f = some (.Empty f.config
      (asInterface (NewGslbAssistant f.config.K8gbNamespace f.config.EdgeDNSServer))) := by
  have hne : DNSTypeNoEdgeDNS ≠ DNSTypeNS1 := by decide
  have hne2 : DNSTypeNoEdgeDNS ≠ DNSTypeRoute53 := by decide
  have hne3 : DNSTypeNoEdgeDNS ≠ DNSTypeInfoblox := by decide
  simp [Provider, h, hne, hne2, hne3, NewEmptyDNS]

/-- C21, counterexample: a Config whose `EdgeDNSType` is the zero value of the type,
or the sum of two declared constants, gets no provider: the switch has no
case for it and the result stays nil. -/
theorem provider_is_nil_for_other_types :
    (Provider exampleView (factoryOfType 0)).isNone = true ∧
    (Provider exampleView (factoryOfType (DNSTypeRoute53 + DNSTypeNS1))).isNone = true := by
  decide

/-- C21, amended: for every Config whose `EdgeDNSType` is one of the four declared
constants, `ProviderFactory.Provider` returns one provider (not nil) whose
variant is determined by `EdgeDNSType` alone: the ExternalDNS provider for
`DNSTypeNS1` and for `DNSTypeRoute53`, the Infoblox provider for
`DNSTypeInfoblox`, the NoEdge (empty) provider for `DNSTypeNoEdgeDNS`; each is
built on the Config of the factory and on the assistant of its
`K8gbNamespace` and `EdgeDNSServer`. -/
theorem provider_selected_by_type (asInterface : GslbLoggerAssistant → IAssistant)
    (f : ProviderFactory)
    (h : f.config.EdgeDNSType = DNSTypeNS1 ∨ f.config.EdgeDNSType = DNSTypeRoute53 ∨
      f.config.EdgeDNSType = DNSTypeInfoblox ∨ f.config.EdgeDNSType = DNSTypeNoEdgeDNS) :
    ∃ provider, Provider asInterface f = some provider ∧
      some provider.variant = variantOfType f.config.EdgeDNSType ∧
      (f.config.EdgeDNSType = DNSTypeNS1 →
        provider = .ExternalDNS .externalDNSTypeNS1 f.config
          (asInterface (NewGslbAssistant f.config.K8gbNamespace f.config.EdgeDNSServer))) ∧
      (f.config.EdgeDNSType = DNSTypeRoute53 →
        provider = .ExternalDNS .externalDNSTypeRoute53 f.config
          (asInterface (NewGslbAssistant f.config.K8gbNamespace f.config.EdgeDNSServer))) ∧
      (f.config.EdgeDNSType = DNSTypeInfoblox →
        provider = .Infoblox ⟨asInterface
          (NewGslbAssistant f.config.K8gbNamespace f.config.EdgeDNSServer), f.config⟩) ∧
      (f.config.EdgeDNSType = DNSTypeNoEdgeDNS →
        provider = .Empty f.config
          (asInterface (NewGslbAssistant f.config.K8gbNamespace f.config.EdgeDNSServer))) ∧
      ∀ (asInterface2 : GslbLoggerAssistant → IAssistant) (f2 : ProviderFactory),
        f2.config.EdgeDNSType = f.config.EdgeDNSType →
        (Provider asInterface2 f2).map IDnsProvider.variant = some provider.variant := by
  rcases h with h | h | h | h
  · refine ⟨_, Provider_NS1 asInterface f h, ?_, ?_, ?_, ?_, ?_, ?_⟩
    · simp [variantOfType, h, IDnsProvider.variant]
    · intro _; rfl
    · intro h2; rw [h] at h2; exact absurd h2 (by decide)
    · intro h2; rw [h] at h2; exact absurd h2 (by decide)
    · intro h2; rw [h] at h2; exact absurd h2 (by decide)
    · intro v2 f2 h2
      rw [Provider_NS1 v2 f2 (h2.trans h)]
      rfl
  · refine ⟨_, Provider_Route53 asInterface f h, ?_, ?_, ?_, ?_, ?_, ?_⟩
    · rw [h]; rfl
    · intro h2; rw [h] at h2; exact absurd h2 (by decide)
    · intro _; rfl
    · intro h2; rw [h] at h2; exact absurd h2 (by decide)
    · intro h2; rw [h] at h2; exact absurd h2 (by decide)
    · intro v2 f2 h2
      rw [Provider_Route53 v2 f2 (h2.trans h)]
      rfl
  · refine ⟨_, Provider_Infoblox asInterface f h, ?_, ?_, ?_, ?_, ?_, ?_⟩
    · rw [h]; rfl
    · intro h2; rw [h] at h2; exact absurd h2 (by decide)
    · intro h2; rw [h] at h2; exact absurd h2 (by decide)
    · intro _; rfl
    · intro h2; rw [h] at h2; exact absurd h2 (by decide)
    · intro v2 f2 h2
      rw [Provider_Infoblox v2 f2 (h2.trans h)]
      rfl
  · refine ⟨_, Provider_NoEdgeDNS asInterface f h, ?_, ?_, ?_, ?_, ?_, ?_⟩
    · rw [h]; rfl
    · intro h2; rw [h] at h2; exact absurd h2 (by decide)
    · intro h2; rw [h] at h2; exact absurd h2 (by decide)
    · intro h2; rw [h] at h2; exact absurd h2 (by decide)
    · intro _; rfl
    · intro v2 f2 h2
      rw [Provider_NoEdgeDNS v2 f2 (h2.trans h)]
      rfl

/-- C21, witness: a factory whose Config says Infoblox. -/
theorem provider_selected_by_type_witness :
    (factoryOfType 2).config.EdgeDNSType = DNSTypeInfoblox ∧
    ∃ provider, Provider exampleView (factoryOfType 2) = some provider ∧
      some provider.variant = some Variant.Infoblox := by
  refine ⟨by decide, ?_⟩
  obtain ⟨provider, h1, h2, _⟩ :=
    provider_selected_by_type exampleView (factoryOfType 2) (Or.inr (Or.inr (Or.inl (by decide))))
  exact ⟨provider, h1, by rw [h2]; decide⟩

/-! ## The Gslb after gslbIngress -/

/-- Reading a map after one of its entries was set. -/
theorem annotationValue_set (m : List (String × String)) (ann value key : String) :
    annotationValue ( SetMetaDataAnnotation m ann value) key =
      if key = ann then value else annotationValue m key := by
  induction m with
  | nil =>
    by_cases h : key = ann
    · simp [ SetMetaDataAnnotation, annotationValue, h]
    · have h2 : ¬ ann = key := fun hc => h hc.symm
      simp [ SetMetaDataAnnotation, annotationValue, h, h2]
  | cons kv rest ih =>
    unfold SetMetaDataAnnotation
    by_cases hk : kv.1 = ann
    · rw [if_pos hk]
      by_cases h : key = ann
      · simp [annotationValue, h]
      · have h2 : ¬ ann = key := fun hc => h hc.symm
        have h3 : ¬ kv.1 = key := fun hc => h2 (hk ▸ hc)
        simp [annotationValue, h, h2, h3]
    · rw [if_neg hk]
      by_cases h3 : kv.1 = key
      · have h : ¬ key = ann := fun hc => hk (h3.trans hc)
        simp [annotationValue, h, h3]
      · have ih2 := ih
        unfold annotationValue at ih2 ⊢
        rw [List.find?_cons_of_neg _ (by simpa using h3),
          List.find?_cons_of_neg _ (by simpa using h3)]
        exact ih2

/-- The keys of a map after one of its entries was set. -/
theorem annotationKeys_set (m : List (String × String)) (ann value key : String) :
    key ∈ annotationKeys ( SetMetaDataAnnotation m ann value) ↔
      key ∈ annotationKeys m ∨ key = ann := by
  induction m with
  | nil => simp [ SetMetaDataAnnotation, annotationKeys]
  | cons kv rest ih =>
    unfold SetMetaDataAnnotation
    by_cases hk : kv.1 = ann
    · rw [if_pos hk]
      simp only [annotationKeys, List.map_cons, List.mem_cons]
      constructor
      · rintro (h | h)
        · exact Or.inr h
        · exact Or.inl (Or.inr h)
      · rintro ((h | h) | h)
        · exact Or.inl (h.trans hk)
        · exact Or.inr h
        · exact Or.inl h
    · rw [if_neg hk]
      simp only [annotationKeys, List.map_cons, List.mem_cons] at ih ⊢
      rw [ih]
      tauto

/-- The Gslb object after `gslbIngress`. -/
theorem gslbIngress_gslb ( strategyAnnotation primaryGeoTagAnnotation : String)
    (SetControllerReference : Gslb → Ingress → Option Err) (gslb : Gslb) :
    (gslbIngress strategyAnnotation primaryGeoTagAnnotation SetControllerReference gslb).1 =
      if gslb.Strategy.PrimaryGeoTag ≠ "" then
        { gslb with
          Annotations := SetMetaDataAnnotation
            ( SetMetaDataAnnotation gslb.Annotations strategyAnnotation gslb.Strategy.Type_)
            primaryGeoTagAnnotation gslb.Strategy.PrimaryGeoTag }
      else
        { gslb with
          Annotations := SetMetaDataAnnotation gslb.Annotations strategyAnnotation
            gslb.Strategy.Type_ } := by
  unfold gslbIngress
  by_cases h : gslb.Strategy.PrimaryGeoTag = ""
  · simp only [h, ne_eq, not_true_eq_false, if_false]
    split <;> rfl
  · simp only [h, ne_eq, not_false_eq_true, if_true]
    split <;> rfl

/-- C22, counterexample: a Gslb without annotations leaves `gslbIngress` with the
annotation `k8gb.io/strategy`, so the object is not as it was. -/
theorem gslbIngress_annotates_the_gslb :
    plainGslb.Annotations = [] ∧
    (gslbIngress "k8gb.io/strategy" "k8gb.io/primary-geotag" ownerSet plainGslb).1.Annotations =
      [("k8gb.io/strategy", "roundRobin")] ∧
    (gslbIngress "k8gb.io/strategy" "k8gb.io/primary-geotag" ownerSet plainGslb).1 ≠
      plainGslb := by
  decide

/-- C22, amended: `gslbIngress` changes the annotations of the Gslb object it is given
and no other field: it sets the annotation `strategyAnnotation` to
`Spec.Strategy.Type` and then, when `Spec.Strategy.PrimaryGeoTag` is not
empty, the annotation `primaryGeoTagAnnotation` to it; every other
annotation is left as it was, and so are the name, the namespace, the
strategy, the ingress specification and the finalizers. -/
theorem gslbIngress_changes_annotations_only
    ( strategyAnnotation primaryGeoTagAnnotation : String)
    (SetControllerReference : Gslb → Ingress → Option Err) (gslb : Gslb) :
    ((gslbIngress strategyAnnotation primaryGeoTagAnnotation SetControllerReference gslb).1.Name
        = gslb.Name ∧
      (gslbIngress strategyAnnotation primaryGeoTagAnnotation SetControllerReference
        gslb).1.Namespace = gslb.Namespace ∧
      (gslbIngress strategyAnnotation primaryGeoTagAnnotation SetControllerReference
        gslb).1.Strategy = gslb.Strategy ∧
      (gslbIngress strategyAnnotation primaryGeoTagAnnotation SetControllerReference
        gslb).1.Ingress = gslb.Ingress ∧
      (gslbIngress strategyAnnotation primaryGeoTagAnnotation SetControllerReference
        gslb).1.Finalizers = gslb.Finalizers) ∧
    (∀ key : String,
      annotationValue (gslbIngress strategyAnnotation primaryGeoTagAnnotation
          SetControllerReference gslb).1.Annotations key =
        if key = primaryGeoTagAnnotation ∧ gslb.Strategy.PrimaryGeoTag ≠ "" then
          gslb.Strategy.PrimaryGeoTag
        else if key = strategyAnnotation then gslb.Strategy.Type_
        else annotationValue gslb.Annotations key) ∧
    (∀ key : String,
      key ∈ annotationKeys (gslbIngress strategyAnnotation primaryGeoTagAnnotation
          SetControllerReference gslb).1.Annotations ↔
        key ∈ annotationKeys gslb.Annotations ∨ key = strategyAnnotation ∨
          (key = primaryGeoTagAnnotation ∧ gslb.Strategy.PrimaryGeoTag ≠ "")) := by
  rw [gslbIngress_gslb]
  by_cases h : gslb.Strategy.PrimaryGeoTag = ""
  · simp only [h, ne_eq, not_true_eq_false, if_false, and_false, or_false, and_self, true_and]
    refine ⟨fun key => annotationValue_set _ _ _ _, fun key => annotationKeys_set _ _ _ _⟩
  · simp only [h, ne_eq, not_false_eq_true, if_true, and_true, and_self, true_and]
    refine ⟨fun key => ?_, fun key => ?_⟩
    · rw [annotationValue_set, annotationValue_set]
    · rw [annotationKeys_set, annotationKeys_set, or_assoc]

/-! ## Aborting calls of remove -/

/-- An iteration that does not abort keeps the length of the backing array and
its last element, and does not lengthen the list. -/
theorem removeStep_keeps (s : String) (array : List String) (len i : Nat)
    (array1 : List String) (len1 : Nat) (hlen : len ≤ array.length)
    (h : removeStep s array len i = some (array1, len1)) :
    array1.length = array.length ∧
      array1.get? (array.length - 1) = array.get? (array.length - 1) ∧ len1 ≤ len := by
  unfold removeStep at h
  cases hv : array.get? i with
  | none => rw [hv] at h; exact absurd h (by simp)
  | some v =>
    rw [hv] at h
    by_cases hs : v = s
    · by_cases hi : i + 1 ≤ len
      · simp only [hs, hi, if_true, Option.some.injEq, Prod.mk.injEq] at h
        obtain ⟨h1, h2⟩ := h
        subst h1 h2
        have hl1 : (List.take i array ++ List.drop (i + 1) (List.take len array)).length
            = len - 1 := by
          simp only [List.length_append, List.length_take, List.length_drop]
          omega
        refine ⟨?_, ?_, by omega⟩
        · rw [List.length_append, hl1, List.length_drop]
          omega
        · rw [List.get?_eq_getElem?, List.get?_eq_getElem?,
            List.getElem?_append_right (by rw [hl1]; omega), hl1, List.getElem?_drop]
          congr 1
          omega
      · simp [hs, hi] at h
    · simp only [hs, if_false, Option.some.injEq, Prod.mk.injEq] at h
      obtain ⟨h1, h2⟩ := h
      subst h1 h2
      exact ⟨rfl, rfl, Nat.le_refl _⟩

/-- Once the list is shorter than its backing array and the last element of the
array is `s`, the loop aborts when it reaches the last index. -/
theorem removeLoop_aborts (s : String) :
    ∀ (idxs : List Nat) (array : List String) (len : Nat),
      array.get? (array.length - 1) = some s → len < array.length →
      array.length - 1 ∈ idxs → removeLoop s idxs array len = none := by
  intro idxs
  induction idxs with
  | nil => intro array len _ _ hmem; exact absurd hmem (List.not_mem_nil _)
  | cons i rest ih =>
    intro array len hlast hlen hmem
    simp only [removeLoop]
    cases hstep : removeStep s array len i with
    | none => rfl
    | some p =>
      obtain ⟨array1, len1⟩ := p
      obtain ⟨hl, hg, hle⟩ := removeStep_keeps s array len i array1 len1 (Nat.le_of_lt hlen) hstep
      rcases List.mem_cons.mp hmem with hi | hi
      · exfalso
        subst hi
        unfold removeStep at hstep
        rw [hlast] at hstep
        have hno : ¬ (array.length - 1 + 1 ≤ len) := by omega
        simp [hno] at hstep
      · simp only
        apply ih array1 len1
        · rw [hl, hg, hlast]
        · omega
        · rw [hl]; exact hi

/-- A list that ends in `s` and holds `s` before: the call aborts. -/
theorem remove_aborts (pre : List String) (s : String) (h : s ∈ pre) :
    remove (pre ++ [s]) s = none := by
  obtain ⟨p1, p2, rfl, hp1⟩ := List.eq_append_cons_of_mem h
  have hlen : (p1 ++ s :: p2 ++ [s]).length = p1.length + (p2.length + 1 + 1) := by
    simp
  have hrange : List.range (p1.length + (p2.length + 1 + 1)) =
      List.range' 0 p1.length ++ (p1.length :: List.range' (p1.length + 1) (p2.length + 1)) := by
    rw [List.range_eq_range', Nat.add_comm,
      ← List.range'_append_1 0 p1.length (p2.length + 1 + 1), Nat.zero_add, List.range'_succ]
  unfold remove
  rw [hlen, hrange]
  rw [removeLoop_skip s (List.range' 0 p1.length) _ _ _ (by
    intro i hi
    have hi2 : i < p1.length := by simpa using hi
    refine ⟨p1.get ⟨i, hi2⟩, ?_, ?_⟩
    · rw [List.get?_eq_getElem?, List.append_assoc, List.getElem?_append_left hi2]
      simp
    · intro hc
      exact hp1 (hc ▸ List.get_mem p1 i hi2))]
  have hmem : p1.length + (p2.length + 1 + 1) - 1 ∈
      List.range' (p1.length + 1) (p2.length + 1) := by
    simp
  generalize List.range' (p1.length + 1) (p2.length + 1) = rest at hmem ⊢
  simp only [removeLoop]
  cases hstep : removeStep s (p1 ++ s :: p2 ++ [s]) (p1.length + (p2.length + 1 + 1)) p1.length with
  | none => rfl
  | some p =>
    obtain ⟨array1, len1⟩ := p
    obtain ⟨hl, hg, _⟩ := removeStep_keeps s _ _ _ array1 len1 (by rw [hlen]) hstep
    have hlast : (p1 ++ s :: p2 ++ [s]).get? ((p1 ++ s :: p2 ++ [s]).length - 1) = some s := by
      rw [List.get?_eq_getElem?, List.getElem?_append_right (by simp)]
      simp
    have hlen1 : len1 = p1.length + (p2.length + 1) := by
      unfold removeStep at hstep
      have hget : (p1 ++ s :: p2 ++ [s]).get? p1.length = some s := by
        rw [List.get?_eq_getElem?, List.append_assoc,
          List.getElem?_append_right (Nat.le_refl _)]
        simp
      rw [hget] at hstep
      have hle : p1.length + 1 ≤ p1.length + (p2.length + 1 + 1) := by omega
      simp only [if_true, hle, Option.some.injEq, Prod.mk.injEq] at hstep
      omega
    simp only
    apply removeLoop_aborts s _ array1 len1
    · rw [hl, hg, hlast]
    · rw [hl, hlen, hlen1]; omega
    · rw [hl, hlen]
      exact hmem

/-- C23, evaluation at the failing inputs: with the finalizer twice in the list, the
second time as the last element, the call aborts with a slice bound out of
range, whether the two occurrences are adjacent or not. -/
theorem remove_aborts_on_repeated_finalizer :
    remove ["finalizer", "finalizer"] "finalizer" = none ∧
    remove ["finalizer", "other", "finalizer"] "finalizer" = none ∧
    remove ["other", "finalizer", "another", "finalizer"] "finalizer" = none := by
  decide

/-! ## Membership after removal -/

/-- The function `contains` decides membership. -/
theorem contains_iff (list : List String) (s : String) : contains list s = true ↔ s ∈ list := by
  induction list with
  | nil => simp [contains]
  | cons v rest ih =>
    unfold contains
    by_cases hv : v = s
    · simp [hv]
    · have hv2 : ¬ s = v := fun hc => hv hc.symm
      simp [hv, hv2, ih]

/-- Filtering out a string that does not occur changes nothing. -/
theorem filter_ne_of_not_mem (list : List String) (s : String) (h : s ∉ list) :
    list.filter (fun v => decide (v ≠ s)) = list := by
  rw [List.filter_eq_self]
  intro v hv
  simp only [ne_eq, decide_not, Bool.not_eq_eq_eq_not, Bool.not_true, decide_eq_false_iff_not]
  intro hc
  exact h (hc ▸ hv)

/-- A list in which `s` occurs at most once: `remove` returns the other elements. -/
theorem remove_of_count_le_one (list : List String) (s : String) (h : list.count s ≤ 1) :
    remove list s = some (list.filter (fun v => decide (v ≠ s))) := by
  by_cases hmem : s ∈ list
  · obtain ⟨pre, post, rfl⟩ := List.append_of_mem hmem
    have hc : List.count s pre + (List.count s post + 1) ≤ 1 := by
      simpa [List.count_append] using h
    have hpre : s ∉ pre := List.count_eq_zero.mp (by omega)
    have hpost : s ∉ post := List.count_eq_zero.mp (by omega)
    rw [remove_single pre post s hpre hpost, List.filter_append, List.filter_cons,
      filter_ne_of_not_mem pre s hpre, filter_ne_of_not_mem post s hpost]
    simp
  · rw [remove_absent list s hmem, filter_ne_of_not_mem list s hmem]

/-- C24: for every list in which s occurs at most once, `remove(list, s)` returns the
elements of the list other than s in their original order, and `contains`
is false of the result and s; and for every list, `contains(list, s)` is
true exactly when s is an element of the list. -/
theorem removal_clears_membership (list : List String) (s : String)
    (h : list.count s ≤ 1) :
    (∃ result, remove list s = some result ∧
      result = list.filter (fun v => decide (v ≠ s)) ∧ contains result s = false) ∧
    (∀ (l : List String) (v : String), contains l v = true ↔ v ∈ l) := by
  refine ⟨⟨_, remove_of_count_le_one list s h, rfl, ?_⟩, contains_iff⟩
  cases hc : contains (list.filter (fun v => decide (v ≠ s))) s with
  | false => rfl
  | true =>
    have hmem := (contains_iff _ s).mp hc
    simp at hmem

/-- C24, witness: a finalizer list that holds the finalizer of the reconciler once. -/
theorem removal_clears_membership_witness :
    (["other", "finalizer", "another"] : List String).count "finalizer" ≤ 1 ∧
    remove ["other", "finalizer", "another"] "finalizer" = some ["other", "another"] ∧
    contains ["other", "another"] "finalizer" = false ∧
    contains ["other", "finalizer", "another"] "finalizer" = true := by
  obtain ⟨⟨result, h1, h2, h3⟩, _⟩ :=
    removal_clears_membership ["other", "finalizer", "another"] "finalizer" (by decide)
  have h4 : result = ["other", "another"] := by rw [h2]; decide
  subst h4
  exact ⟨by decide, h1, h3, by decide⟩

/-! ## What ingressEqual compares -/

/-- The comparison `ingressEqual` makes: equal Specs, and for every entry of the
second map the first map reads the same value under its key. -/
theorem ingressEqual_iff (ing1 ing2 : Ingress) :
    ingressEqual ing1 ing2 = true ↔
      ing1.Spec = ing2.Spec ∧
        ∀ kv ∈ ing2.Annotations, annotationValue ing1.Annotations kv.1 = kv.2 := by
  unfold ingressEqual
  by_cases hall : (ing2.Annotations.all
      (fun kv => decide (annotationValue ing1.Annotations kv.1 = kv.2))) = true
  · rw [if_pos hall]
    simp only [decide_eq_true_eq]
    rw [List.all_eq_true] at hall
    exact ⟨fun h => ⟨h, fun kv hkv => by simpa using hall kv hkv⟩, fun h => h.1⟩
  · rw [if_neg hall]
    constructor
    · intro h; exact absurd h (by simp)
    · rintro ⟨_, h⟩
      exact absurd (List.all_eq_true.mpr (fun kv hkv => by simpa using h kv hkv)) hall

/-- A key that reads as a non-empty value is a key of the map. -/
theorem mem_keys_of_annotationValue (m : List (String × String)) (key : String)
    (h : annotationValue m key ≠ "") : key ∈ annotationKeys m := by
  unfold annotationValue at h
  cases hf : m.find? (fun kv => decide (kv.1 = key)) with
  | none => rw [hf] at h; exact absurd rfl h
  | some kv =>
    have hk := List.find?_some hf
    have hm := List.mem_of_find?_eq_some hf
    simp only [decide_eq_true_eq] at hk
    rw [← hk]
    exact List.mem_map_of_mem Prod.fst hm

/-- Two Ingresses that `ingressEqual` takes for equal: every desired annotation with
a non-empty value is carried by the Ingress found. -/
theorem ingressEqual_nonempty_present (found i : Ingress) (h : ingressEqual found i = true)
    (key value : String) (hkv : (key, value) ∈ i.Annotations) (hne : value ≠ "") :
    key ∈ annotationKeys found.Annotations ∧ annotationValue found.Annotations key = value := by
  have hv := ((ingressEqual_iff found i).mp h).2 (key, value) hkv
  simp only at hv
  exact ⟨mem_keys_of_annotationValue _ _ (by rw [hv]; exact hne), hv⟩

/-- C25, evaluation at the failing input: the Gslb has got the annotation
`example.com/flag` with the empty string as its value, so the Ingress
derived from it asks for that key, and the Ingress found has no such key;
`ingressEqual` returns true all the same, and `saveIngress` returns after
the read without an update, the stored Ingress still lacking the key. -/
theorem ingressEqual_hides_missing_empty_annotation :
    (gslbIngress "k8gb.io/strategy" "k8gb.io/primary-geotag" ownerSet flaggedGslb).2 =
      .ok flaggedIngress ∧
    ("example.com/flag", "") ∈ flaggedIngress.Annotations ∧
    "example.com/flag" ∉ annotationKeys managedIngress.Annotations ∧
    managedIngress.Spec = flaggedIngress.Spec ∧
    ingressEqual managedIngress flaggedIngress = true ∧
    (saveIngress flaggedGslb flaggedIngress (quietKube [managedIngress] [])).1 = none ∧
    issuedKube (quietKube [managedIngress] [])
        (saveIngress flaggedGslb flaggedIngress (quietKube [managedIngress] [])).2 =
      [.GetIngress "test-gslb" "test-gslb"] ∧
    (saveIngress flaggedGslb flaggedIngress (quietKube [managedIngress] [])).2.ingress
        "test-gslb" "test-gslb" = some managedIngress := by
  refine ⟨rfl, ?_⟩
  decide

end K8gb
